import Mathlib

/-!
# mas driver: frame ring buffer and DSP command engine

A shallow embedding of `driver/data.c` (the frame ring buffer) and of the
command/reply engine of `driver/dsp_driver.c`, with the properties the
specification states about them.

Conventions of the embedding.

* C `int` values are `Int`.  Signed overflow is undefined in C, so the
  embedding describes the executions in which no `int` operation overflows.
* C `%` is truncating remainder, `cmod` below; a zero divisor has no defined
  behaviour in C and is outside the embedding (`data_frame_divide` only ever
  leaves `max_index >= 2` on success).
* Each function takes the per-card record it works on (`data_frames + card`,
  `dsp_dev + card`) and returns its return value together with the new record.
* Effects on the kernel are recorded in ghost fields of the record: messages
  printed with `PRINT_ERR` that mark a path (`klog`), wake-ups of the reader
  queue (`wakeups`), schedulings of the grant tasklet (`grants`), callback
  invocations (`called`), a read through a NULL pointer (`oops`).
* Constants, and the one function, that the code takes from files which are
  not among the sources are parameters (`dsp_consts`, `data_consts`).
* A call that may sleep or loop without bound takes what bounds it (`fuel`,
  the list of things that happen meanwhile) and returns `none` when it has not
  returned by then.
-/

namespace Mas

/-! ## C arithmetic -/

/-- The C operator `%` on `int`: remainder of the division truncating toward zero. -/
def cmod (a b : Int) : Int := Int.tmod a b

/-- The value of a C comparison: 1 when it holds, 0 otherwise. -/
def b2i (b : Bool) : Int := if b then 1 else 0

/-! ## The frame buffer (`data.c`) -/

/-- The record `frame_buffer_t` (fields used by the buffer management code of
`data.c`; the struct itself is declared in `data.h`).  The C field `partial`
is named `partial_bytes` here.  `klog`, `wakeups` and `grants` are ghost
fields recording kernel effects. -/
structure frame_buffer_t where
  size : Int
  frame_size : Int
  data_size : Int
  max_index : Int
  head_index : Int
  tail_index : Int
  partial_bytes : Int
  dropped : Int
  flags : Int
  data_mode : Int
  klog : List String
  wakeups : Nat
  grants : Nat
deriving DecidableEq, Repr

/-- `wake_up_interruptible(&dframes->queue)`. -/
def wake_up_queue (s : frame_buffer_t) : frame_buffer_t :=
  { s with wakeups := s.wakeups + 1 }

/-- `tasklet_schedule(&dframes->grant_tasklet)`. -/
def schedule_grant (s : frame_buffer_t) : frame_buffer_t :=
  { s with grants := s.grants + 1 }

/-- `PRINT_ERR(msg)`. -/
def print_err (msg : String) (s : frame_buffer_t) : frame_buffer_t :=
  { s with klog := msg :: s.klog }

/-- `data_frame_increment` (data.c:88-113, without the `OPT_WATCHER` block,
which only reports the fill level). -/
def data_frame_increment (s : frame_buffer_t) : Int × frame_buffer_t :=
  let s := wake_up_queue s
  let d := cmod (s.head_index + 1) s.max_index
  if d = s.tail_index then
    (-1, { s with dropped := s.dropped + 1 })
  else
    (0, { s with head_index := d })

/-- The message `data_frame_contribute` prints on its "buffer trashed" path. -/
def trashed_msg : String := "data_frame_contribute: buffer trashed!"

/-- `data_frame_contribute` (data.c:129-164). -/
def data_frame_contribute (new_head : Int) (s : frame_buffer_t) : Int × frame_buffer_t :=
  let d := b2i (decide (new_head ≥ s.head_index))
         + b2i (decide (s.head_index ≥ s.tail_index))
         + b2i (decide (s.tail_index > new_head))
  let s :=
    if d ≠ 2 then
      let s := print_err trashed_msg s
      let s := { s with head_index := new_head }
      { s with tail_index := cmod (new_head + 1) s.max_index }
    else
      { s with head_index := new_head }
  let s := schedule_grant s
  let s := wake_up_queue s
  (0, s)

/-- `data_frame_poll` (data.c:174-179). -/
def data_frame_poll (s : frame_buffer_t) : Int :=
  b2i (decide (s.tail_index ≠ s.head_index))

/-- One execution of the body of the `while` loop of `data_copy_frame`
(data.c:314-342).  `user_buf` and `kern_buf` say whether the respective
pointer is non-NULL; `copy_to_user n` is the value the call of `copy_to_user`
for `n` bytes returns (the number of bytes it could not copy).  The bytes
themselves are not modelled, only their number.  Returns the updated `count`,
`count_out` and buffer. -/
def data_copy_frame_body (copy_to_user : Int → Int) (user_buf kern_buf : Bool)
    (count count_out : Int) (s : frame_buffer_t) : Int × Int × frame_buffer_t :=
  let this_read :=
    if s.data_size - s.partial_bytes < count then s.data_size - s.partial_bytes else count
  let this_read := if user_buf then this_read - copy_to_user this_read else this_read
  -- `memcpy(kern_buf, source, this_read)` moves bytes only
  let _ := kern_buf
  let count := count - this_read
  let count_out := count_out + this_read
  let s := { s with partial_bytes := s.partial_bytes + this_read }
  let s :=
    if s.partial_bytes ≥ s.data_size then
      let d := cmod (s.tail_index + 1) s.max_index
      { { s with tail_index := d } with partial_bytes := 0 }
    else s
  (count, count_out, s)

/-- The `while` loop of `data_copy_frame` (data.c:312-343), run for at most
`fuel` iterations.  `copy_to_user k n` is the return value of the `k`-th call
of `copy_to_user` in this loop when asked for `n` bytes.  The first component
is `some count_out` when the loop has exited, `none` when it is still running
after `fuel` iterations; the second is the buffer reached. -/
def data_copy_frame_loop (copy_to_user : Nat → Int → Int) (user_buf kern_buf : Bool) :
    Nat → Int → Int → frame_buffer_t → Option Int × frame_buffer_t
  | fuel, count, count_out, s =>
    if s.tail_index ≠ s.head_index ∧ count > 0 then
      match fuel with
      | 0 => (none, s)
      | fuel + 1 =>
        let r := data_copy_frame_body (copy_to_user 0) user_buf kern_buf count count_out s
        data_copy_frame_loop (fun k => copy_to_user (k + 1)) user_buf kern_buf
          fuel r.1 r.2.1 r.2.2
    else
      (some count_out, s)

/-- `data_copy_frame` (data.c:296-346); `nonblock` is not used by the C body.
The result is `(some r, s)` when the call returns `r` leaving the buffer `s`,
and `(none, s)` when the loop is still running after `fuel` iterations. -/
def data_copy_frame (fuel : Nat) (copy_to_user : Nat → Int → Int)
    (user_buf kern_buf : Bool) (count : Int) (nonblock : Int) (s : frame_buffer_t) :
    Option Int × frame_buffer_t :=
  let _ := nonblock
  if ¬ (xor user_buf kern_buf) then
    (some (-1), print_err "data_copy_frame: number of dest'n buffers != 1" s)
  else
    data_copy_frame_loop copy_to_user user_buf kern_buf fuel count 0 s

/-- `data_tail_increment` (data.c:352-362). -/
def data_tail_increment (s : frame_buffer_t) : Int × frame_buffer_t :=
  let d := cmod (s.tail_index + 1) s.max_index
  if s.head_index = s.tail_index then
    (-1, s)
  else
    (0, { { s with tail_index := d } with partial_bytes := 0 })

/-- `copy_to_user` and `memcpy` copying every byte asked for. -/
def copy_all : Nat → Int → Int := fun _ _ => 0

/-- A buffer just after `data_reset` in classic mode: indices, `partial` and
the drop counter are zero. -/
def reset_buffer (size frame_size data_size max_index : Int) : frame_buffer_t :=
  { size := size, frame_size := frame_size, data_size := data_size,
    max_index := max_index, head_index := 0, tail_index := 0, partial_bytes := 0,
    dropped := 0, flags := 0, data_mode := 0, klog := [], wakeups := 0, grants := 0 }

/-- Bytes held in the buffer: whole frames between `tail` and `head`, less the
part of the frame at `tail` already consumed. -/
def buffered (s : frame_buffer_t) : Int :=
  ((s.head_index - s.tail_index) % s.max_index) * s.data_size - s.partial_bytes

/-- Both indices lie in `[0, n)`. -/
def indices_within (n : Int) (s : frame_buffer_t) : Prop :=
  0 ≤ s.head_index ∧ s.head_index < n ∧ 0 ≤ s.tail_index ∧ s.tail_index < n

instance (n : Int) (s : frame_buffer_t) : Decidable (indices_within n s) := by
  unfold indices_within; infer_instance

/-- Both indices lie in `[0, max_index)`. -/
def indices_ok (s : frame_buffer_t) : Prop := indices_within s.max_index s

instance (s : frame_buffer_t) : Decidable (indices_ok s) := by
  unfold indices_ok; infer_instance

/-- The state invariant under which `data_copy_frame` is analysed: indices in
range, `0 <= partial < data_size`, and no partially read frame in an empty
buffer. -/
def copy_inv (s : frame_buffer_t) : Prop :=
  indices_ok s ∧ 0 ≤ s.partial_bytes ∧ s.partial_bytes < s.data_size ∧
  (s.head_index = s.tail_index → s.partial_bytes = 0)

instance (s : frame_buffer_t) : Decidable (copy_inv s) := by
  unfold copy_inv; infer_instance

/-- The fields of the buffer that `data_copy_frame` never writes. -/
def same_frame (s s' : frame_buffer_t) : Prop :=
  s'.head_index = s.head_index ∧ s'.max_index = s.max_index ∧
  s'.data_size = s.data_size ∧ s'.frame_size = s.frame_size ∧ s'.size = s.size ∧
  s'.dropped = s.dropped

/-- An operation of a producer/consumer run in classic mode: `produce_one` is a
call of `data_frame_increment`; `consume count nonblock to_user` is a call of
`data_copy_frame` with exactly one destination (`user_buf` when `to_user`,
`kern_buf` otherwise) whose copies succeed in full. -/
inductive ring_op where
  | produce_one
  | consume (count nonblock : Int) (to_user : Bool)
deriving DecidableEq, Repr

/-- A buffer with the tallies of a run: the number of `produce_one` calls and
the sum of the byte counts `data_copy_frame` has returned. -/
structure ring_trace where
  buf : frame_buffer_t
  produced : Int
  consumed : Int
deriving DecidableEq, Repr

/-- One operation of a run.  The loop of `data_copy_frame` is given
`count.toNat` iterations (`data_copy_frame_loop_spec` shows that they suffice);
a call that has not returned by then gives no trace. -/
def ring_step (t : ring_trace) : ring_op → Option ring_trace
  | ring_op.produce_one =>
    some { t with buf := (data_frame_increment t.buf).2, produced := t.produced + 1 }
  | ring_op.consume count nonblock to_user =>
    match data_copy_frame count.toNat copy_all to_user (!to_user) count nonblock t.buf with
    | (some r, s) => some { t with buf := s, consumed := t.consumed + r }
    | (none, _) => none

/-- A run: the operations applied in order. -/
def ring_run : ring_trace → List ring_op → Option ring_trace
  | t, [] => some t
  | t, op :: ops =>
    match ring_step t op with
    | some t1 => ring_run t1 ops
    | none => none

/-- The byte balance of a trace: bytes produced and not dropped are the bytes
handed out plus the bytes still buffered. -/
def ring_balanced (t : ring_trace) : Prop :=
  t.buf.data_size * (t.produced - t.buf.dropped) = t.consumed + buffered t.buf

instance (t : ring_trace) : Decidable (ring_balanced t) := by
  unfold ring_balanced; infer_instance

/-- A buffer with `head == tail` and a stale non-zero `partial`: within the
ranges `0 <= head, tail < max_index` and `0 <= partial < data_size`, but not
reached from a reset buffer by `data_frame_increment` and `data_copy_frame`. -/
def stale_partial_buffer : frame_buffer_t :=
  { reset_buffer 64 32 16 2 with partial_bytes := 1 }

/-- The three orderings of `new_head`, `head` and `tail` named in the comment of
`data_frame_contribute` (data.c:142-144). -/
def cyclic_order (new_head : Int) (s : frame_buffer_t) : Prop :=
  (new_head ≥ s.head_index ∧ s.head_index ≥ s.tail_index) ∨
  (s.head_index ≥ s.tail_index ∧ s.tail_index > new_head) ∨
  (s.tail_index > new_head ∧ new_head ≥ s.head_index)

instance (new_head : Int) (s : frame_buffer_t) : Decidable (cyclic_order new_head s) := by
  unfold cyclic_order; infer_instance

/-- A buffer of four frames with `head = 1` and `tail = 3`, two frames unread. -/
def wrapped_buffer : frame_buffer_t :=
  { reset_buffer 128 32 16 4 with head_index := 1, tail_index := 3 }

/-- A buffer of four frames of 16 bytes with two frames unread, 3 bytes of the
first already consumed. -/
def half_read_buffer : frame_buffer_t :=
  { reset_buffer 128 32 16 4 with head_index := 2, partial_bytes := 3 }

/-! ### Partition and resize -/

/-- Constants and functions that `data.c` takes from parts of the driver which
are not among the sources: the DMA alignment and its mask (`data.h`), the code
of the quiet transfer mode, and `data_qt_configure` (`data_qt.c`), given as
the function of its first argument and the buffer to its return value and the
buffer it leaves. -/
structure data_consts where
  DMA_ADDR_ALIGN : Int
  DMA_ADDR_MASK : Int
  DATAMODE_QUIET : Int
  data_qt_configure : Int → frame_buffer_t → Int × frame_buffer_t

/-- The C operator `/` on `int`: division truncating toward zero. -/
def cdiv (a b : Int) : Int := Int.tdiv a b

/-- The 32-bit pattern of a C integer. -/
def to_u32 (a : Int) : Nat := (a % 2 ^ 32).toNat

/-- The `int` with a given 32-bit pattern (two's complement). -/
def to_s32 (n : Nat) : Int :=
  if n % 2 ^ 32 < 2 ^ 31 then ((n % 2 ^ 32 : Nat) : Int) else ((n % 2 ^ 32 : Nat) : Int) - 2 ^ 32

/-- The C operator `&` on 32-bit operands, the result stored in an `int`. -/
def cand32 (a m : Int) : Int := to_s32 (to_u32 a &&& to_u32 m)

/-- `data_frame_divide` (data.c:261-280). -/
def data_frame_divide (D : data_consts) (new_data_size : Int) (s : frame_buffer_t) :
    Int × frame_buffer_t :=
  let s := if new_data_size ≥ 0 then { s with data_size := new_data_size } else s
  let s := { s with frame_size := cand32 (s.data_size + D.DMA_ADDR_ALIGN - 1) D.DMA_ADDR_MASK }
  let s := { s with max_index := cdiv s.size s.frame_size }
  if s.max_index ≤ 1 then
    (-1, print_err "data_frame_divide: buffer can only hold %i data packet!" s)
  else
    (0, s)

/-- `data_frame_resize` (data.c:183-213). -/
def data_frame_resize (D : data_consts) (size : Int) (s : frame_buffer_t) :
    Int × frame_buffer_t :=
  if size = s.data_size then
    (0, s)
  else if s.tail_index ≠ s.head_index then
    (-1, print_err "data_frame_resize: can't change frame size while buffer not empty" s)
  else if size ≤ 0 then
    (-2, print_err "data_frame_resize: can't change frame size to non-positive number" s)
  else
    let r := data_frame_divide D size s
    if r.1 ≠ 0 then
      (-3, print_err "data_frame_resize: failed to divide the buffer by %#x" r.2)
    else if r.2.data_mode = D.DATAMODE_QUIET then
      let q := D.data_qt_configure 1 r.2
      if q.1 ≠ 0 then
        (-4, print_err "data_frame_resize: can't set DSP quiet mode frame size" q.2)
      else
        (0, q.2)
    else
      (0, r.2)

/-- `data_frame_address` (data.c:56-64): the bus address handed to the card,
as an offset from `base_busaddr`. -/
def data_frame_address (s : frame_buffer_t) : Int :=
  s.frame_size * s.head_index

/-- A call on the buffer, by the producer or by the consumer:
`data_frame_increment`, `data_frame_contribute new_head`, `data_copy_frame`
run for `fuel` iterations of its loop with the given destinations and copy
results, or `data_tail_increment`. -/
inductive buffer_op where
  | increment
  | contribute (new_head : Int)
  | copy_frame (fuel : Nat) (copy_to_user : Nat → Int → Int) (user_buf kern_buf : Bool)
      (count nonblock : Int)
  | tail_increment

/-- The buffer a call leaves. -/
def buffer_op.apply (s : frame_buffer_t) : buffer_op → frame_buffer_t
  | buffer_op.increment => (data_frame_increment s).2
  | buffer_op.contribute new_head => (data_frame_contribute new_head s).2
  | buffer_op.copy_frame fuel ctu ub kb count nonblock =>
    (data_copy_frame fuel ctu ub kb count nonblock s).2
  | buffer_op.tail_increment => (data_tail_increment s).2

/-- The buffer a sequence of calls leaves. -/
def buffer_run (s : frame_buffer_t) (ops : List buffer_op) : frame_buffer_t :=
  ops.foldl buffer_op.apply s

/-- The `new_head` of every `data_frame_contribute` call of the sequence lies
in `[0, n)`. -/
def new_heads_within (n : Int) : List buffer_op → Prop
  | [] => True
  | buffer_op.contribute new_head :: ops =>
    0 ≤ new_head ∧ new_head < n ∧ new_heads_within n ops
  | _ :: ops => new_heads_within n ops

/-- The offset `partial` lies in `[0, n)`. -/
def partial_within (n : Int) (s : frame_buffer_t) : Prop :=
  0 ≤ s.partial_bytes ∧ s.partial_bytes < n

instance (n : Int) (s : frame_buffer_t) : Decidable (partial_within n s) := by
  unfold partial_within; infer_instance

/-- An empty buffer (`head == tail`) has no partly consumed frame. -/
def no_stale_offset (s : frame_buffer_t) : Prop :=
  s.head_index = s.tail_index → s.partial_bytes = 0

instance (s : frame_buffer_t) : Decidable (no_stale_offset s) := by
  unfold no_stale_offset; infer_instance

/-- The sum of comparisons `d` computed by `data_frame_contribute`
(data.c:146-149). -/
def contribute_score (new_head : Int) (s : frame_buffer_t) : Int :=
  b2i (decide (new_head ≥ s.head_index)) + b2i (decide (s.head_index ≥ s.tail_index))
    + b2i (decide (s.tail_index > new_head))

/-- `data_frame_increment` called `n` times in a row. -/
def increment_times : Nat → frame_buffer_t → frame_buffer_t
  | 0, s => s
  | n + 1, s => increment_times n (data_frame_increment s).2

/-- Values for the constants of `data_consts`, used in the examples; this
`data_qt_configure` succeeds and leaves the buffer alone. -/
def example_data_consts : data_consts :=
  { DMA_ADDR_ALIGN := 1024, DMA_ADDR_MASK := 0xfffffc00, DATAMODE_QUIET := 1,
    data_qt_configure := fun _ s => (0, s) }

/-- A region of 4096 bytes divided into four frames of 1024 bytes, in classic
mode, empty with both indices at 3. -/
def four_frame_buffer : frame_buffer_t :=
  { reset_buffer 4096 1024 1024 4 with head_index := 3, tail_index := 3 }

/-! ## The DSP command engine (`dsp_driver.c`) -/

/-- Constants that `dsp_driver.c` takes from headers which are not among the
sources (`dsp_driver.h`, `dsp_pci.h`, `mce/dsp.h`, the kernel configuration):
the command codes and host command vectors of the vector table, the register
bits, the timeout, the timeout error code and the width of `unsigned long`. -/
structure dsp_consts where
  DSP_WRM : Nat
  DSP_RDM : Nat
  DSP_VER : Nat
  DSP_GOA : Nat
  DSP_STP : Nat
  DSP_RST : Nat
  DSP_CON : Nat
  DSP_HST : Nat
  DSP_RCO : Nat
  DSP_QTS : Nat
  DSP_INT_RST : Nat
  DSP_INT_DON : Nat
  DSP_INT_RPC : Nat
  DSP_SYS_ERR : Nat
  DSP_SYS_RST : Nat
  HCVR_INT_RST : Nat
  HCVR_INT_DON : Nat
  HCVR_INT_RPC : Nat
  HCVR_SYS_ERR : Nat
  HCVR_SYS_RST : Nat
  HCVR_HC : Nat
  HSTR_TRDY : Nat
  HSTR_HTRQ : Nat
  DSP_DEFAULT_TIMEOUT : Nat
  DSP_ERR_TIMEOUT : Int
  BITS_PER_LONG : Nat

/-- Linux `EIO`. -/
def EIO : Int := 5

/-- Linux `EAGAIN`. -/
def EAGAIN : Int := 11

/-- Linux `ERESTARTSYS`. -/
def ERESTARTSYS : Int := 512

/-- `enum dsp_vector_type` (dsp_driver.c:86-89). -/
inductive dsp_vector_type where
  | VECTOR_STANDARD
  | VECTOR_QUICK
deriving DecidableEq, Repr

/-- `struct dsp_vector` (dsp_driver.c:91-95); the C field `type` is `vtype`. -/
structure dsp_vector where
  key : Nat
  vector : Nat
  vtype : dsp_vector_type
deriving DecidableEq, Repr

/-- `MY_HMNI` (dsp_driver.c:99). -/
def MY_HMNI : Nat := 0

/-- `dsp_vector_set` (dsp_driver.c:101-117): 15 initialisers in an array of
`NUM_DSP_CMD = 17` entries, so the last two entries are all zero
(`VECTOR_STANDARD` is 0). -/
def dsp_vector_set (K : dsp_consts) : List dsp_vector :=
  [ ⟨K.DSP_WRM, MY_HMNI ||| 0x0079, .VECTOR_STANDARD⟩,
    ⟨K.DSP_RDM, MY_HMNI ||| 0x007B, .VECTOR_STANDARD⟩,
    ⟨K.DSP_VER, MY_HMNI ||| 0x007B, .VECTOR_STANDARD⟩,
    ⟨K.DSP_GOA, MY_HMNI ||| 0x007D, .VECTOR_STANDARD⟩,
    ⟨K.DSP_STP, MY_HMNI ||| 0x007F, .VECTOR_STANDARD⟩,
    ⟨K.DSP_RST, MY_HMNI ||| 0x0081, .VECTOR_STANDARD⟩,
    ⟨K.DSP_CON, MY_HMNI ||| 0x0083, .VECTOR_STANDARD⟩,
    ⟨K.DSP_HST, MY_HMNI ||| 0x0085, .VECTOR_STANDARD⟩,
    ⟨K.DSP_RCO, MY_HMNI ||| 0x0087, .VECTOR_STANDARD⟩,
    ⟨K.DSP_QTS, MY_HMNI ||| 0x0089, .VECTOR_STANDARD⟩,
    ⟨K.DSP_INT_RST, K.HCVR_INT_RST, .VECTOR_QUICK⟩,
    ⟨K.DSP_INT_DON, K.HCVR_INT_DON, .VECTOR_QUICK⟩,
    ⟨K.DSP_INT_RPC, K.HCVR_INT_RPC, .VECTOR_QUICK⟩,
    ⟨K.DSP_SYS_ERR, K.HCVR_SYS_ERR, .VECTOR_QUICK⟩,
    ⟨K.DSP_SYS_RST, K.HCVR_SYS_RST, .VECTOR_QUICK⟩,
    ⟨0, 0, .VECTOR_STANDARD⟩,
    ⟨0, 0, .VECTOR_STANDARD⟩ ]

/-- `dsp_command` (declared in a header): the command code and three
arguments, four 32-bit words in all (`{ DSP_VER, {0,0,0} }`, dsp_driver.c:616;
"4 words into htxr", dsp_driver.c:87). -/
structure dsp_command where
  command : Nat
  arg0 : Nat
  arg1 : Nat
  arg2 : Nat
deriving DecidableEq, Repr

/-- The words of a command in memory order, `((u32*)cmd)[0..3]`. -/
def dsp_command.words (cmd : dsp_command) : List Nat :=
  [cmd.command, cmd.arg0, cmd.arg1, cmd.arg2]

/-- `dsp_message` (declared in a header): type code and three payload words;
the C field `type` is `mtype`. -/
structure dsp_message where
  mtype : Nat
  command : Nat
  reply : Nat
  data : Nat
deriving DecidableEq, Repr

/-- A write to a device register. -/
inductive reg_write where
  | htxr (value : Nat)
  | hcvr (value : Nat)
  | hctr (value : Nat)
deriving DecidableEq, Repr

/-- The device behind the memory-mapped registers `dsp_reg_t`, as the driver
sees it: `hcvr_reads k` and `hstr_reads k` are the values the `k`-th coming
read of HCVR and of HSTR returns (the device changes them on its own), and
`written` lists the register writes done so far, newest first. -/
structure dsp_reg_t where
  hcvr_reads : Nat → Nat
  hstr_reads : Nat → Nat
  written : List reg_write

/-- `dsp_read_hcvr` (dsp_driver.c:129-131). -/
def dsp_read_hcvr (d : dsp_reg_t) : Nat × dsp_reg_t :=
  (d.hcvr_reads 0, { d with hcvr_reads := fun k => d.hcvr_reads (k + 1) })

/-- `dsp_read_hstr` (dsp_driver.c:125-127). -/
def dsp_read_hstr (d : dsp_reg_t) : Nat × dsp_reg_t :=
  (d.hstr_reads 0, { d with hstr_reads := fun k => d.hstr_reads (k + 1) })

/-- `dsp_write_htxr` (dsp_driver.c:137-139). -/
def dsp_write_htxr (value : Nat) (d : dsp_reg_t) : dsp_reg_t :=
  { d with written := reg_write.htxr value :: d.written }

/-- `dsp_write_hcvr` (dsp_driver.c:141-143). -/
def dsp_write_hcvr (value : Nat) (d : dsp_reg_t) : dsp_reg_t :=
  { d with written := reg_write.hcvr value :: d.written }

/-- `dsp_state_t` (dsp_driver.c:160-165). -/
inductive dsp_state_t where
  | DDAT_IDLE
  | DDAT_CMD
deriving DecidableEq, Repr

/-- A `dsp_callback`: the function `dsp_send_command_wait_callback` of
`dsp_driver.c`, or a function defined elsewhere, identified by its address.
A numeral stands for the function at that address. -/
inductive dsp_callback where
  | wait_callback
  | other (address : Nat)
deriving DecidableEq, Repr

instance (n : Nat) : OfNat dsp_callback n := ⟨dsp_callback.other n⟩

/-- An invocation `callback(error, msg, card)` of a `dsp_callback`; `msg` is
`none` for a NULL message. -/
structure callback_call where
  callback : dsp_callback
  error : Int
  msg : Option dsp_message
  card : Int
deriving DecidableEq, Repr

/-- A `dsp_handler`: `dsp_reply_handler` or `dsp_hey_handler` of
`dsp_driver.c`, or a function defined elsewhere, identified by its address.
A numeral stands for the function at that address. -/
inductive dsp_handler where
  | reply_handler
  | hey_handler
  | other (address : Nat)
deriving DecidableEq, Repr

instance (n : Nat) : OfNat dsp_handler n := ⟨dsp_handler.other n⟩

/-- `dsp_handler_entry` (dsp_driver.c:149-155); `handler` is `none` for NULL. -/
structure dsp_handler_entry where
  code : Nat
  handler : Option dsp_handler
  data : Nat
deriving DecidableEq, Repr

/-- An entry filled with zero bytes. -/
def zero_entry : dsp_handler_entry := ⟨0, none, 0⟩

/-- `MAX_HANDLERS` (dsp_driver.c:157). -/
def MAX_HANDLERS : Nat := 16

/-- `LOCAL_CMD` (dsp_driver.c:173). -/
def LOCAL_CMD : Nat := 0x01

/-- `LOCAL_REP` (dsp_driver.c:174). -/
def LOCAL_REP : Nat := 0x02

/-- `LOCAL_ERR` (dsp_driver.c:175). -/
def LOCAL_ERR : Nat := 0x08

/-- The command engine of `struct dsp_dev_t` (dsp_driver.c:192-221): the
device, the timer `tim_dsp` (`some expires` while armed by `mod_timer`), the
counters, the state and the stored callback (`none` is NULL), and of
`struct dsp_local` the count of the semaphore `local.sem`, the contents of the
caller's message buffer that `local.msg` points to (`none` while nothing has
been copied into it) and `local.flags`; the handler table (`handlers i` is
`handlers[i]`; C has the entries below `MAX_HANDLERS` only) with its count
`n_handlers`; the `pci` pointer (`none` is NULL), whether `dsp` points to
mapped registers, `comm_mode`, and whether `int_handler` is set.  Two ghost
fields: `called`, the
callback invocations made so far, newest first (what the callbacks defined
elsewhere do is not part of this code), and `oops`, set when a NULL pointer
has been read through, after which the C execution is undefined and the
embedding goes on as if the read had fetched nothing. -/
structure dsp_dev_t where
  dsp : dsp_reg_t
  tim_dsp : Option Nat
  cmd_count : Int
  rep_count : Int
  state : dsp_state_t
  callback : Option dsp_callback
  called : List callback_call
  local_sem : Nat := 1
  local_msg : Option dsp_message := none
  local_flags : Nat := 0
  oops : Bool := false
  n_handlers : Int := 0
  handlers : Nat → dsp_handler_entry := fun _ => zero_entry
  pci : Option Nat := none
  dsp_mapped : Bool := true
  comm_mode : Nat := 0
  int_handler : Bool := false

/-- `dsp_send_command_wait_callback` (dsp_driver.c:546-563), on the record
`dsp_dev + card`.  The wake-up of `local.queue` is the re-evaluation of the
condition in `wait_event_interruptible`.  The argument `error` is not used by
the C body. -/
def dsp_send_command_wait_callback (error : Int) (msg : Option dsp_message)
    (dev : dsp_dev_t) : Int × dsp_dev_t :=
  let _ := error
  if dev.local_flags ≠ LOCAL_CMD then
    (-1, dev)
  else
    -- memcpy(dev->local.msg, msg, sizeof(*dev->local.msg))
    let dev :=
      match msg with
      | some m => { dev with local_msg := some m }
      | none => { dev with oops := true }
    (0, { dev with local_flags := dev.local_flags ||| LOCAL_REP })

/-- The call `callback(error, msg, card)`, on the record `dsp_dev + card`. -/
def invoke_callback (callback : dsp_callback) (error : Int) (msg : Option dsp_message)
    (card : Int) (dev : dsp_dev_t) : dsp_dev_t :=
  let dev := { dev with called := ⟨callback, error, msg, card⟩ :: dev.called }
  match callback with
  | dsp_callback.wait_callback => (dsp_send_command_wait_callback error msg dev).2
  | dsp_callback.other _ => dev

/-- `dsp_reply_handler` (dsp_driver.c:314-344); `card` is `dev - dsp_dev`. -/
def dsp_reply_handler (msg : dsp_message) (card : Int) (dev : dsp_dev_t) :
    Int × dsp_dev_t :=
  let callback : Option dsp_callback := none
  let r : Option dsp_callback × dsp_dev_t :=
    if dev.state = dsp_state_t.DDAT_CMD then
      (dev.callback,
        { dev with state := dsp_state_t.DDAT_IDLE, rep_count := dev.rep_count + 1 })
    else
      (callback, dev)
  match r.1 with
  | some cb => (0, invoke_callback cb 0 (some msg) card r.2)
  | none => (0, r.2)

/-- `dsp_timeout` (dsp_driver.c:361-382); `card` is `dev - dsp_dev`. -/
def dsp_timeout (K : dsp_consts) (card : Int) (dev : dsp_dev_t) : dsp_dev_t :=
  if dev.state = dsp_state_t.DDAT_CMD then
    let callback := dev.callback
    let dev := { dev with state := dsp_state_t.DDAT_IDLE }
    match callback with
    | some cb => invoke_callback cb (-K.DSP_ERR_TIMEOUT) none card dev
    | none => dev
  else
    dev

/-- `dsp_quick_command` (dsp_driver.c:401-408). -/
def dsp_quick_command (K : dsp_consts) (vector : Nat) (d : dsp_reg_t) : Int × dsp_reg_t :=
  (0, dsp_write_hcvr (vector ||| K.HCVR_HC) d)

/-- `dsp_lookup_vector` (dsp_driver.c:412-422): the first entry of the table
whose key is the command code, `none` for NULL. -/
def dsp_lookup_vector (K : dsp_consts) (cmd : dsp_command) : Option dsp_vector :=
  (dsp_vector_set K).find? (fun v => v.key == cmd.command)

/-- The loop `while (i<n && (dsp_read_hstr(dev->dsp) & HSTR_HTRQ)!=0)
dsp_write_htxr(...)` of `dsp_send_command_now_vector` (dsp_driver.c:444-445),
on the words not yet written; returns the words left unwritten. -/
def htxr_write_loop (K : dsp_consts) : List Nat → dsp_reg_t → List Nat × dsp_reg_t
  | [], d => ([], d)
  | w :: ws, d =>
    let r := dsp_read_hstr d
    if r.1 &&& K.HSTR_HTRQ ≠ 0 then
      htxr_write_loop K ws (dsp_write_htxr w r.2)
    else
      (w :: ws, r.2)

/-- `dsp_send_command_now_vector` (dsp_driver.c:427-456). -/
def dsp_send_command_now_vector (K : dsp_consts) (cmd : dsp_command) (vector : Nat)
    (d : dsp_reg_t) : Int × dsp_reg_t :=
  let r := dsp_read_hcvr d
  if r.1 &&& K.HCVR_HC ≠ 0 then
    (-EAGAIN, r.2)
  else
    let r := dsp_read_hstr r.2
    if r.1 &&& K.HSTR_TRDY = 0 then
      (- EIO, r.2)
    else
      let l := htxr_write_loop K cmd.words r.2
      if l.1 ≠ [] then
        -- the error message reads HSTR once more
        (- EIO, (dsp_read_hstr l.2).2)
      else
        (0, dsp_write_hcvr (vector ||| K.HCVR_HC) l.2)

/-- `dsp_send_command_now` (dsp_driver.c:461-484). -/
def dsp_send_command_now (K : dsp_consts) (cmd : dsp_command) (d : dsp_reg_t) :
    Int × dsp_reg_t :=
  match dsp_lookup_vector K cmd with
  | none => (-ERESTARTSYS, d)
  | some vect =>
    match vect.vtype with
    | .VECTOR_STANDARD => dsp_send_command_now_vector K cmd vect.vector d
    | .VECTOR_QUICK => dsp_quick_command K vect.vector d

/-- The value of `jiffies + DSP_DEFAULT_TIMEOUT` in `unsigned long`. -/
def timeout_expires (K : dsp_consts) (jiffies : Nat) : Nat :=
  (jiffies + K.DSP_DEFAULT_TIMEOUT) % 2 ^ K.BITS_PER_LONG

/-- `dsp_send_command` (dsp_driver.c:514-541), called when the clock reads
`jiffies`; `callback` is `none` for NULL. -/
def dsp_send_command (K : dsp_consts) (jiffies : Nat) (cmd : dsp_command)
    (callback : Option dsp_callback) (dev : dsp_dev_t) : Int × dsp_dev_t :=
  if dev.state ≠ dsp_state_t.DDAT_IDLE then
    (-EAGAIN, dev)
  else
    let r := dsp_send_command_now K cmd dev.dsp
    let err := r.1
    let dev := { dev with dsp := r.2 }
    if err = 0 then
      (err, { dev with cmd_count := dev.cmd_count + 1, callback := callback,
                       tim_dsp := some (timeout_expires K jiffies),
                       state := dsp_state_t.DDAT_CMD })
    else
      (err, dev)

/-- A delivery to the engine: a reply interrupt carrying a message, or the
expiry of the timer. -/
inductive dsp_event where
  | reply (msg : dsp_message)
  | timeout
deriving DecidableEq, Repr

/-- The handler run for a delivery. -/
def dsp_deliver (K : dsp_consts) (card : Int) (dev : dsp_dev_t) : dsp_event → dsp_dev_t
  | dsp_event.reply msg => (dsp_reply_handler msg card dev).2
  | dsp_event.timeout => dsp_timeout K card dev

/-- The handlers run for a sequence of deliveries, in order. -/
def dsp_deliver_all (K : dsp_consts) (card : Int) (dev : dsp_dev_t)
    (evs : List dsp_event) : dsp_dev_t :=
  evs.foldl (dsp_deliver K card) dev

/-- The callback invocation a delivery makes when it completes a command. -/
def completion_call (K : dsp_consts) (cb : dsp_callback) (card : Int) :
    dsp_event → callback_call
  | dsp_event.reply msg => ⟨cb, 0, some msg, card⟩
  | dsp_event.timeout => ⟨cb, -K.DSP_ERR_TIMEOUT, none, card⟩

/-- What happens while a caller sleeps in `wait_event_interruptible`: a
delivery to the engine, or a signal to the sleeping process. -/
inductive wait_happening where
  | deliver (ev : dsp_event)
  | signal
deriving DecidableEq, Repr

/-- `wait_event_interruptible(dev->local.queue, dev->local.flags & (LOCAL_REP |
LOCAL_ERR))` (dsp_driver.c:588-590) while the given things happen, in order:
returns 0 once the condition holds, `-ERESTARTSYS` on a signal; `none` when
the caller is still asleep after all of them. -/
def wait_event_interruptible (K : dsp_consts) (card : Int) :
    List wait_happening → dsp_dev_t → Option (Int × dsp_dev_t)
  | [], dev =>
    if dev.local_flags &&& (LOCAL_REP ||| LOCAL_ERR) ≠ 0 then some (0, dev) else none
  | h :: rest, dev =>
    if dev.local_flags &&& (LOCAL_REP ||| LOCAL_ERR) ≠ 0 then some (0, dev)
    else
      match h with
      | wait_happening.signal => some (-ERESTARTSYS, dev)
      | wait_happening.deliver ev =>
        wait_event_interruptible K card rest (dsp_deliver K card dev ev)

/-- `up(&dev->local.sem)`. -/
def up_local_sem (dev : dsp_dev_t) : dsp_dev_t :=
  { dev with local_sem := dev.local_sem + 1 }

/-- `dsp_send_command_wait` (dsp_driver.c:568-603), called when the clock reads
`jiffies`, with the things that happen while it sleeps; `none` when the
caller is still asleep after all of them.  The message the caller gets is
`local_msg` of the record returned. -/
def dsp_send_command_wait (K : dsp_consts) (jiffies : Nat) (cmd : dsp_command)
    (card : Int) (happenings : List wait_happening) (dev : dsp_dev_t) :
    Option (Int × dsp_dev_t) :=
  -- down_trylock(&dev->local.sem)
  if dev.local_sem = 0 then
    some (-ERESTARTSYS, dev)
  else
    let dev := { dev with local_sem := dev.local_sem - 1 }
    let dev := { dev with local_msg := none }
    let dev := { dev with local_flags := LOCAL_CMD }
    let r := dsp_send_command K jiffies cmd (some dsp_callback.wait_callback) dev
    if r.1 ≠ 0 then
      some (r.1, up_local_sem r.2)
    else
      match wait_event_interruptible K card happenings r.2 with
      | none => none
      | some w =>
        if w.1 ≠ 0 then
          some (-ERESTARTSYS, up_local_sem { w.2 with local_flags := 0 })
        else
          some ((if w.2.local_flags &&& LOCAL_ERR ≠ 0 then - EIO else 0), up_local_sem w.2)

/-! ### The handler table -/

/-- The loop `for (i=0; i<dev->n_handlers; i++) if (dev->handlers[i].code ==
code) ...` of `dsp_clear_handler` and `dsp_set_msg_handler`, with `left`
entries still to look at from index `i`: the index of the first entry with
the code, or the index at which the loop runs out. -/
def handler_scan (code : Nat) (handlers : Nat → dsp_handler_entry) : Nat → Nat → Nat
  | 0, i => i
  | left + 1, i =>
    if (handlers i).code = code then i else handler_scan code handlers left (i + 1)

/-- The loop `for ( ; i<dev->n_handlers; i++) memcpy(dev->handlers + i,
dev->handlers + i + 1, ...)` of `dsp_clear_handler`, with `left` entries still
to move from index `i`. -/
def handler_shift (handlers : Nat → dsp_handler_entry) :
    Nat → Nat → (Nat → dsp_handler_entry)
  | 0, _ => handlers
  | left + 1, i =>
    handler_shift (Function.update handlers i (handlers (i + 1))) left (i + 1)

/-- `dsp_clear_handler` (dsp_driver.c:799-827). -/
def dsp_clear_handler (code : Nat) (dev : dsp_dev_t) : Int × dsp_dev_t :=
  let i := handler_scan code dev.handlers dev.n_handlers.toNat 0
  if (i : Int) ≥ dev.n_handlers then
    (-1, dev)
  else
    let dev := { dev with n_handlers := dev.n_handlers - 1 }
    let dev := { dev with
      handlers := handler_shift dev.handlers (dev.n_handlers - (i : Int)).toNat i }
    let dev := { dev with
      handlers := Function.update dev.handlers dev.n_handlers.toNat zero_entry }
    (0, dev)

/-- `dsp_set_msg_handler` (dsp_driver.c:832-860).  The capacity
`MAX_HANDLERS` of the table is the argument `max_handlers`. -/
def dsp_set_msg_handler (max_handlers : Nat) (code : Nat) (handler : Option dsp_handler)
    (data : Nat) (dev : dsp_dev_t) : Int × dsp_dev_t :=
  let i := handler_scan code dev.handlers dev.n_handlers.toNat 0
  if (i : Int) < dev.n_handlers then
    -- the entry found inside the loop
    (0, { dev with
      handlers := Function.update dev.handlers i
        { dev.handlers i with handler := handler, data := data } })
  else if i < max_handlers then
    (0, { dev with
      handlers := Function.update dev.handlers i ⟨code, handler, data⟩,
      n_handlers := dev.n_handlers + 1 })
  else
    (-1, dev)

/-- A call on the handler table. -/
inductive registry_op where
  | set_msg_handler (code : Nat) (handler : Option dsp_handler) (data : Nat)
  | clear_handler (code : Nat)
deriving DecidableEq, Repr

/-- The record a call on the handler table leaves. -/
def registry_op.apply (max_handlers : Nat) (dev : dsp_dev_t) : registry_op → dsp_dev_t
  | registry_op.set_msg_handler code handler data =>
    (dsp_set_msg_handler max_handlers code handler data dev).2
  | registry_op.clear_handler code => (dsp_clear_handler code dev).2

/-- The record a sequence of calls on the handler table leaves. -/
def registry_run (max_handlers : Nat) (dev : dsp_dev_t) (ops : List registry_op) :
    dsp_dev_t :=
  ops.foldl (registry_op.apply max_handlers) dev

/-- The type codes of the first `n` entries are pairwise distinct. -/
def codes_distinct (n : Nat) (handlers : Nat → dsp_handler_entry) : Prop :=
  ∀ i, i < n → ∀ j, j < n → (handlers i).code = (handlers j).code → i = j

instance (n : Nat) (handlers : Nat → dsp_handler_entry) :
    Decidable (codes_distinct n handlers) := by
  unfold codes_distinct; infer_instance

/-- The invariant of the handler table for capacity `max_handlers`. -/
def registry_ok (max_handlers : Nat) (dev : dsp_dev_t) : Prop :=
  0 ≤ dev.n_handlers ∧ dev.n_handlers ≤ max_handlers ∧
  codes_distinct dev.n_handlers.toNat dev.handlers

/-! ### Card configuration -/

/-- Linux `EPERM`. -/
def EPERM : Int := 1

/-- Constants that `dsp_configure` takes from headers which are not among the
sources, and the compile-time option `NO_INTERRUPTS`. -/
structure configure_consts where
  DSP_PCI_MODE : Nat
  DSP_PCI_MODE_NOIRQ : Nat
  DSP_REP : Nat
  DSP_HEY : Nat
  NO_INTERRUPTS : Bool

/-- What the kernel answers to the calls `dsp_configure` makes:
the return values of `pci_enable_device`, `pci_request_regions` and
`request_irq`, and whether `ioremap_nocache` returns a mapping. -/
structure kernel_results where
  pci_enable_device : Int
  pci_request_regions : Int
  ioremap_nocache : Bool
  request_irq : Int

/-- `dsp_write_hctr` (dsp_driver.c:145-147). -/
def dsp_write_hctr (value : Nat) (d : dsp_reg_t) : dsp_reg_t :=
  { d with written := reg_write.hctr value :: d.written }

/-- `dsp_clear_interrupt` (dsp_driver.c:660-665). -/
def dsp_clear_interrupt (K : dsp_consts) (d : dsp_reg_t) : dsp_reg_t :=
  dsp_write_hcvr (K.HCVR_INT_DON ||| K.HCVR_HC)
    (dsp_write_hcvr (K.HCVR_INT_RST ||| K.HCVR_HC) d)

/-- `dsp_pci_remove_handler` (dsp_driver.c:726-745), without `REALTIME`. -/
def dsp_pci_remove_handler (dev : dsp_dev_t) : Int × dsp_dev_t :=
  if dev.int_handler = false then (0, dev) else (0, { dev with int_handler := false })

/-- `dsp_pci_set_handler` (dsp_driver.c:749-793), without `REALTIME`, on the
record `dsp_dev + card`. -/
def dsp_pci_set_handler (R : kernel_results) (dev : dsp_dev_t) : Int × dsp_dev_t :=
  if dev.pci = none then
    (-ERESTARTSYS, dev)
  else
    let dev := if dev.int_handler then (dsp_pci_remove_handler dev).2 else dev
    let err := R.request_irq
    if err ≠ 0 then (err, dev) else (0, { dev with int_handler := true })

/-- The loop `for (card=0; card<MAX_CARDS; card++) { dev = dsp_dev + card;
if(dev->pci == NULL) break; }` of `dsp_configure` (dsp_driver.c:981-984) over
the slots not yet looked at: the value of `card` when it ends. -/
def free_slot_scan : List dsp_dev_t → Nat → Nat
  | [], card => card
  | dev :: rest, card => if dev.pci = none then card else free_slot_scan rest (card + 1)

/-- The record `memset(dev, 0, sizeof(*dev))` leaves; the device behind the
registers and the ghost fields stay. -/
def zeroed_dev (old : dsp_dev_t) : dsp_dev_t :=
  { dsp := old.dsp, tim_dsp := none, cmd_count := 0, rep_count := 0,
    state := dsp_state_t.DDAT_IDLE, callback := none, called := old.called,
    local_sem := 0, local_msg := none, local_flags := 0, oops := old.oops,
    n_handlers := 0, handlers := fun _ => zero_entry, pci := none, dsp_mapped := false,
    comm_mode := 0, int_handler := false }

/-- `dsp_configure` from the initialisation of the device structure on
(dsp_driver.c:990-1064), on the slot `dsp_dev + card` found free. -/
def dsp_configure_slot (K : dsp_consts) (C : configure_consts) (R : kernel_results)
    (pci : Nat) (card : Nat) (old : dsp_dev_t) : Int × dsp_dev_t :=
  let dev := zeroed_dev old
  let dev := { dev with pci := some pci }
  -- tasklet_init, spin_lock_init, init_MUTEX, init_waitqueue_head, init_timer
  let dev := { dev with local_sem := 1, tim_dsp := none, state := dsp_state_t.DDAT_IDLE }
  let err := R.pci_enable_device
  if err ≠ 0 then (err, dev)
  else if R.pci_request_regions ≠ 0 then (-1, dev)
  else if R.ioremap_nocache = false then (- EIO, dev)
  else
    let dev := { dev with dsp_mapped := true }
    let dev := { dev with dsp := dsp_clear_interrupt K dev.dsp }
    let comm_mode :=
      if C.NO_INTERRUPTS then C.DSP_PCI_MODE ||| C.DSP_PCI_MODE_NOIRQ else C.DSP_PCI_MODE
    let dev := { dev with comm_mode := comm_mode, dsp := dsp_write_hctr comm_mode dev.dsp }
    let dev := { dev with int_handler := false }
    let r : Int × dsp_dev_t :=
      if dev.comm_mode &&& C.DSP_PCI_MODE_NOIRQ ≠ 0 then (0, dev)
      else dsp_pci_set_handler R dev
    if r.1 ≠ 0 then (r.1, r.2)
    else
      let dev := (dsp_set_msg_handler MAX_HANDLERS C.DSP_REP
        (some dsp_handler.reply_handler) card r.2).2
      let dev := (dsp_set_msg_handler MAX_HANDLERS C.DSP_HEY
        (some dsp_handler.hey_handler) card dev).2
      (0, dev)

/-- `dsp_configure` (dsp_driver.c:968-1064) on the table `dsp_dev` of
`MAX_CARDS` slots; `pci` is `none` for NULL.  The argument of the handlers
registered, `(unsigned long)dev`, is given as the index of the slot. -/
def dsp_configure (K : dsp_consts) (C : configure_consts) (R : kernel_results)
    (pci : Option Nat) (dsp_dev : List dsp_dev_t) : Int × List dsp_dev_t :=
  match pci with
  | none => (-EPERM, dsp_dev)
  | some p =>
    let card := free_slot_scan dsp_dev 0
    match dsp_dev.get? card with
    | none =>
      -- the loop ran out: `dev` is the last slot and `dev->pci != NULL`
      (-EPERM, dsp_dev)
    | some old =>
      let r := dsp_configure_slot K C R p card old
      (r.1, dsp_dev.set card r.2)

/-- The command codes of the 15 initialisers of `dsp_vector_set`. -/
def vector_codes (K : dsp_consts) : List Nat :=
  [K.DSP_WRM, K.DSP_RDM, K.DSP_VER, K.DSP_GOA, K.DSP_STP, K.DSP_RST, K.DSP_CON, K.DSP_HST,
   K.DSP_RCO, K.DSP_QTS, K.DSP_INT_RST, K.DSP_INT_DON, K.DSP_INT_RPC, K.DSP_SYS_ERR,
   K.DSP_SYS_RST]

/-- Why `dsp_send_command_now` fails on the device `d`: the command code is not
in the vector table, or the vector is a standard one and the command-vector
register is busy (`HCVR_HC` set), or the status register is not
transmit-ready (`HSTR_TRDY` clear), or the transmit FIFO stops asking for data
(`HSTR_HTRQ` clear) before all four words are written. -/
def send_failure_cause (K : dsp_consts) (cmd : dsp_command) (d : dsp_reg_t) : Prop :=
  match dsp_lookup_vector K cmd with
  | none => True
  | some vect =>
    vect.vtype = dsp_vector_type.VECTOR_STANDARD ∧
      (d.hcvr_reads 0 &&& K.HCVR_HC ≠ 0 ∨
       d.hstr_reads 0 &&& K.HSTR_TRDY = 0 ∨
       ∃ k, k < 4 ∧ d.hstr_reads (k + 1) &&& K.HSTR_HTRQ = 0)

/-- Values for the header constants, used in the examples. -/
def example_consts : dsp_consts :=
  { DSP_WRM := 0x57524D, DSP_RDM := 0x52444D, DSP_VER := 0x564552, DSP_GOA := 0x474F41,
    DSP_STP := 0x535450, DSP_RST := 0x525354, DSP_CON := 0x434F4E, DSP_HST := 0x485354,
    DSP_RCO := 0x52434F, DSP_QTS := 0x515453,
    DSP_INT_RST := 0x495253, DSP_INT_DON := 0x49444F, DSP_INT_RPC := 0x495250,
    DSP_SYS_ERR := 0x534552, DSP_SYS_RST := 0x535253,
    HCVR_INT_RST := 0x8073, HCVR_INT_DON := 0x8075, HCVR_INT_RPC := 0x808D,
    HCVR_SYS_ERR := 0x8077, HCVR_SYS_RST := 0x808B,
    HCVR_HC := 0x01, HSTR_TRDY := 0x01, HSTR_HTRQ := 0x02,
    DSP_DEFAULT_TIMEOUT := 500, DSP_ERR_TIMEOUT := 2, BITS_PER_LONG := 32 }

/-- A device that is ready: HCVR idle, HSTR always showing `TRDY | HTRQ`. -/
def ready_reg : dsp_reg_t :=
  { hcvr_reads := fun _ => 0, hstr_reads := fun _ => 3, written := [] }

/-- A device whose command-vector register is busy. -/
def busy_reg : dsp_reg_t :=
  { hcvr_reads := fun _ => 1, hstr_reads := fun _ => 3, written := [] }

/-- An engine as `dsp_configure` leaves it (zeroed, `DDAT_IDLE`) over a device. -/
def idle_dev (d : dsp_reg_t) : dsp_dev_t :=
  { dsp := d, tim_dsp := none, cmd_count := 0, rep_count := 0,
    state := dsp_state_t.DDAT_IDLE, callback := none, called := [] }

/-- The command `DSP_VER` with zero arguments (dsp_driver.c:616). -/
def ver_cmd : dsp_command := ⟨example_consts.DSP_VER, 0, 0, 0⟩

/-- The command `DSP_INT_RST`, whose vector is a quick one (dsp_driver.c:112). -/
def int_rst_cmd : dsp_command := ⟨example_consts.DSP_INT_RST, 0, 0, 0⟩

/-- Values for the constants of `configure_consts`, used in the examples. -/
def example_configure_consts : configure_consts :=
  { DSP_PCI_MODE := 0x900, DSP_PCI_MODE_NOIRQ := 0x10, DSP_REP := 0x524550,
    DSP_HEY := 0x484559, NO_INTERRUPTS := false }

/-- A kernel that grants everything `dsp_configure` asks for. -/
def kernel_grants : kernel_results :=
  { pci_enable_device := 0, pci_request_regions := 0, ioremap_nocache := true,
    request_irq := 0 }

/-- A table of two cards: slot 0 holds the card with `pci_dev` 100, slot 1 is
free. -/
def one_card_table : List dsp_dev_t :=
  [{ idle_dev ready_reg with pci := some 100 }, idle_dev ready_reg]

/-- A table of two cards with both slots taken. -/
def full_card_table : List dsp_dev_t :=
  [{ idle_dev ready_reg with pci := some 100 }, { idle_dev ready_reg with pci := some 101 }]

/-- A handler table of capacity 2 that is full, with the codes 10 and 20. -/
def two_handlers_dev : dsp_dev_t :=
  { idle_dev ready_reg with
    n_handlers := 2,
    handlers := fun i => if i = 0 then ⟨10, some 1, 0⟩ else if i = 1 then ⟨20, some 2, 0⟩
      else zero_entry }

/-- A reply message. -/
def sample_msg : dsp_message := ⟨0x524550, 0x564552, 0x41434B, 0x550104⟩

/-! ## Arithmetic helpers -/

theorem cmod_eq_emod {a n : Int} (ha : 0 ≤ a) (hn : 0 ≤ n) : cmod a n = a % n :=
  Int.tmod_eq_emod ha hn

theorem cmod_succ {h n : Int} (h0 : 0 ≤ h) (hn : h < n) :
    cmod (h + 1) n = if h + 1 = n then 0 else h + 1 := by
  rw [cmod_eq_emod (by omega) (by omega)]
  split
  · next e => rw [e]; exact Int.emod_self
  · next e => exact Int.emod_eq_of_lt (by omega) (by omega)

theorem cmod_succ_range {h n : Int} (h0 : 0 ≤ h) (hn : h < n) :
    0 ≤ cmod (h + 1) n ∧ cmod (h + 1) n < n := by
  rw [cmod_succ h0 hn]; split <;> omega

theorem emod_of_small {x n : Int} (h1 : -n < x) (h2 : x < n) :
    x % n = if 0 ≤ x then x else x + n := by
  split
  · next h => exact Int.emod_eq_of_lt h h2
  · next h =>
    have e : x % n = (x + n) % n := by
      rw [Int.add_emod_self]
    rw [e]
    exact Int.emod_eq_of_lt (by omega) (by omega)

theorem buffered_nonneg {s : frame_buffer_t} (h : copy_inv s) : 0 ≤ buffered s := by
  obtain ⟨⟨h0, h1, t0, t1⟩, p0, p1, he⟩ := h
  unfold buffered
  by_cases e : s.head_index = s.tail_index
  · rw [he e, e]; simp
  · have hk : 1 ≤ (s.head_index - s.tail_index) % s.max_index := by
      rw [emod_of_small (by omega) (by omega)]
      split <;> omega
    nlinarith

theorem buffered_pos {s : frame_buffer_t} (h : copy_inv s)
    (e : s.tail_index ≠ s.head_index) : s.data_size - s.partial_bytes ≤ buffered s := by
  obtain ⟨⟨h0, h1, t0, t1⟩, p0, p1, he⟩ := h
  unfold buffered
  have hk : 1 ≤ (s.head_index - s.tail_index) % s.max_index := by
    rw [emod_of_small (by omega) (by omega)]
    split <;> omega
  nlinarith

theorem buffered_empty {s : frame_buffer_t} (h : copy_inv s)
    (e : s.tail_index = s.head_index) : buffered s = 0 := by
  obtain ⟨-, -, -, he⟩ := h
  unfold buffered
  rw [he e.symm, e]; simp

/-- Advancing `tail` by one frame in a non-empty buffer removes one frame from
the distance between `tail` and `head`. -/
theorem dist_after_tail_step {h t n : Int} (h0 : 0 ≤ h) (h1 : h < n) (t0 : 0 ≤ t)
    (t1 : t < n) (e : t ≠ h) :
    (h - cmod (t + 1) n) % n = (h - t) % n - 1 := by
  rw [cmod_succ t0 t1, emod_of_small (x := h - t) (by omega) (by omega)]
  split
  · rw [emod_of_small (by omega) (by omega)]
    split <;> split <;> omega
  · rw [emod_of_small (by omega) (by omega)]
    split <;> split <;> omega

theorem data_copy_frame_body_advance (ctu : Int → Int) (hz : ∀ n, ctu n = 0)
    (ub kb : Bool) (count co : Int) (s : frame_buffer_t)
    (c : s.data_size - s.partial_bytes ≤ count) :
    data_copy_frame_body ctu ub kb count co s =
      (count - (s.data_size - s.partial_bytes), co + (s.data_size - s.partial_bytes),
       { s with tail_index := cmod (s.tail_index + 1) s.max_index, partial_bytes := 0 }) := by
  unfold data_copy_frame_body
  simp only [hz, sub_zero, ite_self]
  by_cases c1 : s.data_size - s.partial_bytes < count
  · simp [c1]
  · have : count = s.data_size - s.partial_bytes := by omega
    simp [c1, ← this]
    omega

theorem data_copy_frame_body_within (ctu : Int → Int) (hz : ∀ n, ctu n = 0)
    (ub kb : Bool) (count co : Int) (s : frame_buffer_t)
    (c : count < s.data_size - s.partial_bytes) :
    data_copy_frame_body ctu ub kb count co s =
      (0, co + count, { s with partial_bytes := s.partial_bytes + count }) := by
  unfold data_copy_frame_body
  simp only [hz, sub_zero, ite_self]
  have c1 : ¬ (s.data_size - s.partial_bytes < count) := by omega
  have c2 : ¬ (s.partial_bytes + count ≥ s.data_size) := by omega
  simp [c1, c2]

theorem data_copy_frame_body_spec (ctu : Int → Int) (hz : ∀ n, ctu n = 0)
    (ub kb : Bool) (count co : Int) (s : frame_buffer_t) (h : copy_inv s)
    (e : s.tail_index ≠ s.head_index) (hc : 0 < count) :
    (data_copy_frame_body ctu ub kb count co s).1
        = count - min (s.data_size - s.partial_bytes) count ∧
    (data_copy_frame_body ctu ub kb count co s).2.1
        = co + min (s.data_size - s.partial_bytes) count ∧
    copy_inv (data_copy_frame_body ctu ub kb count co s).2.2 ∧
    buffered (data_copy_frame_body ctu ub kb count co s).2.2
        = buffered s - min (s.data_size - s.partial_bytes) count ∧
    same_frame s (data_copy_frame_body ctu ub kb count co s).2.2 := by
  obtain ⟨⟨h0, h1, t0, t1⟩, p0, p1, he⟩ := h
  have hd := dist_after_tail_step h0 h1 t0 t1 e
  have hr := cmod_succ_range t0 t1
  by_cases c : s.data_size - s.partial_bytes ≤ count
  · rw [data_copy_frame_body_advance ctu hz ub kb count co s c, min_eq_left c]
    refine ⟨rfl, rfl, ⟨⟨h0, h1, hr.1, hr.2⟩, le_refl _, ?_, fun _ => rfl⟩, ?_,
      ⟨rfl, rfl, rfl, rfl, rfl, rfl⟩⟩
    · show (0 : Int) < s.data_size
      omega
    · unfold buffered
      dsimp only
      rw [hd]
      ring
  · have c' : count < s.data_size - s.partial_bytes := by omega
    rw [data_copy_frame_body_within ctu hz ub kb count co s c', min_eq_right (le_of_lt c')]
    refine ⟨by simp, rfl, ⟨⟨h0, h1, t0, t1⟩, ?_, ?_, fun q => absurd q.symm e⟩, ?_,
      ⟨rfl, rfl, rfl, rfl, rfl, rfl⟩⟩
    · show 0 ≤ s.partial_bytes + count
      omega
    · show s.partial_bytes + count < s.data_size
      omega
    · unfold buffered
      dsimp only
      ring

theorem same_frame_trans {a b c : frame_buffer_t} (h1 : same_frame a b)
    (h2 : same_frame b c) : same_frame a c := by
  unfold same_frame at h1 h2 ⊢
  rw [h2.1, h2.2.1, h2.2.2.1, h2.2.2.2.1, h2.2.2.2.2.1, h2.2.2.2.2.2]
  exact h1

/-- With copies that succeed in full, `count.toNat` iterations are enough for
the loop of `data_copy_frame` to exit; it hands out `min (max count 0) B` bytes
of the `B` buffered ones. -/
theorem data_copy_frame_loop_spec (ub kb : Bool) :
    ∀ (fuel : Nat) (ctu : Nat → Int → Int), (∀ k n, ctu k n = 0) →
    ∀ (count co : Int) (s : frame_buffer_t), copy_inv s → count.toNat ≤ fuel →
      (data_copy_frame_loop ctu ub kb fuel count co s).1
          = some (co + min (max count 0) (buffered s)) ∧
      copy_inv (data_copy_frame_loop ctu ub kb fuel count co s).2 ∧
      buffered (data_copy_frame_loop ctu ub kb fuel count co s).2
          = buffered s - min (max count 0) (buffered s) ∧
      same_frame s (data_copy_frame_loop ctu ub kb fuel count co s).2 := by
  intro fuel
  induction fuel with
  | zero =>
    intro ctu hz count co s hs hf
    have hb := buffered_nonneg hs
    have hc : count ≤ 0 := by omega
    have hcond : ¬ (s.tail_index ≠ s.head_index ∧ count > 0) := by
      intro q; omega
    unfold data_copy_frame_loop
    rw [if_neg hcond]
    have hm : min (max count 0) (buffered s) = 0 := by
      rw [max_eq_right hc]; exact min_eq_left hb
    rw [hm]
    exact ⟨by simp, hs, by simp, ⟨rfl, rfl, rfl, rfl, rfl, rfl⟩⟩
  | succ f ih =>
    intro ctu hz count co s hs hf
    have hb := buffered_nonneg hs
    unfold data_copy_frame_loop
    by_cases hcond : s.tail_index ≠ s.head_index ∧ count > 0
    · rw [if_pos hcond]
      dsimp only
      obtain ⟨e, hc⟩ := hcond
      obtain ⟨b1, b2, b3, b4, b5⟩ :=
        data_copy_frame_body_spec (ctu 0) (hz 0) ub kb count co s hs e hc
      have hp := buffered_pos hs e
      have hlt : s.partial_bytes < s.data_size := hs.2.2.1
      obtain ⟨i1, i2, i3, i4⟩ :=
        ih (fun k => ctu (k + 1)) (fun k n => hz (k + 1) n)
          (data_copy_frame_body (ctu 0) ub kb count co s).1
          (data_copy_frame_body (ctu 0) ub kb count co s).2.1
          (data_copy_frame_body (ctu 0) ub kb count co s).2.2 b3
          (by rw [b1]; omega)
      refine ⟨?_, i2, ?_, same_frame_trans b5 i4⟩
      · rw [i1, b1, b2, b4]
        congr 1
        omega
      · rw [i3, b1, b4]
        omega
    · rw [if_neg hcond]
      have hm : min (max count 0) (buffered s) = 0 := by
        by_cases hc : count ≤ 0
        · rw [max_eq_right hc]; exact min_eq_left hb
        · have e : s.tail_index = s.head_index := by
            by_contra q; exact hcond ⟨q, by omega⟩
          rw [buffered_empty hs e]
          exact min_eq_right (le_max_right _ _)
      rw [hm]
      exact ⟨by simp, hs, by simp, ⟨rfl, rfl, rfl, rfl, rfl, rfl⟩⟩

/-- Advancing `head` by one frame without reaching `tail` adds one frame to
the distance between `tail` and `head`. -/
theorem dist_after_head_step {h t n : Int} (h0 : 0 ≤ h) (h1 : h < n) (t0 : 0 ≤ t)
    (t1 : t < n) (e : cmod (h + 1) n ≠ t) :
    (cmod (h + 1) n - t) % n = (h - t) % n + 1 := by
  rw [cmod_succ h0 h1] at e ⊢
  rw [emod_of_small (x := h - t) (by omega) (by omega)]
  split
  · next q =>
    rw [if_pos q] at e
    rw [emod_of_small (by omega) (by omega)]
    split <;> split <;> omega
  · next q =>
    rw [if_neg q] at e
    rw [emod_of_small (by omega) (by omega)]
    split <;> split <;> omega

theorem data_frame_increment_drop (s : frame_buffer_t)
    (e : cmod (s.head_index + 1) s.max_index = s.tail_index) :
    data_frame_increment s =
      (-1, { s with wakeups := s.wakeups + 1, dropped := s.dropped + 1 }) := by
  simp [data_frame_increment, wake_up_queue, e]

theorem data_frame_increment_advance (s : frame_buffer_t)
    (e : cmod (s.head_index + 1) s.max_index ≠ s.tail_index) :
    data_frame_increment s =
      (0, { s with wakeups := s.wakeups + 1,
                   head_index := cmod (s.head_index + 1) s.max_index }) := by
  simp [data_frame_increment, wake_up_queue, e]

/-- `data_frame_increment` keeps the invariant and, counting the frame it was
called for, the balance of bytes. -/
theorem data_frame_increment_inv (s : frame_buffer_t) (h : copy_inv s) :
    copy_inv (data_frame_increment s).2 ∧
    (data_frame_increment s).2.max_index = s.max_index ∧
    (data_frame_increment s).2.data_size = s.data_size ∧
    buffered (data_frame_increment s).2 =
      buffered s + s.data_size * (1 - ((data_frame_increment s).2.dropped - s.dropped)) := by
  obtain ⟨⟨h0, h1, t0, t1⟩, p0, p1, he⟩ := h
  by_cases e : cmod (s.head_index + 1) s.max_index = s.tail_index
  · rw [data_frame_increment_drop s e]
    refine ⟨⟨⟨h0, h1, t0, t1⟩, p0, p1, he⟩, rfl, rfl, ?_⟩
    unfold buffered
    dsimp only
    ring
  · rw [data_frame_increment_advance s e]
    have hr := cmod_succ_range h0 h1
    refine ⟨⟨⟨hr.1, hr.2, t0, t1⟩, p0, p1, fun q => absurd q e⟩, rfl, rfl, ?_⟩
    unfold buffered
    dsimp only
    rw [dist_after_head_step h0 h1 t0 t1 e]
    ring

/-- The byte counts of `data_copy_frame` with one destination and copies that
succeed in full. -/
theorem data_copy_frame_spec (fuel : Nat) (ctu : Nat → Int → Int)
    (hz : ∀ k n, ctu k n = 0) (ub kb : Bool) (hx : xor ub kb = true)
    (count nonblock : Int) (s : frame_buffer_t) (hs : copy_inv s)
    (hf : count.toNat ≤ fuel) :
    (data_copy_frame fuel ctu ub kb count nonblock s).1
        = some (min (max count 0) (buffered s)) ∧
    copy_inv (data_copy_frame fuel ctu ub kb count nonblock s).2 ∧
    buffered (data_copy_frame fuel ctu ub kb count nonblock s).2
        = buffered s - min (max count 0) (buffered s) ∧
    same_frame s (data_copy_frame fuel ctu ub kb count nonblock s).2 := by
  unfold data_copy_frame
  simp only [hx, not_true_eq_false, if_false]
  have := data_copy_frame_loop_spec ub kb fuel ctu hz count 0 s hs hf
  simpa using this

theorem ring_step_balanced (t : ring_trace) (op : ring_op) (hi : copy_inv t.buf)
    (hb : ring_balanced t) :
    ∃ t1, ring_step t op = some t1 ∧ copy_inv t1.buf ∧ ring_balanced t1 ∧
      t1.buf.max_index = t.buf.max_index ∧ t1.buf.data_size = t.buf.data_size ∧
      t1.produced = t.produced + (if op = ring_op.produce_one then 1 else 0) := by
  cases op with
  | produce_one =>
    obtain ⟨i1, i2, i3, i4⟩ := data_frame_increment_inv t.buf hi
    refine ⟨_, rfl, i1, ?_, i2, i3, by simp⟩
    unfold ring_balanced at hb ⊢
    dsimp only
    rw [i3, i4]
    linear_combination hb
  | consume count nonblock to_user =>
    have hx : xor to_user (!to_user) = true := by cases to_user <;> rfl
    obtain ⟨c1, c2, c3, c4⟩ :=
      data_copy_frame_spec count.toNat copy_all (fun _ _ => rfl) to_user (!to_user) hx
        count nonblock t.buf hi (le_refl _)
    obtain ⟨-, f2, f3, -, -, f6⟩ := c4
    generalize hr : data_copy_frame count.toNat copy_all to_user (!to_user) count nonblock
      t.buf = r at c1 c2 c3 f2 f3 f6
    obtain ⟨r1, r2⟩ := r
    dsimp only at c1 c2 c3 f2 f3 f6
    subst c1
    refine ⟨{ t with buf := r2, consumed := t.consumed + min (max count 0) (buffered t.buf) },
      ?_, c2, ?_, f2, f3, by simp⟩
    · simp only [ring_step, hr]
    · unfold ring_balanced at hb ⊢
      dsimp only
      rw [f3, f6, c3]
      linear_combination hb

theorem ring_run_balanced : ∀ (ops : List ring_op) (t : ring_trace), copy_inv t.buf →
    ring_balanced t →
    ∃ t1, ring_run t ops = some t1 ∧ copy_inv t1.buf ∧ ring_balanced t1 ∧
      t1.buf.max_index = t.buf.max_index ∧ t1.buf.data_size = t.buf.data_size ∧
      t1.produced = t.produced + ops.count ring_op.produce_one := by
  intro ops
  induction ops with
  | nil =>
    intro t hi hb
    exact ⟨t, rfl, hi, hb, rfl, rfl, by simp⟩
  | cons op ops ih =>
    intro t hi hb
    obtain ⟨t1, s1, s2, s3, s4, s5, s6⟩ := ring_step_balanced t op hi hb
    obtain ⟨t2, r1, r2, r3, r4, r5, r6⟩ := ih t1 s2 s3
    refine ⟨t2, ?_, r2, r3, r4.trans s4, r5.trans s5, ?_⟩
    · simp only [ring_run, s1, r1]
    · rw [r6, s6, List.count_cons]
      by_cases q : op = ring_op.produce_one
      · simp [q]; ring
      · have q' : ¬ (ring_op.produce_one = op) := fun a => q a.symm
        simp [q, q']

theorem data_copy_frame_body_indices (ctu : Int → Int) (ub kb : Bool) (count co : Int)
    (s : frame_buffer_t) (n : Int) (hn : s.max_index = n) (h : indices_within n s) :
    (data_copy_frame_body ctu ub kb count co s).2.2.max_index = n ∧
    indices_within n (data_copy_frame_body ctu ub kb count co s).2.2 := by
  obtain ⟨h0, h1, t0, t1⟩ := h
  subst hn
  have hr := cmod_succ_range t0 t1
  unfold data_copy_frame_body
  dsimp only
  split_ifs <;> first
    | exact ⟨rfl, h0, h1, hr.1, hr.2⟩
    | exact ⟨rfl, h0, h1, t0, t1⟩

theorem data_copy_frame_loop_indices (ub kb : Bool) (n : Int) :
    ∀ (fuel : Nat) (ctu : Nat → Int → Int) (count co : Int) (s : frame_buffer_t),
      s.max_index = n → indices_within n s →
      indices_within n (data_copy_frame_loop ctu ub kb fuel count co s).2 := by
  intro fuel
  induction fuel with
  | zero =>
    intro ctu count co s _ h
    unfold data_copy_frame_loop
    split <;> exact h
  | succ f ih =>
    intro ctu count co s hn h
    unfold data_copy_frame_loop
    split
    · obtain ⟨b1, b2⟩ := data_copy_frame_body_indices (ctu 0) ub kb count co s n hn h
      exact ih _ _ _ _ b1 b2
    · exact h

/-- The sum of comparisons `d` computed by `data_frame_contribute` is 2 exactly
for the three orderings of its comment. -/
theorem cyclic_order_iff_score (new_head : Int) (s : frame_buffer_t) :
    cyclic_order new_head s ↔
      b2i (decide (new_head ≥ s.head_index)) + b2i (decide (s.head_index ≥ s.tail_index))
        + b2i (decide (s.tail_index > new_head)) = 2 := by
  unfold cyclic_order b2i
  by_cases a : new_head ≥ s.head_index <;> by_cases b : s.head_index ≥ s.tail_index <;>
    by_cases c : s.tail_index > new_head <;> simp [a, b, c]
  all_goals omega

theorem data_frame_contribute_normal (new_head : Int) (s : frame_buffer_t)
    (h : cyclic_order new_head s) :
    data_frame_contribute new_head s =
      (0, { s with head_index := new_head, grants := s.grants + 1,
                   wakeups := s.wakeups + 1 }) := by
  have e := (cyclic_order_iff_score new_head s).mp h
  unfold data_frame_contribute schedule_grant wake_up_queue print_err
  dsimp only
  rw [if_neg (not_not.mpr e)]

theorem data_frame_contribute_resync (new_head : Int) (s : frame_buffer_t)
    (h : ¬ cyclic_order new_head s) :
    data_frame_contribute new_head s =
      (0, { s with klog := trashed_msg :: s.klog, head_index := new_head,
                   tail_index := cmod (new_head + 1) s.max_index,
                   grants := s.grants + 1, wakeups := s.wakeups + 1 }) := by
  have e : ¬ _ := fun q => h ((cyclic_order_iff_score new_head s).mpr q)
  unfold data_frame_contribute schedule_grant wake_up_queue print_err
  dsimp only
  rw [if_pos e]

theorem neg_EAGAIN_ne_zero : -EAGAIN ≠ 0 := by decide

theorem neg_EIO_ne_zero : - EIO ≠ 0 := by decide

theorem neg_ERESTARTSYS_ne_zero : -ERESTARTSYS ≠ 0 := by decide

/-- A successful `dsp_send_command` starts from `DDAT_IDLE` with a successful
low-level send and produces this record. -/
theorem dsp_send_command_ok (K : dsp_consts) (jiffies : Nat) (cmd : dsp_command)
    (callback : Option dsp_callback) (dev : dsp_dev_t)
    (h : (dsp_send_command K jiffies cmd callback dev).1 = 0) :
    dev.state = dsp_state_t.DDAT_IDLE ∧
    (dsp_send_command_now K cmd dev.dsp).1 = 0 ∧
    (dsp_send_command K jiffies cmd callback dev).2 =
      { dev with dsp := (dsp_send_command_now K cmd dev.dsp).2,
                 cmd_count := dev.cmd_count + 1, callback := callback,
                 tim_dsp := some (timeout_expires K jiffies),
                 state := dsp_state_t.DDAT_CMD } := by
  unfold dsp_send_command at h ⊢
  by_cases hs : dev.state = dsp_state_t.DDAT_IDLE
  · rw [if_neg (not_not.mpr hs)] at h ⊢
    dsimp only at h ⊢
    by_cases he : (dsp_send_command_now K cmd dev.dsp).1 = 0
    · rw [if_pos he]
      exact ⟨hs, he, rfl⟩
    · rw [if_neg he] at h
      exact absurd h he
  · rw [if_pos hs] at h
    exact absurd h neg_EAGAIN_ne_zero

/-- A failed low-level send leaves the engine as it was, apart from the device. -/
theorem dsp_send_command_err (K : dsp_consts) (jiffies : Nat) (cmd : dsp_command)
    (callback : Option dsp_callback) (dev : dsp_dev_t)
    (hs : dev.state = dsp_state_t.DDAT_IDLE)
    (he : (dsp_send_command_now K cmd dev.dsp).1 ≠ 0) :
    dsp_send_command K jiffies cmd callback dev =
      ((dsp_send_command_now K cmd dev.dsp).1,
        { dev with dsp := (dsp_send_command_now K cmd dev.dsp).2 }) := by
  unfold dsp_send_command
  rw [if_neg (not_not.mpr hs)]
  dsimp only
  rw [if_neg he]

/-- A callback invocation is recorded and leaves the engine proper alone. -/
theorem invoke_callback_engine (cb : dsp_callback) (error : Int)
    (msg : Option dsp_message) (card : Int) (dev : dsp_dev_t) :
    (invoke_callback cb error msg card dev).called = ⟨cb, error, msg, card⟩ :: dev.called ∧
    (invoke_callback cb error msg card dev).state = dev.state ∧
    (invoke_callback cb error msg card dev).cmd_count = dev.cmd_count ∧
    (invoke_callback cb error msg card dev).rep_count = dev.rep_count ∧
    (invoke_callback cb error msg card dev).callback = dev.callback ∧
    (invoke_callback cb error msg card dev).tim_dsp = dev.tim_dsp := by
  cases cb with
  | other address => exact ⟨rfl, rfl, rfl, rfl, rfl, rfl⟩
  | wait_callback =>
    unfold invoke_callback dsp_send_command_wait_callback
    dsimp only
    split
    · exact ⟨rfl, rfl, rfl, rfl, rfl, rfl⟩
    · cases msg <;> exact ⟨rfl, rfl, rfl, rfl, rfl, rfl⟩

/-- `dsp_reply_handler` on an engine awaiting a reply. -/
theorem dsp_reply_handler_cmd (msg : dsp_message) (card : Int) (dev : dsp_dev_t)
    (hs : dev.state = dsp_state_t.DDAT_CMD) :
    dsp_reply_handler msg card dev =
      match dev.callback with
      | some cb =>
        (0, invoke_callback cb 0 (some msg) card
              { dev with state := dsp_state_t.DDAT_IDLE, rep_count := dev.rep_count + 1 })
      | none =>
        (0, { dev with state := dsp_state_t.DDAT_IDLE, rep_count := dev.rep_count + 1 }) := by
  unfold dsp_reply_handler
  dsimp only
  rw [if_pos hs]

/-- `dsp_timeout` on an engine awaiting a reply. -/
theorem dsp_timeout_cmd (K : dsp_consts) (card : Int) (dev : dsp_dev_t)
    (hs : dev.state = dsp_state_t.DDAT_CMD) :
    dsp_timeout K card dev =
      match dev.callback with
      | some cb =>
        invoke_callback cb (-K.DSP_ERR_TIMEOUT) none card
          { dev with state := dsp_state_t.DDAT_IDLE }
      | none => { dev with state := dsp_state_t.DDAT_IDLE } := by
  unfold dsp_timeout
  rw [if_pos hs]

theorem dsp_reply_handler_cmd_some (msg : dsp_message) (card : Int) (dev : dsp_dev_t)
    (cb : dsp_callback) (hs : dev.state = dsp_state_t.DDAT_CMD)
    (hc : dev.callback = some cb) :
    dsp_reply_handler msg card dev =
      (0, invoke_callback cb 0 (some msg) card
            { dev with state := dsp_state_t.DDAT_IDLE, rep_count := dev.rep_count + 1 }) := by
  rw [dsp_reply_handler_cmd msg card dev hs, hc]

theorem dsp_reply_handler_cmd_none (msg : dsp_message) (card : Int) (dev : dsp_dev_t)
    (hs : dev.state = dsp_state_t.DDAT_CMD) (hc : dev.callback = none) :
    dsp_reply_handler msg card dev =
      (0, { dev with state := dsp_state_t.DDAT_IDLE, rep_count := dev.rep_count + 1 }) := by
  rw [dsp_reply_handler_cmd msg card dev hs, hc]

theorem dsp_timeout_cmd_some (K : dsp_consts) (card : Int) (dev : dsp_dev_t)
    (cb : dsp_callback) (hs : dev.state = dsp_state_t.DDAT_CMD)
    (hc : dev.callback = some cb) :
    dsp_timeout K card dev =
      invoke_callback cb (-K.DSP_ERR_TIMEOUT) none card
        { dev with state := dsp_state_t.DDAT_IDLE } := by
  rw [dsp_timeout_cmd K card dev hs, hc]

theorem dsp_timeout_cmd_none (K : dsp_consts) (card : Int) (dev : dsp_dev_t)
    (hs : dev.state = dsp_state_t.DDAT_CMD) (hc : dev.callback = none) :
    dsp_timeout K card dev = { dev with state := dsp_state_t.DDAT_IDLE } := by
  rw [dsp_timeout_cmd K card dev hs, hc]

/-- Deliveries to an idle engine change nothing. -/
theorem dsp_deliver_idle (K : dsp_consts) (card : Int) (dev : dsp_dev_t)
    (hs : dev.state = dsp_state_t.DDAT_IDLE) (ev : dsp_event) :
    dsp_deliver K card dev ev = dev := by
  have hn : ¬ dev.state = dsp_state_t.DDAT_CMD := by rw [hs]; decide
  cases ev with
  | reply msg => simp [dsp_deliver, dsp_reply_handler, hn]
  | timeout => simp [dsp_deliver, dsp_timeout, hn]

theorem dsp_deliver_all_idle (K : dsp_consts) (card : Int) (evs : List dsp_event) :
    ∀ dev : dsp_dev_t, dev.state = dsp_state_t.DDAT_IDLE →
      dsp_deliver_all K card dev evs = dev := by
  induction evs with
  | nil => intro dev _; rfl
  | cons ev evs ih =>
    intro dev hs
    unfold dsp_deliver_all at ih ⊢
    rw [List.foldl_cons, dsp_deliver_idle K card dev hs ev]
    exact ih dev hs

/-- A delivery to an engine awaiting a reply, with a callback stored, makes the
completion call and returns the engine to `DDAT_IDLE`. -/
theorem dsp_deliver_cmd (K : dsp_consts) (card : Int) (dev : dsp_dev_t)
    (cb : dsp_callback) (hs : dev.state = dsp_state_t.DDAT_CMD)
    (hc : dev.callback = some cb) (ev : dsp_event) :
    (dsp_deliver K card dev ev).state = dsp_state_t.DDAT_IDLE ∧
    (dsp_deliver K card dev ev).called = completion_call K cb card ev :: dev.called := by
  cases ev with
  | reply msg =>
    show (dsp_reply_handler msg card dev).2.state = _ ∧ (dsp_reply_handler msg card dev).2.called = _
    have e : dsp_reply_handler msg card dev =
        (0, invoke_callback cb 0 (some msg) card
              { dev with state := dsp_state_t.DDAT_IDLE, rep_count := dev.rep_count + 1 }) := by
      rw [dsp_reply_handler_cmd msg card dev hs, hc]
    rw [e]
    obtain ⟨i1, i2, -⟩ := invoke_callback_engine cb 0 (some msg) card
      { dev with state := dsp_state_t.DDAT_IDLE, rep_count := dev.rep_count + 1 }
    exact ⟨i2, i1⟩
  | timeout =>
    show (dsp_timeout K card dev).state = _ ∧ (dsp_timeout K card dev).called = _
    have e : dsp_timeout K card dev =
        invoke_callback cb (-K.DSP_ERR_TIMEOUT) none card
          { dev with state := dsp_state_t.DDAT_IDLE } := by
      rw [dsp_timeout_cmd K card dev hs, hc]
    rw [e]
    obtain ⟨i1, i2, -⟩ := invoke_callback_engine cb (-K.DSP_ERR_TIMEOUT) none card
      { dev with state := dsp_state_t.DDAT_IDLE }
    exact ⟨i2, i1⟩

/-- The loop writing the payload leaves words unwritten exactly when one of the
HSTR reads it makes, one per word, shows `HSTR_HTRQ` clear. -/
theorem htxr_write_loop_stops (K : dsp_consts) :
    ∀ (ws : List Nat) (d : dsp_reg_t),
      (htxr_write_loop K ws d).1 ≠ [] ↔
        ∃ k, k < ws.length ∧ d.hstr_reads k &&& K.HSTR_HTRQ = 0 := by
  intro ws
  induction ws with
  | nil => intro d; simp [htxr_write_loop]
  | cons w ws ih =>
    intro d
    unfold htxr_write_loop
    dsimp only
    by_cases h0 : d.hstr_reads 0 &&& K.HSTR_HTRQ = 0
    · have q : ¬ ((dsp_read_hstr d).1 &&& K.HSTR_HTRQ ≠ 0) := by
        simpa [dsp_read_hstr] using h0
      rw [if_neg q]
      simp only [ne_eq, reduceCtorEq, not_false_eq_true, true_iff]
      exact ⟨0, by simp, h0⟩
    · have q : (dsp_read_hstr d).1 &&& K.HSTR_HTRQ ≠ 0 := by
        simpa [dsp_read_hstr] using h0
      rw [if_pos q, ih]
      constructor
      · rintro ⟨k, hk, e⟩
        exact ⟨k + 1, by simpa using hk, e⟩
      · rintro ⟨k, hk, e⟩
        cases k with
        | zero => exact absurd e h0
        | succ k => exact ⟨k, by simpa using hk, e⟩

/-- The outcomes of `dsp_send_command_now_vector`. -/
theorem dsp_send_command_now_vector_fails (K : dsp_consts) (cmd : dsp_command)
    (vector : Nat) (d : dsp_reg_t) :
    ((dsp_send_command_now_vector K cmd vector d).1 ≠ 0 ↔
      (d.hcvr_reads 0 &&& K.HCVR_HC ≠ 0 ∨
       d.hstr_reads 0 &&& K.HSTR_TRDY = 0 ∨
       ∃ k, k < 4 ∧ d.hstr_reads (k + 1) &&& K.HSTR_HTRQ = 0)) ∧
    ((dsp_send_command_now_vector K cmd vector d).1 = 0 ∨
     (dsp_send_command_now_vector K cmd vector d).1 = -EAGAIN ∨
     (dsp_send_command_now_vector K cmd vector d).1 = - EIO) := by
  unfold dsp_send_command_now_vector
  dsimp only
  by_cases h1 : d.hcvr_reads 0 &&& K.HCVR_HC ≠ 0
  · have q : (dsp_read_hcvr d).1 &&& K.HCVR_HC ≠ 0 := h1
    rw [if_pos q]
    exact ⟨⟨fun _ => Or.inl h1, fun _ => neg_EAGAIN_ne_zero⟩, Or.inr (Or.inl rfl)⟩
  · have q : ¬ ((dsp_read_hcvr d).1 &&& K.HCVR_HC ≠ 0) := h1
    rw [if_neg q]
    by_cases h2 : d.hstr_reads 0 &&& K.HSTR_TRDY = 0
    · have q2 : (dsp_read_hstr (dsp_read_hcvr d).2).1 &&& K.HSTR_TRDY = 0 := h2
      rw [if_pos q2]
      exact ⟨⟨fun _ => Or.inr (Or.inl h2), fun _ => neg_EIO_ne_zero⟩, Or.inr (Or.inr rfl)⟩
    · have q2 : ¬ ((dsp_read_hstr (dsp_read_hcvr d).2).1 &&& K.HSTR_TRDY = 0) := h2
      rw [if_neg q2]
      have hl := htxr_write_loop_stops K cmd.words (dsp_read_hstr (dsp_read_hcvr d).2).2
      by_cases h3 : (htxr_write_loop K cmd.words (dsp_read_hstr (dsp_read_hcvr d).2).2).1 ≠ []
      · rw [if_pos h3]
        refine ⟨⟨fun _ => Or.inr (Or.inr ?_), fun _ => neg_EIO_ne_zero⟩, Or.inr (Or.inr rfl)⟩
        obtain ⟨k, hk, e⟩ := hl.mp h3
        exact ⟨k, hk, e⟩
      · rw [if_neg h3]
        refine ⟨⟨fun a => absurd rfl a, ?_⟩, Or.inl rfl⟩
        rintro (a | a | ⟨k, hk, e⟩)
        · exact absurd a h1
        · exact absurd a h2
        · exact absurd (hl.mpr ⟨k, hk, e⟩) h3

/-- `dsp_send_command_now` fails exactly for the causes of `send_failure_cause`. -/
theorem dsp_send_command_now_fails_iff (K : dsp_consts) (cmd : dsp_command)
    (d : dsp_reg_t) :
    (dsp_send_command_now K cmd d).1 ≠ 0 ↔ send_failure_cause K cmd d := by
  unfold dsp_send_command_now send_failure_cause
  cases dsp_lookup_vector K cmd with
  | none => simp [ERESTARTSYS]
  | some vect =>
    dsimp only
    cases hv : vect.vtype with
    | VECTOR_STANDARD =>
      dsimp only
      rw [(dsp_send_command_now_vector_fails K cmd vect.vector d).1]
      simp
    | VECTOR_QUICK =>
      simp [dsp_quick_command]

/-! ## Partition helpers -/

/-- Masking a 32-bit value with `2^32 - 2^k` clears its low `k` bits. -/
theorem and_high_mask (n k : Nat) (hn : n < 2 ^ 32) (hk : k ≤ 32) :
    n &&& (2 ^ 32 - 2 ^ k) = n - n % 2 ^ k := by
  have e1 : 2 ^ 32 - 2 ^ k = 2 ^ k * (2 ^ (32 - k) - 1) := by
    rw [Nat.mul_sub, ← Nat.pow_add, Nat.add_sub_cancel' hk, Nat.mul_one]
  have e2 : n - n % 2 ^ k = 2 ^ k * (n >>> k) := by
    rw [Nat.shiftRight_eq_div_pow]
    have := Nat.div_add_mod n (2 ^ k)
    omega
  rw [e1, e2]
  apply Nat.eq_of_testBit_eq
  intro j
  rw [Nat.testBit_land, Nat.testBit_mul_pow_two, Nat.testBit_mul_pow_two,
    Nat.testBit_two_pow_sub_one, Nat.testBit_shiftRight]
  by_cases hj : j ≥ k
  · have e3 : k + (j - k) = j := by omega
    rw [e3]
    by_cases h32 : j < 32
    · have : j - k < 32 - k := by omega
      simp [hj, this]
    · have hlt : n < 2 ^ j :=
        lt_of_lt_of_le hn (Nat.pow_le_pow_right (by decide) (by omega))
      have : ¬ (j - k < 32 - k) := by omega
      simp [hj, this, Nat.testBit_lt_two_pow hlt]
  · simp [hj]

/-- With the mask `~(2^k - 1)`, `x & mask` rounds a non-negative `int` down to
a multiple of `2^k`. -/
theorem cand32_align (x mask : Int) (k : Nat) (hk : k ≤ 32) (x0 : 0 ≤ x)
    (x1 : x < 2 ^ 31) (hm : mask % 2 ^ 32 = 2 ^ 32 - 2 ^ k) :
    cand32 x mask = x / 2 ^ k * 2 ^ k := by
  obtain ⟨n, rfl⟩ := Int.eq_ofNat_of_zero_le x0
  have hn : n < 2 ^ 31 := by exact_mod_cast x1
  have hp : 2 ^ k ≤ 2 ^ 32 := Nat.pow_le_pow_right (by decide) hk
  have hu : to_u32 (n : Int) = n := by
    unfold to_u32
    rw [Int.emod_eq_of_lt (by omega) (by omega)]
    rfl
  have hmask : to_u32 mask = 2 ^ 32 - 2 ^ k := by
    unfold to_u32
    rw [hm]
    have : ((2 : Int) ^ 32 - 2 ^ k) = ((2 ^ 32 - 2 ^ k : Nat) : Int) := by
      rw [Nat.cast_sub hp]
      simp only [Nat.cast_pow, Nat.cast_ofNat]
    rw [this]
    rfl
  unfold cand32
  rw [hu, hmask, and_high_mask n k (by omega) hk]
  have hle : n - n % 2 ^ k ≤ n := Nat.sub_le _ _
  unfold to_s32
  have hmod : (n - n % 2 ^ k) % 2 ^ 32 = n - n % 2 ^ k := Nat.mod_eq_of_lt (by omega)
  rw [hmod, if_pos (by omega)]
  have hd := Nat.div_add_mod n (2 ^ k)
  have e : n - n % 2 ^ k = n / 2 ^ k * 2 ^ k := by
    rw [Nat.mul_comm]; omega
  rw [e]
  simp only [Nat.cast_mul, Nat.cast_pow, Nat.cast_ofNat, Int.natCast_ediv]
  rfl

/-- The frame count `size / frame_size` computed in C is the floor quotient
whenever it says that at least two frames fit. -/
theorem cdiv_frames (S fs : Int) (hfs : 0 < fs) :
    (cdiv S fs ≤ 1 ↔ S / fs ≤ 1) ∧ (1 < cdiv S fs → cdiv S fs = S / fs) := by
  unfold cdiv
  by_cases hS : 0 ≤ S
  · rw [Int.tdiv_eq_ediv hS (le_of_lt hfs)]
    exact ⟨Iff.rfl, fun _ => rfl⟩
  · have h1 : 0 ≤ (-S).tdiv fs := Int.tdiv_nonneg (by omega) (le_of_lt hfs)
    have h2 : S.tdiv fs = -((-S).tdiv fs) := by
      rw [Int.neg_tdiv]; omega
    have h3 : S / fs < 0 := Int.ediv_neg' (by omega) hfs
    constructor
    · constructor <;> intro _ <;> omega
    · intro h; omega

/-- Rounding `size + A - 1` down to a multiple of `A` gives the least multiple
of `A` that is at least `size`. -/
theorem round_up_least (size A : Int) (hA : 0 < A) :
    A ∣ (size + A - 1) / A * A ∧ size ≤ (size + A - 1) / A * A ∧
    ∀ m : Int, A ∣ m → size ≤ m → (size + A - 1) / A * A ≤ m := by
  refine ⟨Dvd.intro_left _ rfl, ?_, ?_⟩
  · have := Int.lt_ediv_add_one_mul_self (size + A - 1) hA
    have e : ((size + A - 1) / A + 1) * A = (size + A - 1) / A * A + A := by ring
    omega
  · rintro m ⟨c, rfl⟩ hm
    have hlt : (size + A - 1) / A < c + 1 := by
      apply Int.ediv_lt_of_lt_mul hA
      have e : (c + 1) * A = A * c + A := by ring
      omega
    have hle : (size + A - 1) / A ≤ c := by omega
    calc (size + A - 1) / A * A ≤ c * A := Int.mul_le_mul_of_nonneg_right hle (le_of_lt hA)
      _ = A * c := Int.mul_comm _ _

/-- `data_frame_resize` on an empty buffer in classic mode, for a positive size
that differs from the current one. -/
theorem data_frame_resize_classic (D : data_consts) (size : Int) (s : frame_buffer_t)
    (he : s.head_index = s.tail_index) (hq : s.data_mode ≠ D.DATAMODE_QUIET)
    (hs : 0 < size) (hne : size ≠ s.data_size) :
    data_frame_resize D size s =
      if cdiv s.size (cand32 (size + D.DMA_ADDR_ALIGN - 1) D.DMA_ADDR_MASK) ≤ 1 then
        (-3, { s with
                data_size := size,
                frame_size := cand32 (size + D.DMA_ADDR_ALIGN - 1) D.DMA_ADDR_MASK,
                max_index :=
                  cdiv s.size (cand32 (size + D.DMA_ADDR_ALIGN - 1) D.DMA_ADDR_MASK),
                klog := "data_frame_resize: failed to divide the buffer by %#x" ::
                  "data_frame_divide: buffer can only hold %i data packet!" :: s.klog })
      else
        (0, { s with
                data_size := size,
                frame_size := cand32 (size + D.DMA_ADDR_ALIGN - 1) D.DMA_ADDR_MASK,
                max_index :=
                  cdiv s.size (cand32 (size + D.DMA_ADDR_ALIGN - 1) D.DMA_ADDR_MASK) }) := by
  unfold data_frame_resize
  rw [if_neg hne, if_neg (not_not.mpr he.symm), if_neg (not_le.mpr hs)]
  unfold data_frame_divide print_err
  have hs' : size ≥ 0 := le_of_lt hs
  by_cases hc : cdiv s.size (cand32 (size + D.DMA_ADDR_ALIGN - 1) D.DMA_ADDR_MASK) ≤ 1
  · simp [hs', hc]
  · simp [hs', hc, hq]

/-- `data_frame_resize` with a non-positive size (other than the current one)
on an empty buffer returns -2 and writes nothing but the log. -/
theorem data_frame_resize_nonpositive (D : data_consts) (size : Int) (s : frame_buffer_t)
    (he : s.head_index = s.tail_index) (hs : size ≤ 0) (hne : size ≠ s.data_size) :
    data_frame_resize D size s =
      (-2, print_err
        "data_frame_resize: can't change frame size to non-positive number" s) := by
  unfold data_frame_resize
  rw [if_neg hne, if_neg (not_not.mpr he.symm), if_pos hs]

/-! ## The offset `partial` -/

/-- With copies that succeed in full, every state the loop of
`data_copy_frame` reaches has `0 <= partial < data_size`, and `count.toNat`
iterations are enough for it to exit, wherever the indices are. -/
theorem data_copy_frame_loop_offset_range (ub kb : Bool) (ds : Int) (hd : 0 < ds) :
    ∀ (fuel : Nat) (ctu : Nat → Int → Int), (∀ k n, ctu k n = 0) →
    ∀ (count co : Int) (s : frame_buffer_t), s.data_size = ds → partial_within ds s →
      partial_within ds (data_copy_frame_loop ctu ub kb fuel count co s).2 ∧
      (count.toNat ≤ fuel → (data_copy_frame_loop ctu ub kb fuel count co s).1.isSome) := by
  intro fuel
  induction fuel with
  | zero =>
    intro ctu hz count co s hs hp
    unfold data_copy_frame_loop
    split
    · next hc => exact ⟨hp, fun hf => by omega⟩
    · exact ⟨hp, fun _ => rfl⟩
  | succ f ih =>
    intro ctu hz count co s hs hp
    obtain ⟨p0, p1⟩ := hp
    unfold data_copy_frame_loop
    split
    · next hc =>
      dsimp only
      by_cases c : s.data_size - s.partial_bytes ≤ count
      · rw [data_copy_frame_body_advance (ctu 0) (hz 0) ub kb count co s c]
        obtain ⟨i1, i2⟩ := ih (fun k => ctu (k + 1)) (fun k n => hz (k + 1) n)
          (count - (s.data_size - s.partial_bytes)) (co + (s.data_size - s.partial_bytes))
          { s with tail_index := cmod (s.tail_index + 1) s.max_index, partial_bytes := 0 }
          hs ⟨le_refl _, hd⟩
        exact ⟨i1, fun hf => i2 (by omega)⟩
      · have c' : count < s.data_size - s.partial_bytes := by omega
        rw [data_copy_frame_body_within (ctu 0) (hz 0) ub kb count co s c']
        obtain ⟨i1, i2⟩ := ih (fun k => ctu (k + 1)) (fun k n => hz (k + 1) n)
          0 (co + count) { s with partial_bytes := s.partial_bytes + count }
          hs ⟨by show 0 ≤ s.partial_bytes + count; omega,
              by show s.partial_bytes + count < ds; omega⟩
        exact ⟨i1, fun _ => i2 (by simp)⟩
    · exact ⟨⟨p0, p1⟩, fun _ => rfl⟩

/-- The body of the loop of `data_copy_frame`, run on a non-empty buffer, keeps
`max_index` and leaves no stale `partial`, whatever the copy does. -/
theorem data_copy_frame_body_no_stale (ctu : Int → Int) (ub kb : Bool) (count co : Int)
    (s : frame_buffer_t) (e : s.tail_index ≠ s.head_index) :
    (data_copy_frame_body ctu ub kb count co s).2.2.max_index = s.max_index ∧
    no_stale_offset (data_copy_frame_body ctu ub kb count co s).2.2 := by
  unfold data_copy_frame_body no_stale_offset
  dsimp only
  split_ifs <;> first
    | exact ⟨rfl, fun _ => rfl⟩
    | exact ⟨rfl, fun q => absurd q.symm e⟩

theorem data_copy_frame_loop_no_stale (ub kb : Bool) :
    ∀ (fuel : Nat) (ctu : Nat → Int → Int) (count co : Int) (s : frame_buffer_t),
      no_stale_offset s →
      (data_copy_frame_loop ctu ub kb fuel count co s).2.max_index = s.max_index ∧
      no_stale_offset (data_copy_frame_loop ctu ub kb fuel count co s).2 := by
  intro fuel
  induction fuel with
  | zero =>
    intro ctu count co s h
    unfold data_copy_frame_loop
    split <;> exact ⟨rfl, h⟩
  | succ f ih =>
    intro ctu count co s h
    unfold data_copy_frame_loop
    split
    · next hc =>
      obtain ⟨b1, b2⟩ := data_copy_frame_body_no_stale (ctu 0) ub kb count co s hc.1
      obtain ⟨i1, i2⟩ := ih (fun k => ctu (k + 1))
        (data_copy_frame_body (ctu 0) ub kb count co s).1
        (data_copy_frame_body (ctu 0) ub kb count co s).2.1
        (data_copy_frame_body (ctu 0) ub kb count co s).2.2 b2
      exact ⟨i1.trans b1, i2⟩
    · exact ⟨rfl, h⟩

/-- Every call on the buffer keeps `max_index` and leaves no stale `partial`. -/
theorem buffer_op_no_stale (N : Int) (hN : 2 ≤ N) (s : frame_buffer_t) (op : buffer_op)
    (hm : s.max_index = N) (h : no_stale_offset s)
    (hop : new_heads_within N [op]) :
    (op.apply s).max_index = N ∧ no_stale_offset (op.apply s) := by
  cases op with
  | increment =>
    show (data_frame_increment s).2.max_index = N ∧ no_stale_offset (data_frame_increment s).2
    by_cases e : cmod (s.head_index + 1) s.max_index = s.tail_index
    · rw [data_frame_increment_drop s e]
      exact ⟨hm, h⟩
    · rw [data_frame_increment_advance s e]
      exact ⟨hm, fun q => absurd q e⟩
  | contribute new_head =>
    show (data_frame_contribute new_head s).2.max_index = N ∧
      no_stale_offset (data_frame_contribute new_head s).2
    obtain ⟨n0, n1, -⟩ := hop
    by_cases c : cyclic_order new_head s
    · rw [data_frame_contribute_normal new_head s c]
      refine ⟨hm, fun q => ?_⟩
      have q' : new_head = s.tail_index := q
      apply h
      unfold cyclic_order at c
      omega
    · rw [data_frame_contribute_resync new_head s c]
      refine ⟨hm, fun q => ?_⟩
      have q' : new_head = cmod (new_head + 1) s.max_index := q
      rw [hm, cmod_succ n0 n1] at q'
      split at q' <;> omega
  | copy_frame fuel ctu ub kb count nonblock =>
    show (data_copy_frame fuel ctu ub kb count nonblock s).2.max_index = N ∧
      no_stale_offset (data_copy_frame fuel ctu ub kb count nonblock s).2
    unfold data_copy_frame
    dsimp only
    split
    · exact ⟨hm, h⟩
    · obtain ⟨l1, l2⟩ := data_copy_frame_loop_no_stale ub kb fuel ctu count 0 s h
      exact ⟨l1.trans hm, l2⟩
  | tail_increment =>
    show (data_tail_increment s).2.max_index = N ∧ no_stale_offset (data_tail_increment s).2
    unfold data_tail_increment
    dsimp only
    split
    · exact ⟨hm, h⟩
    · exact ⟨hm, fun _ => rfl⟩

theorem new_heads_within_cons (N : Int) (op : buffer_op) (ops : List buffer_op)
    (h : new_heads_within N (op :: ops)) :
    new_heads_within N [op] ∧ new_heads_within N ops := by
  cases op with
  | contribute new_head => exact ⟨⟨h.1, h.2.1, trivial⟩, h.2.2⟩
  | increment => exact ⟨trivial, h⟩
  | copy_frame fuel ctu ub kb count nonblock => exact ⟨trivial, h⟩
  | tail_increment => exact ⟨trivial, h⟩

theorem buffer_run_no_stale (N : Int) (hN : 2 ≤ N) :
    ∀ (ops : List buffer_op) (s : frame_buffer_t), s.max_index = N → no_stale_offset s →
      new_heads_within N ops →
      (buffer_run s ops).max_index = N ∧ no_stale_offset (buffer_run s ops) := by
  intro ops
  induction ops with
  | nil => intro s hm h _; exact ⟨hm, h⟩
  | cons op ops ih =>
    intro s hm h hops
    obtain ⟨o1, o2⟩ := new_heads_within_cons N op ops hops
    obtain ⟨s1, s2⟩ := buffer_op_no_stale N hN s op hm h o1
    exact ih (op.apply s) s1 s2 o2

/-- For every command with a quick vector, on an idle engine with a free gate:
when the only thing that happens is the expiry of the timer,
`dsp_send_command_wait` returns 0, after its callback has been called with a
NULL message. -/
theorem dsp_send_command_wait_quick_timeout (K : dsp_consts) (jiffies : Nat)
    (cmd : dsp_command) (card : Int) (dev : dsp_dev_t) (vect : dsp_vector)
    (hl : dsp_lookup_vector K cmd = some vect)
    (hq : vect.vtype = dsp_vector_type.VECTOR_QUICK)
    (hs : dev.state = dsp_state_t.DDAT_IDLE) (hg : dev.local_sem ≠ 0) :
    (dsp_send_command_wait K jiffies cmd card
        [wait_happening.deliver dsp_event.timeout] dev).map Prod.fst = some 0 ∧
    (dsp_send_command_wait K jiffies cmd card
        [wait_happening.deliver dsp_event.timeout] dev).map (fun r => r.2.oops)
      = some true := by
  have hnow : ∀ d, dsp_send_command_now K cmd d
      = (0, dsp_write_hcvr (vect.vector ||| K.HCVR_HC) d) := by
    intro d
    unfold dsp_send_command_now
    rw [hl]
    dsimp only
    rw [hq]
    rfl
  have h1 : LOCAL_CMD &&& (LOCAL_REP ||| LOCAL_ERR) = 0 := by decide
  have h2 : (LOCAL_CMD ||| LOCAL_REP) &&& (LOCAL_REP ||| LOCAL_ERR) ≠ 0 := by decide
  have h3 : (LOCAL_CMD ||| LOCAL_REP) &&& LOCAL_ERR = 0 := by decide
  simp [dsp_send_command_wait, dsp_send_command, hnow, hs, hg, wait_event_interruptible,
    dsp_deliver, dsp_timeout, invoke_callback, dsp_send_command_wait_callback,
    up_local_sem, h1, h2, h3]

/-! ## Partition and lookup helpers -/

/-- `data_frame_divide` in one step. -/
theorem data_frame_divide_eq (D : data_consts) (new_data_size : Int) (s : frame_buffer_t) :
    data_frame_divide D new_data_size s =
      if cdiv s.size (cand32 ((if new_data_size ≥ 0 then new_data_size else s.data_size)
          + D.DMA_ADDR_ALIGN - 1) D.DMA_ADDR_MASK) ≤ 1 then
        (-1, { s with
                data_size := if new_data_size ≥ 0 then new_data_size else s.data_size,
                frame_size := cand32 ((if new_data_size ≥ 0 then new_data_size
                  else s.data_size) + D.DMA_ADDR_ALIGN - 1) D.DMA_ADDR_MASK,
                max_index := cdiv s.size (cand32 ((if new_data_size ≥ 0 then new_data_size
                  else s.data_size) + D.DMA_ADDR_ALIGN - 1) D.DMA_ADDR_MASK),
                klog := "data_frame_divide: buffer can only hold %i data packet!"
                  :: s.klog })
      else
        (0, { s with
                data_size := if new_data_size ≥ 0 then new_data_size else s.data_size,
                frame_size := cand32 ((if new_data_size ≥ 0 then new_data_size
                  else s.data_size) + D.DMA_ADDR_ALIGN - 1) D.DMA_ADDR_MASK,
                max_index := cdiv s.size (cand32 ((if new_data_size ≥ 0 then new_data_size
                  else s.data_size) + D.DMA_ADDR_ALIGN - 1) D.DMA_ADDR_MASK) }) := by
  unfold data_frame_divide print_err
  by_cases hn : new_data_size ≥ 0
  · simp only [hn, if_true]
  · simp only [hn, if_false]

/-- What a successful `data_frame_divide` leaves. -/
theorem data_frame_divide_ok (D : data_consts) (new_data_size : Int)
    (s r : frame_buffer_t) (hr : data_frame_divide D new_data_size s = (0, r)) :
    r.frame_size = cand32 (r.data_size + D.DMA_ADDR_ALIGN - 1) D.DMA_ADDR_MASK ∧
    r.max_index = cdiv r.size r.frame_size ∧ 1 < r.max_index ∧ r.size = s.size ∧
    r.data_size = (if new_data_size ≥ 0 then new_data_size else s.data_size) := by
  rw [data_frame_divide_eq] at hr
  by_cases hc : cdiv s.size (cand32 ((if new_data_size ≥ 0 then new_data_size
      else s.data_size) + D.DMA_ADDR_ALIGN - 1) D.DMA_ADDR_MASK) ≤ 1
  · rw [if_pos hc] at hr
    exact absurd (congrArg Prod.fst hr) (show ¬ ((-1 : Int) = 0) by decide)
  · rw [if_neg hc] at hr
    have e := congrArg Prod.snd hr
    dsimp only at e
    subst e
    exact ⟨rfl, rfl, not_le.mp hc, rfl, rfl⟩

/-- The table is its 15 initialisers followed by two zero entries. -/
theorem dsp_vector_set_split (K : dsp_consts) :
    dsp_vector_set K = (dsp_vector_set K).take 15
      ++ [⟨0, 0, dsp_vector_type.VECTOR_STANDARD⟩, ⟨0, 0, dsp_vector_type.VECTOR_STANDARD⟩] ∧
    ((dsp_vector_set K).take 15).map dsp_vector.key = vector_codes K :=
  ⟨rfl, rfl⟩

/-- No initialiser has the code exactly when the code is not one of the 15. -/
theorem find_initialiser_none (K : dsp_consts) (code : Nat) :
    ((dsp_vector_set K).take 15).find? (fun v => v.key == code) = none ↔
      code ∉ vector_codes K := by
  rw [← (dsp_vector_set_split K).2, List.find?_eq_none]
  simp only [beq_iff_eq, List.mem_map, not_exists, not_and]

/-- With 15 non-zero codes, the command code 0 is found in the first of the two
zero entries. -/
theorem dsp_lookup_vector_zero (K : dsp_consts) (hK : (0 : Nat) ∉ vector_codes K)
    (cmd : dsp_command) (h0 : cmd.command = 0) :
    dsp_lookup_vector K cmd = some ⟨0, 0, dsp_vector_type.VECTOR_STANDARD⟩ := by
  unfold dsp_lookup_vector
  rw [(dsp_vector_set_split K).1, List.find?_append, h0,
    (find_initialiser_none K 0).mpr hK]
  rfl

/-- For a non-zero command code the lookup is the search through the 15
initialisers: the first entry with the code, NULL when the code is not among
them. -/
theorem dsp_lookup_vector_nonzero (K : dsp_consts) (cmd : dsp_command)
    (h0 : cmd.command ≠ 0) :
    dsp_lookup_vector K cmd
      = ((dsp_vector_set K).take 15).find? (fun v => v.key == cmd.command) ∧
    (dsp_lookup_vector K cmd = none ↔ cmd.command ∉ vector_codes K) := by
  have e : dsp_lookup_vector K cmd
      = ((dsp_vector_set K).take 15).find? (fun v => v.key == cmd.command) := by
    unfold dsp_lookup_vector
    rw [(dsp_vector_set_split K).1, List.find?_append]
    have hz : List.find? (fun v : dsp_vector => v.key == cmd.command)
        [⟨0, 0, dsp_vector_type.VECTOR_STANDARD⟩, ⟨0, 0, dsp_vector_type.VECTOR_STANDARD⟩]
          = none := by
      have : ((0 : Nat) == cmd.command) = false := by
        simpa using fun q : 0 = cmd.command => h0 q.symm
      simp [List.find?, this]
    rw [hz, Option.or_none]
    rw [← (dsp_vector_set_split K).1]
  exact ⟨e, by rw [e]; exact find_initialiser_none K cmd.command⟩

/-! ## Handler table helpers -/

/-- Where the scan for a type code stops. -/
theorem handler_scan_spec (code : Nat) (hs : Nat → dsp_handler_entry) :
    ∀ (left i : Nat),
      i ≤ handler_scan code hs left i ∧ handler_scan code hs left i ≤ i + left ∧
      (∀ j, i ≤ j → j < handler_scan code hs left i → (hs j).code ≠ code) ∧
      (handler_scan code hs left i < i + left →
        (hs (handler_scan code hs left i)).code = code) := by
  intro left
  induction left with
  | zero =>
    intro i
    unfold handler_scan
    exact ⟨le_refl _, le_refl _, fun j h1 h2 => by omega, fun h => by omega⟩
  | succ left ih =>
    intro i
    unfold handler_scan
    by_cases h : (hs i).code = code
    · rw [if_pos h]
      exact ⟨le_refl _, by omega, fun j h1 h2 => by omega, fun _ => h⟩
    · rw [if_neg h]
      obtain ⟨a1, a2, a3, a4⟩ := ih (i + 1)
      refine ⟨by omega, by omega, fun j h1 h2 => ?_, fun q => a4 (by omega)⟩
      by_cases e : j = i
      · rw [e]; exact h
      · exact a3 j (by omega) h2

/-- The scan from index 0 over `n` entries finds the first entry with the code,
or runs out at `n` when there is none. -/
theorem handler_scan_cases (code : Nat) (hs : Nat → dsp_handler_entry) (n : Nat) :
    (handler_scan code hs n 0 < n ∧ (hs (handler_scan code hs n 0)).code = code ∧
      ∀ j, j < handler_scan code hs n 0 → (hs j).code ≠ code) ∨
    (handler_scan code hs n 0 = n ∧ ∀ j, j < n → (hs j).code ≠ code) := by
  obtain ⟨-, a2, a3, a4⟩ := handler_scan_spec code hs n 0
  by_cases h : handler_scan code hs n 0 < n
  · exact Or.inl ⟨h, a4 (by omega), fun j hj => a3 j (Nat.zero_le _) hj⟩
  · have e : handler_scan code hs n 0 = n := by omega
    exact Or.inr ⟨e, fun j hj => a3 j (Nat.zero_le _) (by omega)⟩

/-- The scan stops at the first entry with the code. -/
theorem handler_scan_first (code : Nat) (hs : Nat → dsp_handler_entry) (n i : Nat)
    (hi : i < n) (hc : (hs i).code = code) (hf : ∀ j, j < i → (hs j).code ≠ code) :
    handler_scan code hs n 0 = i := by
  rcases handler_scan_cases code hs n with ⟨r1, r2, r3⟩ | ⟨r1, r2⟩
  · by_contra q
    rcases Nat.lt_or_gt_of_ne q with q | q
    · exact hf _ q r2
    · exact r3 i q hc
  · exact absurd hc (r2 i hi)

/-- The scan runs to the end when no entry has the code. -/
theorem handler_scan_absent (code : Nat) (hs : Nat → dsp_handler_entry) (n : Nat)
    (ha : ∀ j, j < n → (hs j).code ≠ code) :
    handler_scan code hs n 0 = n := by
  rcases handler_scan_cases code hs n with ⟨r1, r2, r3⟩ | ⟨r1, r2⟩
  · exact absurd r2 (ha _ r1)
  · exact r1

/-- The entries after moving `left` of them down by one from index `i`. -/
theorem handler_shift_eq : ∀ (left : Nat) (hs : Nat → dsp_handler_entry) (i : Nat),
    handler_shift hs left i = fun j => if i ≤ j ∧ j < i + left then hs (j + 1) else hs j := by
  intro left
  induction left with
  | zero =>
    intro hs i
    unfold handler_shift
    funext j
    rw [if_neg (by omega)]
  | succ left ih =>
    intro hs i
    unfold handler_shift
    rw [ih]
    funext j
    by_cases h1 : i + 1 ≤ j ∧ j < i + 1 + left
    · rw [if_pos h1, if_pos (by omega), Function.update_noteq (by omega)]
    · rw [if_neg h1]
      by_cases e : j = i
      · rw [e, Function.update_same, if_pos (by omega)]
      · rw [Function.update_noteq e, if_neg (by omega)]

/-- `dsp_set_msg_handler` when the code is in the table, first at index `i`. -/
theorem dsp_set_msg_handler_present (cap code : Nat) (handler : Option dsp_handler)
    (data : Nat) (dev : dsp_dev_t) (i : Nat) (hi : (i : Int) < dev.n_handlers)
    (hc : (dev.handlers i).code = code) (hf : ∀ j, j < i → (dev.handlers j).code ≠ code) :
    dsp_set_msg_handler cap code handler data dev =
      (0, { dev with
        handlers := Function.update dev.handlers i
          { dev.handlers i with handler := handler, data := data } }) := by
  have e := handler_scan_first code dev.handlers dev.n_handlers.toNat i (by omega) hc hf
  unfold dsp_set_msg_handler
  dsimp only
  rw [e, if_pos hi]

/-- `dsp_set_msg_handler` when the code is not in the table. -/
theorem dsp_set_msg_handler_absent (cap code : Nat) (handler : Option dsp_handler)
    (data : Nat) (dev : dsp_dev_t)
    (ha : ∀ j : Nat, (j : Int) < dev.n_handlers → (dev.handlers j).code ≠ code) :
    dsp_set_msg_handler cap code handler data dev =
      if dev.n_handlers.toNat < cap then
        (0, { dev with
          handlers := Function.update dev.handlers dev.n_handlers.toNat
            ⟨code, handler, data⟩,
          n_handlers := dev.n_handlers + 1 })
      else (-1, dev) := by
  have e := handler_scan_absent code dev.handlers dev.n_handlers.toNat
    (fun j hj => ha j (by omega))
  unfold dsp_set_msg_handler
  dsimp only
  rw [e, if_neg (by omega)]

/-- `dsp_clear_handler` when the code is in the table, first at index `i`. -/
theorem dsp_clear_handler_present (code : Nat) (dev : dsp_dev_t) (i : Nat)
    (hi : (i : Int) < dev.n_handlers) (hc : (dev.handlers i).code = code)
    (hf : ∀ j, j < i → (dev.handlers j).code ≠ code) :
    dsp_clear_handler code dev =
      (0, { dev with
        n_handlers := dev.n_handlers - 1,
        handlers := Function.update
          (fun j => if i ≤ j ∧ j < i + (dev.n_handlers - 1 - (i : Int)).toNat
            then dev.handlers (j + 1) else dev.handlers j)
          (dev.n_handlers - 1).toNat zero_entry }) := by
  have e := handler_scan_first code dev.handlers dev.n_handlers.toNat i (by omega) hc hf
  unfold dsp_clear_handler
  dsimp only
  rw [e, if_neg (by omega), handler_shift_eq]

/-- `dsp_clear_handler` when the code is not in the table. -/
theorem dsp_clear_handler_absent (code : Nat) (dev : dsp_dev_t)
    (ha : ∀ j : Nat, (j : Int) < dev.n_handlers → (dev.handlers j).code ≠ code) :
    dsp_clear_handler code dev = (-1, dev) := by
  have e := handler_scan_absent code dev.handlers dev.n_handlers.toNat
    (fun j hj => ha j (by omega))
  unfold dsp_clear_handler
  dsimp only
  rw [e, if_pos (by omega)]

/-- A code is in the first `n_handlers` entries, first at some index, or in
none of them. -/
theorem code_present_or_absent (code : Nat) (dev : dsp_dev_t) :
    (∃ i : Nat, (i : Int) < dev.n_handlers ∧ (dev.handlers i).code = code ∧
      ∀ j, j < i → (dev.handlers j).code ≠ code) ∨
    (∀ j : Nat, (j : Int) < dev.n_handlers → (dev.handlers j).code ≠ code) := by
  rcases handler_scan_cases code dev.handlers dev.n_handlers.toNat with
    ⟨r1, r2, r3⟩ | ⟨-, r2⟩
  · exact Or.inl ⟨_, by omega, r2, r3⟩
  · exact Or.inr (fun j hj => r2 j (by omega))

/-- `dsp_set_msg_handler` keeps the invariant of the table. -/
theorem dsp_set_msg_handler_ok (cap code : Nat) (handler : Option dsp_handler)
    (data : Nat) (dev : dsp_dev_t) (h : registry_ok cap dev) :
    registry_ok cap (dsp_set_msg_handler cap code handler data dev).2 := by
  obtain ⟨n0, n1, hd⟩ := h
  rcases code_present_or_absent code dev with ⟨i, hi, hc, hf⟩ | ha
  · rw [dsp_set_msg_handler_present cap code handler data dev i hi hc hf]
    refine ⟨n0, n1, ?_⟩
    have hcode : ∀ j, (Function.update dev.handlers i
        { dev.handlers i with handler := handler, data := data } j).code
          = (dev.handlers j).code := by
      intro j
      by_cases e : j = i
      · rw [e, Function.update_same]
      · rw [Function.update_noteq e]
    intro a ha b hb hab
    rw [hcode a, hcode b] at hab
    exact hd a ha b hb hab
  · rw [dsp_set_msg_handler_absent cap code handler data dev ha]
    by_cases hr : dev.n_handlers.toNat < cap
    · rw [if_pos hr]
      refine ⟨by show 0 ≤ dev.n_handlers + 1; omega,
        by show dev.n_handlers + 1 ≤ (cap : Int); omega, ?_⟩
      show codes_distinct (dev.n_handlers + 1).toNat
        (Function.update dev.handlers dev.n_handlers.toNat ⟨code, handler, data⟩)
      intro a ha' b hb' hab
      by_cases ea : a = dev.n_handlers.toNat <;> by_cases eb : b = dev.n_handlers.toNat
      · rw [ea, eb]
      · rw [ea, Function.update_same, Function.update_noteq eb] at hab
        exact absurd hab.symm (ha b (by omega))
      · rw [eb, Function.update_same, Function.update_noteq ea] at hab
        exact absurd hab (ha a (by omega))
      · rw [Function.update_noteq ea, Function.update_noteq eb] at hab
        exact hd a (by omega) b (by omega) hab
    · rw [if_neg hr]
      exact ⟨n0, n1, hd⟩

/-- `dsp_clear_handler` keeps the invariant of the table. -/
theorem dsp_clear_handler_ok (cap code : Nat) (dev : dsp_dev_t) (h : registry_ok cap dev) :
    registry_ok cap (dsp_clear_handler code dev).2 := by
  obtain ⟨n0, n1, hd⟩ := h
  rcases code_present_or_absent code dev with ⟨i, hi, hc, hf⟩ | ha
  · rw [dsp_clear_handler_present code dev i hi hc hf]
    refine ⟨by show 0 ≤ dev.n_handlers - 1; omega,
      by show dev.n_handlers - 1 ≤ (cap : Int); omega, ?_⟩
    show codes_distinct (dev.n_handlers - 1).toNat _
    have hval : ∀ j, j < (dev.n_handlers - 1).toNat →
        Function.update
          (fun j => if i ≤ j ∧ j < i + (dev.n_handlers - 1 - (i : Int)).toNat
            then dev.handlers (j + 1) else dev.handlers j)
          (dev.n_handlers - 1).toNat zero_entry j
          = dev.handlers (if i ≤ j then j + 1 else j) := by
      intro j hj
      rw [Function.update_noteq (by omega)]
      by_cases q : i ≤ j
      · rw [if_pos ⟨q, by omega⟩, if_pos q]
      · rw [if_neg (fun c => q c.1), if_neg q]
    intro a ha b hb hab
    dsimp only at hab
    rw [hval a ha, hval b hb] at hab
    have := hd _ (by split <;> omega) _ (by split <;> omega) hab
    split at this <;> split at this <;> omega
  · rw [dsp_clear_handler_absent code dev ha]
    exact ⟨n0, n1, hd⟩

/-- Every sequence of calls keeps the invariant of the table. -/
theorem registry_run_ok (cap : Nat) : ∀ (ops : List registry_op) (dev : dsp_dev_t),
    registry_ok cap dev → registry_ok cap (registry_run cap dev ops) := by
  intro ops
  induction ops with
  | nil => intro dev h; exact h
  | cons op ops ih =>
    intro dev h
    show registry_ok cap (registry_run cap (registry_op.apply cap dev op) ops)
    apply ih
    cases op with
    | set_msg_handler code handler data =>
      exact dsp_set_msg_handler_ok cap code handler data dev h
    | clear_handler code => exact dsp_clear_handler_ok cap code dev h

/-! ## Card configuration helpers -/

/-- The search for a free slot runs to the end of a table without one. -/
theorem free_slot_scan_full : ∀ (l : List dsp_dev_t) (card : Nat),
    (∀ d ∈ l, d.pci ≠ none) → free_slot_scan l card = card + l.length := by
  intro l
  induction l with
  | nil => intro card _; rfl
  | cons d l ih =>
    intro card h
    unfold free_slot_scan
    rw [if_neg (h d (List.mem_cons_self _ _)),
      ih (card + 1) (fun x hx => h x (List.mem_cons_of_mem _ hx))]
    simp only [List.length_cons]
    omega

/-- With every slot taken `dsp_configure` returns `-EPERM` and leaves the table
as it was. -/
theorem dsp_configure_full (K : dsp_consts) (C : configure_consts) (R : kernel_results)
    (pci : Option Nat) (dsp_dev : List dsp_dev_t) (h : ∀ d ∈ dsp_dev, d.pci ≠ none) :
    dsp_configure K C R pci dsp_dev = (-EPERM, dsp_dev) := by
  unfold dsp_configure
  cases pci with
  | none => rfl
  | some p =>
    dsimp only
    rw [free_slot_scan_full dsp_dev 0 h]
    have e : dsp_dev.get? (0 + dsp_dev.length) = none := by
      rw [List.get?_eq_none]
      omega
    rw [e]

/-- The search for a free slot stops at the first slot whose `pci` is NULL. -/
theorem free_slot_scan_first : ∀ (l : List dsp_dev_t) (card c : Nat) (d : dsp_dev_t),
    l.get? c = some d → d.pci = none →
    (∀ j x, j < c → l.get? j = some x → x.pci ≠ none) →
    free_slot_scan l card = card + c := by
  intro l
  induction l with
  | nil => intro card c d h; simp at h
  | cons a l ih =>
    intro card c d h hd hbefore
    unfold free_slot_scan
    cases c with
    | zero =>
      have : a = d := by simpa using h
      rw [this, if_pos hd]
      rfl
    | succ c =>
      have ha : a.pci ≠ none := hbefore 0 a (Nat.succ_pos c) rfl
      rw [if_neg ha, ih (card + 1) c d (by simpa using h) hd
        (fun j x hj hx => hbefore (j + 1) x (by omega) (by simpa using hx))]
      omega

/-- `dsp_set_msg_handler` does not touch the `pci` pointer. -/
theorem dsp_set_msg_handler_pci (cap code : Nat) (handler : Option dsp_handler)
    (data : Nat) (dev : dsp_dev_t) :
    (dsp_set_msg_handler cap code handler data dev).2.pci = dev.pci := by
  unfold dsp_set_msg_handler
  dsimp only
  split_ifs <;> rfl

/-- When the kernel grants everything, the configuration of a slot returns 0,
whichever slot it is, and stores the `pci` pointer in it. -/
theorem dsp_configure_slot_grants (K : dsp_consts) (C : configure_consts) (pci card : Nat)
    (old : dsp_dev_t) :
    (dsp_configure_slot K C kernel_grants pci card old).1 = 0 ∧
    (dsp_configure_slot K C kernel_grants pci card old).2.pci = some pci := by
  cases hN : C.NO_INTERRUPTS
  · by_cases hb : C.DSP_PCI_MODE &&& C.DSP_PCI_MODE_NOIRQ = 0
    · simp [dsp_configure_slot, kernel_grants, hN, hb, dsp_pci_set_handler, zeroed_dev,
        dsp_set_msg_handler_pci]
    · simp [dsp_configure_slot, kernel_grants, hN, hb, dsp_pci_set_handler, zeroed_dev,
        dsp_set_msg_handler_pci]
  · by_cases hb : (C.DSP_PCI_MODE ||| C.DSP_PCI_MODE_NOIRQ) &&& C.DSP_PCI_MODE_NOIRQ = 0
    · simp [dsp_configure_slot, kernel_grants, hN, hb, dsp_pci_set_handler, zeroed_dev,
        dsp_set_msg_handler_pci]
    · simp [dsp_configure_slot, kernel_grants, hN, hb, dsp_pci_set_handler, zeroed_dev,
        dsp_set_msg_handler_pci]

/-- With a kernel that grants everything, `dsp_configure` claims the first free
slot `card` of the table and returns 0, whatever `card` is. -/
theorem dsp_configure_returns_zero (K : dsp_consts) (C : configure_consts) (pci : Nat)
    (dsp_dev : List dsp_dev_t) (card : Nat) (d : dsp_dev_t)
    (h : dsp_dev.get? card = some d) (hd : d.pci = none)
    (hbefore : ∀ j x, j < card → dsp_dev.get? j = some x → x.pci ≠ none) :
    (dsp_configure K C kernel_grants (some pci) dsp_dev).1 = 0 ∧
    ((dsp_configure K C kernel_grants (some pci) dsp_dev).2.get? card).map
      (fun dev => dev.pci) = some (some pci) := by
  have e := free_slot_scan_first dsp_dev 0 card d h hd hbefore
  rw [Nat.zero_add] at e
  obtain ⟨g1, g2⟩ := dsp_configure_slot_grants K C pci card d
  have hlen : card < dsp_dev.length := by
    rcases Nat.lt_or_ge card dsp_dev.length with q | q
    · exact q
    · rw [List.get?_eq_none.mpr q] at h
      exact absurd h (by simp)
  unfold dsp_configure
  dsimp only
  rw [e, h]
  dsimp only
  refine ⟨g1, ?_⟩
  rw [List.get?_eq_getElem?, List.getElem?_set_self hlen, Option.map_some', g2]

/-! ## Claims -/

/-- C1: for every buffer with `max_index = N >= 1`, `data_frame_increment`
returns -1, adds exactly one to the drop counter and keeps `head` when
`(head + 1) % N` equals `tail`; otherwise it returns 0, sets `head` to
`(head + 1) % N` and keeps the drop counter.  `tail` and `partial` are kept in
both cases.  (`%` is the C operator; for `0 <= head` it is the mathematical
remainder.) -/
theorem data_frame_increment_contract (s : frame_buffer_t) (hN : 1 ≤ s.max_index) :
    (cmod (s.head_index + 1) s.max_index = s.tail_index →
        (data_frame_increment s).1 = -1 ∧
        (data_frame_increment s).2.dropped = s.dropped + 1 ∧
        (data_frame_increment s).2.head_index = s.head_index) ∧
    (cmod (s.head_index + 1) s.max_index ≠ s.tail_index →
        (data_frame_increment s).1 = 0 ∧
        (data_frame_increment s).2.head_index = cmod (s.head_index + 1) s.max_index ∧
        (data_frame_increment s).2.dropped = s.dropped) ∧
    (data_frame_increment s).2.tail_index = s.tail_index ∧
    (data_frame_increment s).2.partial_bytes = s.partial_bytes ∧
    (0 ≤ s.head_index →
        cmod (s.head_index + 1) s.max_index = (s.head_index + 1) % s.max_index) := by
  refine ⟨?_, ?_, ?_, ?_, ?_⟩
  · intro h
    simp [data_frame_increment, wake_up_queue, h]
  · intro h
    simp [data_frame_increment, wake_up_queue, h]
  · unfold data_frame_increment wake_up_queue
    dsimp only
    split <;> rfl
  · unfold data_frame_increment wake_up_queue
    dsimp only
    split <;> rfl
  · intro h0
    exact cmod_eq_emod (by omega) (by omega)

/-- Witness of C1: a full buffer of two frames. -/
theorem data_frame_increment_contract_witness :
    (data_frame_increment { reset_buffer 64 32 16 2 with head_index := 1 }).1 = -1 ∧
    (data_frame_increment { reset_buffer 64 32 16 2 with head_index := 1 }).2.dropped = 1 :=
  ⟨((data_frame_increment_contract
      { reset_buffer 64 32 16 2 with head_index := 1 } (by decide)).1 (by decide)).1,
   ((data_frame_increment_contract
      { reset_buffer 64 32 16 2 with head_index := 1 } (by decide)).1 (by decide)).2.1⟩

/-- C2: in every run of `data_frame_increment` and `data_copy_frame` calls (one
destination, copies succeeding in full) from a reset buffer with
`max_index = N >= 2` and `data_size > 0`, every call returns and
`data_size * (produce_one calls - dropped)` equals the bytes returned by the
consumer plus the bytes buffered, `((head - tail) mod N) * data_size - partial`. -/
theorem ring_accounting (size frame_size data_size N : Int) (hN : 2 ≤ N)
    (hd : 0 < data_size) (ops : List ring_op) :
    ∃ t, ring_run ⟨reset_buffer size frame_size data_size N, 0, 0⟩ ops = some t ∧
      t.produced = ops.count ring_op.produce_one ∧
      data_size * (t.produced - t.buf.dropped) =
        t.consumed +
          (((t.buf.head_index - t.buf.tail_index) % N) * data_size - t.buf.partial_bytes) := by
  have hi : copy_inv (reset_buffer size frame_size data_size N) :=
    ⟨⟨le_refl _, by show (0 : Int) < N; omega, le_refl _, by show (0 : Int) < N; omega⟩,
      le_refl _, hd, fun _ => rfl⟩
  have hb : ring_balanced ⟨reset_buffer size frame_size data_size N, 0, 0⟩ := by
    simp [ring_balanced, buffered, reset_buffer]
  obtain ⟨t, r1, -, r3, r4, r5, r6⟩ := ring_run_balanced ops _ hi hb
  refine ⟨t, r1, by simpa using r6, ?_⟩
  unfold ring_balanced buffered at r3
  rw [r4, r5] at r3
  exact r3

/-- Witness of C2: five frames produced into four slots, then 40 bytes read. -/
theorem ring_accounting_witness :
    ∃ t, ring_run ⟨reset_buffer 128 32 16 4, 0, 0⟩
        [ring_op.produce_one, ring_op.produce_one, ring_op.produce_one,
         ring_op.produce_one, ring_op.produce_one, ring_op.consume 40 0 true] = some t ∧
      t.produced = [ring_op.produce_one, ring_op.produce_one, ring_op.produce_one,
         ring_op.produce_one, ring_op.produce_one, ring_op.consume 40 0 true].count
           ring_op.produce_one ∧
      16 * (t.produced - t.buf.dropped) =
        t.consumed +
          (((t.buf.head_index - t.buf.tail_index) % 4) * 16 - t.buf.partial_bytes) :=
  ring_accounting 128 32 16 4 (by decide) (by decide) _

/-- C3: from a buffer with `max_index = N >= 1` and `head`, `tail` in `[0, N)`,
each of `data_frame_increment`, `data_copy_frame` (any count, any destinations,
any outcome of the copies; on return and after any number of iterations of its
loop), `data_tail_increment` and `data_frame_contribute` with
`0 <= new_head < N` leaves `head` and `tail` in `[0, N)`. -/
theorem indices_stay_in_range (s : frame_buffer_t) (hN : 1 ≤ s.max_index)
    (h : indices_within s.max_index s) :
    indices_within s.max_index (data_frame_increment s).2 ∧
    (∀ (fuel : Nat) (ctu : Nat → Int → Int) (ub kb : Bool) (count nonblock : Int),
      indices_within s.max_index (data_copy_frame fuel ctu ub kb count nonblock s).2) ∧
    indices_within s.max_index (data_tail_increment s).2 ∧
    (∀ new_head : Int, 0 ≤ new_head → new_head < s.max_index →
      indices_within s.max_index (data_frame_contribute new_head s).2) := by
  obtain ⟨h0, h1, t0, t1⟩ := h
  have hh := cmod_succ_range h0 h1
  have ht := cmod_succ_range t0 t1
  refine ⟨?_, ?_, ?_, ?_⟩
  · unfold data_frame_increment wake_up_queue
    dsimp only
    split
    · exact ⟨h0, h1, t0, t1⟩
    · exact ⟨hh.1, hh.2, t0, t1⟩
  · intro fuel ctu ub kb count nonblock
    unfold data_copy_frame
    dsimp only
    split
    · exact ⟨h0, h1, t0, t1⟩
    · exact data_copy_frame_loop_indices ub kb s.max_index fuel ctu count 0 s rfl
        ⟨h0, h1, t0, t1⟩
  · unfold data_tail_increment
    dsimp only
    split
    · exact ⟨h0, h1, t0, t1⟩
    · exact ⟨h0, h1, ht.1, ht.2⟩
  · intro new_head n0 n1
    have hn := cmod_succ_range n0 n1
    unfold data_frame_contribute schedule_grant wake_up_queue print_err
    dsimp only
    split
    · exact ⟨n0, n1, hn.1, hn.2⟩
    · exact ⟨n0, n1, t0, t1⟩

/-- Witness of C3: the buffer with `head = 1`, `tail = 3` of four frames. -/
theorem indices_stay_in_range_witness :
    indices_within 4 (data_frame_increment wrapped_buffer).2 ∧
    indices_within 4 (data_copy_frame 3 copy_all true false 20 0 wrapped_buffer).2 ∧
    indices_within 4 (data_tail_increment wrapped_buffer).2 ∧
    indices_within 4 (data_frame_contribute 3 wrapped_buffer).2 :=
  ⟨(indices_stay_in_range wrapped_buffer (by decide) (by decide)).1,
   (indices_stay_in_range wrapped_buffer (by decide) (by decide)).2.1 3 copy_all true false 20 0,
   (indices_stay_in_range wrapped_buffer (by decide) (by decide)).2.2.1,
   (indices_stay_in_range wrapped_buffer (by decide) (by decide)).2.2.2 3 (by decide)
     (by decide)⟩

/-- C4 as stated fails: with `head == tail` and a stale `partial = 1` (two
frames of 16 bytes), `B = -1`, the loop does not run and `data_copy_frame`
returns 0, not `min(5, B) = -1`. -/
theorem data_copy_frame_stale_partial_counterexample :
    2 ≤ stale_partial_buffer.max_index ∧ indices_ok stale_partial_buffer ∧
    0 < stale_partial_buffer.data_size ∧ 0 ≤ stale_partial_buffer.partial_bytes ∧
    stale_partial_buffer.partial_bytes < stale_partial_buffer.data_size ∧
    buffered stale_partial_buffer = -1 ∧
    (data_copy_frame 5 copy_all true false 5 0 stale_partial_buffer).1 = some 0 ∧
    (data_copy_frame 5 copy_all true false 5 0 stale_partial_buffer).1
      ≠ some (min 5 (buffered stale_partial_buffer)) := by
  decide

/-- C4, amended: for a buffer with `N >= 2`, `head` and `tail` in `[0, N)`,
`data_size > 0`, `0 <= partial < data_size` and `partial == 0` whenever
`head == tail`, and every `count >= 0`, `data_copy_frame` with exactly one
destination and copies succeeding in full returns (within `count` iterations)
`min(count, B)`, `B = ((head - tail) mod N) * data_size - partial`; afterwards
`head` is unchanged and `B - min(count, B)` bytes are buffered. -/
theorem data_copy_frame_returns_min (s : frame_buffer_t) (hN : 2 ≤ s.max_index)
    (hi : indices_within s.max_index s) (hd : 0 < s.data_size)
    (hp0 : 0 ≤ s.partial_bytes) (hp1 : s.partial_bytes < s.data_size)
    (he : s.head_index = s.tail_index → s.partial_bytes = 0)
    (count : Int) (hc : 0 ≤ count) (ub kb : Bool) (hx : xor ub kb = true)
    (ctu : Nat → Int → Int) (hz : ∀ k n, ctu k n = 0) (nonblock : Int)
    (fuel : Nat) (hf : count.toNat ≤ fuel) :
    (data_copy_frame fuel ctu ub kb count nonblock s).1
      = some (min count
          (((s.head_index - s.tail_index) % s.max_index) * s.data_size - s.partial_bytes)) ∧
    (data_copy_frame fuel ctu ub kb count nonblock s).2.head_index = s.head_index ∧
    buffered (data_copy_frame fuel ctu ub kb count nonblock s).2
      = (((s.head_index - s.tail_index) % s.max_index) * s.data_size - s.partial_bytes)
        - min count
          (((s.head_index - s.tail_index) % s.max_index) * s.data_size - s.partial_bytes) := by
  obtain ⟨c1, -, c3, c4⟩ :=
    data_copy_frame_spec fuel ctu hz ub kb hx count nonblock s ⟨hi, hp0, hp1, he⟩ hf
  rw [max_eq_left hc] at c1 c3
  exact ⟨c1, c4.1, c3⟩

/-- Witness of C4 (amended): 29 bytes buffered, 20 asked for. -/
theorem data_copy_frame_returns_min_witness :
    (data_copy_frame 20 copy_all true false 20 0 half_read_buffer).1
      = some (min 20
          (((half_read_buffer.head_index - half_read_buffer.tail_index)
              % half_read_buffer.max_index) * half_read_buffer.data_size
            - half_read_buffer.partial_bytes)) ∧
    (data_copy_frame 20 copy_all true false 20 0 half_read_buffer).2.head_index
      = half_read_buffer.head_index ∧
    buffered (data_copy_frame 20 copy_all true false 20 0 half_read_buffer).2
      = (((half_read_buffer.head_index - half_read_buffer.tail_index)
              % half_read_buffer.max_index) * half_read_buffer.data_size
            - half_read_buffer.partial_bytes)
        - min 20
          (((half_read_buffer.head_index - half_read_buffer.tail_index)
              % half_read_buffer.max_index) * half_read_buffer.data_size
            - half_read_buffer.partial_bytes) :=
  data_copy_frame_returns_min half_read_buffer (by decide) (by decide) (by decide)
    (by decide) (by decide) (by decide) 20 (by decide) true false rfl copy_all
    (fun _ _ => rfl) 0 20 (by decide)

/-- C5: `data_frame_contribute` takes its normal path (nothing logged, `head`
becomes `new_head`, `tail` kept) exactly when `new_head >= head >= tail`, or
`head >= tail > new_head`, or `tail > new_head >= head`; in every other case it
takes the "buffer trashed" path (the error is logged, `head = new_head`,
`tail = (new_head + 1) % N`).  It returns 0 in both cases. -/
theorem data_frame_contribute_paths (new_head : Int) (s : frame_buffer_t) :
    (cyclic_order new_head s →
      (data_frame_contribute new_head s).2.klog = s.klog ∧
      (data_frame_contribute new_head s).2.head_index = new_head ∧
      (data_frame_contribute new_head s).2.tail_index = s.tail_index) ∧
    (¬ cyclic_order new_head s →
      (data_frame_contribute new_head s).2.klog = trashed_msg :: s.klog ∧
      (data_frame_contribute new_head s).2.head_index = new_head ∧
      (data_frame_contribute new_head s).2.tail_index = cmod (new_head + 1) s.max_index) ∧
    (data_frame_contribute new_head s).1 = 0 := by
  refine ⟨fun h => ?_, fun h => ?_, rfl⟩
  · rw [data_frame_contribute_normal new_head s h]
    exact ⟨rfl, rfl, rfl⟩
  · rw [data_frame_contribute_resync new_head s h]
    exact ⟨rfl, rfl, rfl⟩

/-- Witness of C5: with `head = 1`, `tail = 3`, `new_head = 2` is in order
(`tail > new_head >= head`) and `new_head = 3` is not. -/
theorem data_frame_contribute_paths_witness :
    ((data_frame_contribute 2 wrapped_buffer).2.klog = wrapped_buffer.klog ∧
      (data_frame_contribute 2 wrapped_buffer).2.head_index = 2 ∧
      (data_frame_contribute 2 wrapped_buffer).2.tail_index = wrapped_buffer.tail_index) ∧
    ((data_frame_contribute 3 wrapped_buffer).2.klog = trashed_msg :: wrapped_buffer.klog ∧
      (data_frame_contribute 3 wrapped_buffer).2.head_index = 3 ∧
      (data_frame_contribute 3 wrapped_buffer).2.tail_index
        = cmod (3 + 1) wrapped_buffer.max_index) :=
  ⟨(data_frame_contribute_paths 2 wrapped_buffer).1 (by decide),
   (data_frame_contribute_paths 3 wrapped_buffer).2.1 (by decide)⟩

/-- C6 as stated fails: with `head = 1`, `tail = 3` and `new_head = 3` (four
frames) the ordering is violated and `tail` becomes `(3 + 1) % 4 = 0`, but the
drop counter stays 0: `data_frame_contribute` counts nothing. -/
theorem data_frame_contribute_no_counter_counterexample :
    ¬ cyclic_order 3 wrapped_buffer ∧
    (data_frame_contribute 3 wrapped_buffer).2.tail_index = 0 ∧
    (data_frame_contribute 3 wrapped_buffer).2.dropped = 0 ∧
    (data_frame_contribute 3 wrapped_buffer).2.dropped ≠ wrapped_buffer.dropped + 1 := by
  decide

/-- C6, amended: when `new_head` violates the cyclic ordering of `new_head`,
`head` and `tail`, `data_frame_contribute` sets `tail` to
`(new_head + 1) % N`, logs "buffer trashed" exactly once and leaves the drop
counter unchanged. -/
theorem data_frame_contribute_trashed (new_head : Int) (s : frame_buffer_t)
    (h : ¬ cyclic_order new_head s) :
    (data_frame_contribute new_head s).2.tail_index = cmod (new_head + 1) s.max_index ∧
    (data_frame_contribute new_head s).2.klog = trashed_msg :: s.klog ∧
    (data_frame_contribute new_head s).2.dropped = s.dropped := by
  rw [data_frame_contribute_resync new_head s h]
  exact ⟨rfl, rfl, rfl⟩

/-- Witness of C6 (amended): `head = 1`, `tail = 3`, `new_head = 3`. -/
theorem data_frame_contribute_trashed_witness :
    (data_frame_contribute 3 wrapped_buffer).2.tail_index = cmod (3 + 1) wrapped_buffer.max_index ∧
    (data_frame_contribute 3 wrapped_buffer).2.klog = trashed_msg :: wrapped_buffer.klog ∧
    (data_frame_contribute 3 wrapped_buffer).2.dropped = wrapped_buffer.dropped :=
  data_frame_contribute_trashed 3 wrapped_buffer (by decide)

/-- C7: on an engine in state `DDAT_CMD` (awaiting a reply), for every command
and callback, `dsp_send_command` returns `-EAGAIN` and leaves the engine as it
was: state, `cmd_count`, `rep_count`, the stored callback and the timer keep
their values, and no device register is written (nor read). -/
theorem dsp_send_command_busy (K : dsp_consts) (jiffies : Nat) (cmd : dsp_command)
    (callback : Option dsp_callback) (dev : dsp_dev_t)
    (h : dev.state = dsp_state_t.DDAT_CMD) :
    (dsp_send_command K jiffies cmd callback dev).1 = -EAGAIN ∧
    (dsp_send_command K jiffies cmd callback dev).2 = dev ∧
    (dsp_send_command K jiffies cmd callback dev).2.state = dsp_state_t.DDAT_CMD ∧
    (dsp_send_command K jiffies cmd callback dev).2.cmd_count = dev.cmd_count ∧
    (dsp_send_command K jiffies cmd callback dev).2.rep_count = dev.rep_count ∧
    (dsp_send_command K jiffies cmd callback dev).2.callback = dev.callback ∧
    (dsp_send_command K jiffies cmd callback dev).2.tim_dsp = dev.tim_dsp ∧
    (dsp_send_command K jiffies cmd callback dev).2.dsp.written = dev.dsp.written := by
  have hn : dev.state ≠ dsp_state_t.DDAT_IDLE := by rw [h]; decide
  have e : dsp_send_command K jiffies cmd callback dev = (-EAGAIN, dev) := by
    unfold dsp_send_command
    rw [if_pos hn]
  rw [e]
  exact ⟨rfl, rfl, h, rfl, rfl, rfl, rfl, rfl⟩

/-- Witness of C7: a second command while the first awaits its reply. -/
theorem dsp_send_command_busy_witness :
    (dsp_send_command example_consts 1000 ver_cmd (some 9)
      { idle_dev ready_reg with state := dsp_state_t.DDAT_CMD, callback := some 7 }).1
        = -EAGAIN ∧
    (dsp_send_command example_consts 1000 ver_cmd (some 9)
      { idle_dev ready_reg with state := dsp_state_t.DDAT_CMD, callback := some 7 }).2.callback
        = some 7 :=
  ⟨(dsp_send_command_busy example_consts 1000 ver_cmd (some 9)
      { idle_dev ready_reg with state := dsp_state_t.DDAT_CMD, callback := some 7 } rfl).1,
   (dsp_send_command_busy example_consts 1000 ver_cmd (some 9)
      { idle_dev ready_reg with state := dsp_state_t.DDAT_CMD, callback := some 7 }
      rfl).2.2.2.2.2.1⟩

/-- C8: after a successful `dsp_send_command` with a non-NULL callback, in every
non-empty sequence of `dsp_reply_handler` and `dsp_timeout` invocations with
no new command in between, the callback is invoked exactly once: by the first
invocation (with error 0 and the message for a reply, with
`-DSP_ERR_TIMEOUT` and no message for a timeout), and by none of the later
ones. -/
theorem callback_invoked_exactly_once (K : dsp_consts) (jiffies : Nat)
    (cmd : dsp_command) (cb : dsp_callback) (card : Int) (dev : dsp_dev_t)
    (h : (dsp_send_command K jiffies cmd (some cb) dev).1 = 0)
    (ev : dsp_event) (evs : List dsp_event) :
    dev.state = dsp_state_t.DDAT_IDLE ∧
    (dsp_send_command K jiffies cmd (some cb) dev).2.called = dev.called ∧
    (dsp_deliver K card (dsp_send_command K jiffies cmd (some cb) dev).2 ev).called
      = completion_call K cb card ev :: dev.called ∧
    (dsp_deliver_all K card (dsp_send_command K jiffies cmd (some cb) dev).2
        (ev :: evs)).called
      = completion_call K cb card ev :: dev.called ∧
    (dsp_deliver_all K card (dsp_send_command K jiffies cmd (some cb) dev).2
        (ev :: evs)).called.length = dev.called.length + 1 := by
  obtain ⟨hs, -, e⟩ := dsp_send_command_ok K jiffies cmd (some cb) dev h
  have h1 : (dsp_send_command K jiffies cmd (some cb) dev).2.state = dsp_state_t.DDAT_CMD := by
    rw [e]
  have h2 : (dsp_send_command K jiffies cmd (some cb) dev).2.callback = some cb := by
    rw [e]
  have h3 : (dsp_send_command K jiffies cmd (some cb) dev).2.called = dev.called := by
    rw [e]
  obtain ⟨d1, d2⟩ := dsp_deliver_cmd K card _ cb h1 h2 ev
  rw [h3] at d2
  have hall : dsp_deliver_all K card (dsp_send_command K jiffies cmd (some cb) dev).2
      (ev :: evs) = dsp_deliver K card (dsp_send_command K jiffies cmd (some cb) dev).2 ev := by
    show dsp_deliver_all K card
        (dsp_deliver K card (dsp_send_command K jiffies cmd (some cb) dev).2 ev) evs = _
    exact dsp_deliver_all_idle K card evs _ d1
  rw [hall, d2]
  exact ⟨hs, h3, rfl, rfl, rfl⟩

/-- Witness of C8: a timeout, then a late reply, then another timeout. -/
theorem callback_invoked_exactly_once_witness :
    (dsp_deliver_all example_consts 0
        (dsp_send_command example_consts 1000 ver_cmd (some 7) (idle_dev ready_reg)).2
        [dsp_event.timeout, dsp_event.reply sample_msg, dsp_event.timeout]).called
      = [⟨7, -2, none, 0⟩] :=
  (callback_invoked_exactly_once example_consts 1000 ver_cmd 7 0 (idle_dev ready_reg)
    (by decide) dsp_event.timeout [dsp_event.reply sample_msg, dsp_event.timeout]).2.2.2.1

/-- C9: whenever `dsp_send_command` returns 0, the engine was `DDAT_IDLE` before
the call, and afterwards the state is `DDAT_CMD`, the stored callback is the
one passed in, `cmd_count` is one more, `rep_count` is unchanged and the timer
is armed for `jiffies + DSP_DEFAULT_TIMEOUT` (computed in `unsigned long`, so
the plain sum unless it wraps). -/
theorem dsp_send_command_success (K : dsp_consts) (jiffies : Nat) (cmd : dsp_command)
    (callback : Option dsp_callback) (dev : dsp_dev_t)
    (h : (dsp_send_command K jiffies cmd callback dev).1 = 0) :
    dev.state = dsp_state_t.DDAT_IDLE ∧
    (dsp_send_command K jiffies cmd callback dev).2.state = dsp_state_t.DDAT_CMD ∧
    (dsp_send_command K jiffies cmd callback dev).2.callback = callback ∧
    (dsp_send_command K jiffies cmd callback dev).2.cmd_count = dev.cmd_count + 1 ∧
    (dsp_send_command K jiffies cmd callback dev).2.rep_count = dev.rep_count ∧
    (dsp_send_command K jiffies cmd callback dev).2.tim_dsp
      = some ((jiffies + K.DSP_DEFAULT_TIMEOUT) % 2 ^ K.BITS_PER_LONG) ∧
    (jiffies + K.DSP_DEFAULT_TIMEOUT < 2 ^ K.BITS_PER_LONG →
      (dsp_send_command K jiffies cmd callback dev).2.tim_dsp
        = some (jiffies + K.DSP_DEFAULT_TIMEOUT)) := by
  obtain ⟨hs, -, e⟩ := dsp_send_command_ok K jiffies cmd callback dev h
  rw [e]
  refine ⟨hs, rfl, rfl, rfl, rfl, rfl, fun hlt => ?_⟩
  show some (timeout_expires K jiffies) = _
  unfold timeout_expires
  rw [Nat.mod_eq_of_lt hlt]

/-- Witness of C9: `DSP_VER` sent to a ready device at `jiffies = 1000`. -/
theorem dsp_send_command_success_witness :
    (idle_dev ready_reg).state = dsp_state_t.DDAT_IDLE ∧
    (dsp_send_command example_consts 1000 ver_cmd (some 7) (idle_dev ready_reg)).2.state
      = dsp_state_t.DDAT_CMD ∧
    (dsp_send_command example_consts 1000 ver_cmd (some 7) (idle_dev ready_reg)).2.callback
      = some 7 ∧
    (dsp_send_command example_consts 1000 ver_cmd (some 7) (idle_dev ready_reg)).2.cmd_count
      = (idle_dev ready_reg).cmd_count + 1 ∧
    (dsp_send_command example_consts 1000 ver_cmd (some 7) (idle_dev ready_reg)).2.rep_count
      = (idle_dev ready_reg).rep_count ∧
    (dsp_send_command example_consts 1000 ver_cmd (some 7) (idle_dev ready_reg)).2.tim_dsp
      = some 1500 :=
  ⟨(dsp_send_command_success example_consts 1000 ver_cmd (some 7) (idle_dev ready_reg)
      (by decide)).1,
   (dsp_send_command_success example_consts 1000 ver_cmd (some 7) (idle_dev ready_reg)
      (by decide)).2.1,
   (dsp_send_command_success example_consts 1000 ver_cmd (some 7) (idle_dev ready_reg)
      (by decide)).2.2.1,
   (dsp_send_command_success example_consts 1000 ver_cmd (some 7) (idle_dev ready_reg)
      (by decide)).2.2.2.1,
   (dsp_send_command_success example_consts 1000 ver_cmd (some 7) (idle_dev ready_reg)
      (by decide)).2.2.2.2.1,
   (dsp_send_command_success example_consts 1000 ver_cmd (some 7) (idle_dev ready_reg)
      (by decide)).2.2.2.2.2.2 (by decide)⟩

/-- C10: on an engine in state `DDAT_IDLE`, for every command whose low-level
send fails (the command code is not in the vector table, the command-vector
register is busy, the status register is not transmit-ready, or the transmit
FIFO fills before all payload words are written), `dsp_send_command` returns
the nonzero error of the low-level send and leaves the engine as it was: the
state stays `DDAT_IDLE`, and `cmd_count`, `rep_count`, the stored callback and
the timer are unchanged.  These causes are the only ways the low-level send
fails. -/
theorem dsp_send_command_failure (K : dsp_consts) (jiffies : Nat) (cmd : dsp_command)
    (callback : Option dsp_callback) (dev : dsp_dev_t)
    (hs : dev.state = dsp_state_t.DDAT_IDLE)
    (hf : send_failure_cause K cmd dev.dsp) :
    (dsp_send_command K jiffies cmd callback dev).1 ≠ 0 ∧
    (dsp_send_command K jiffies cmd callback dev).1 = (dsp_send_command_now K cmd dev.dsp).1 ∧
    (dsp_send_command K jiffies cmd callback dev).2.state = dsp_state_t.DDAT_IDLE ∧
    (dsp_send_command K jiffies cmd callback dev).2.cmd_count = dev.cmd_count ∧
    (dsp_send_command K jiffies cmd callback dev).2.rep_count = dev.rep_count ∧
    (dsp_send_command K jiffies cmd callback dev).2.callback = dev.callback ∧
    (dsp_send_command K jiffies cmd callback dev).2.tim_dsp = dev.tim_dsp ∧
    (dsp_send_command K jiffies cmd callback dev).2.called = dev.called ∧
    ((dsp_send_command_now K cmd dev.dsp).1 ≠ 0 ↔ send_failure_cause K cmd dev.dsp) := by
  have he := (dsp_send_command_now_fails_iff K cmd dev.dsp).mpr hf
  rw [dsp_send_command_err K jiffies cmd callback dev hs he]
  exact ⟨he, rfl, hs, rfl, rfl, rfl, rfl, rfl, dsp_send_command_now_fails_iff K cmd dev.dsp⟩

/-- Witness of C10: `DSP_VER` sent while the command-vector register is busy. -/
theorem dsp_send_command_failure_witness :
    (dsp_send_command example_consts 1000 ver_cmd (some 7) (idle_dev busy_reg)).1 = -EAGAIN ∧
    (dsp_send_command example_consts 1000 ver_cmd (some 7) (idle_dev busy_reg)).2.state
      = dsp_state_t.DDAT_IDLE ∧
    (dsp_send_command example_consts 1000 ver_cmd (some 7) (idle_dev busy_reg)).2.callback
      = none :=
  ⟨by decide,
   (dsp_send_command_failure example_consts 1000 ver_cmd (some 7) (idle_dev busy_reg) rfl
      ⟨rfl, Or.inl (by decide)⟩).2.2.1,
   (dsp_send_command_failure example_consts 1000 ver_cmd (some 7) (idle_dev busy_reg) rfl
      ⟨rfl, Or.inl (by decide)⟩).2.2.2.2.2.1⟩

/-- C14 as stated fails: with `head = 1`, `tail = 3` and the requested size
equal to the current `data_size = 16`, `data_frame_resize` returns 0. -/
theorem data_frame_resize_same_size_counterexample :
    wrapped_buffer.head_index ≠ wrapped_buffer.tail_index ∧
    (data_frame_resize example_data_consts 16 wrapped_buffer).1 = 0 := by
  decide

/-- C14, amended: for every buffer with `head != tail`, `data_frame_resize`
with a requested size other than the current `data_size` fails: it returns -1
and leaves the partition and the indices as they were; with the current
`data_size` as the requested size it returns 0 and leaves the whole buffer as
it was, whatever the indices are. -/
theorem data_frame_resize_not_empty (D : data_consts) (size : Int) (s : frame_buffer_t)
    (h : s.head_index ≠ s.tail_index) :
    (size ≠ s.data_size →
      (data_frame_resize D size s).1 = -1 ∧
      (data_frame_resize D size s).1 ≠ 0 ∧
      (data_frame_resize D size s).2.data_size = s.data_size ∧
      (data_frame_resize D size s).2.frame_size = s.frame_size ∧
      (data_frame_resize D size s).2.max_index = s.max_index ∧
      (data_frame_resize D size s).2.head_index = s.head_index ∧
      (data_frame_resize D size s).2.tail_index = s.tail_index ∧
      (data_frame_resize D size s).2.partial_bytes = s.partial_bytes) ∧
    (size = s.data_size → data_frame_resize D size s = (0, s)) ∧
    data_frame_resize D s.data_size s = (0, s) := by
  have same : data_frame_resize D s.data_size s = (0, s) := by
    unfold data_frame_resize
    rw [if_pos rfl]
  refine ⟨fun hne => ?_, fun heq => ?_, same⟩
  · have e : data_frame_resize D size s =
        (-1, print_err
          "data_frame_resize: can't change frame size while buffer not empty" s) := by
      unfold data_frame_resize
      rw [if_neg hne, if_pos (fun q => h q.symm)]
    rw [e]
    exact ⟨rfl, show (-1 : Int) ≠ 0 by decide, rfl, rfl, rfl, rfl, rfl, rfl⟩
  · rw [heq]
    exact same

/-- Witness of C14 (amended): two frames unread; a new size of 32 fails and
changes nothing, the current size of 16 returns 0. -/
theorem data_frame_resize_not_empty_witness :
    (data_frame_resize example_data_consts 32 wrapped_buffer).1 = -1 ∧
    (data_frame_resize example_data_consts 32 wrapped_buffer).2.data_size = 16 ∧
    data_frame_resize example_data_consts 16 wrapped_buffer = (0, wrapped_buffer) :=
  ⟨((data_frame_resize_not_empty example_data_consts 32 wrapped_buffer (by decide)).1
      (by decide)).1,
   ((data_frame_resize_not_empty example_data_consts 32 wrapped_buffer (by decide)).1
      (by decide)).2.2.1,
   (data_frame_resize_not_empty example_data_consts 16 wrapped_buffer (by decide)).2.1 rfl⟩

/-- C15: on an empty buffer (`head == tail`) in classic mode, with
`DMA_ADDR_ALIGN = A = 2^k` and `DMA_ADDR_MASK = ~(A - 1)` (in 32 bits), for
every `size > 0` other than the current `data_size` with `size + A - 1` in the
range of `int`: `data_frame_resize` returns 0 iff `S / frame_size >= 2`, where
`S` is the size of the region and `frame_size = ((size + A - 1) / A) * A` is
the least multiple of `A` that is at least `size`; and when it returns 0,
`data_size = size`, `frame_size` is that multiple and
`max_index = floor(S / frame_size)`. -/
theorem data_frame_resize_partition (D : data_consts) (size : Int) (s : frame_buffer_t)
    (k : Nat) (he : s.head_index = s.tail_index) (hq : s.data_mode ≠ D.DATAMODE_QUIET)
    (hA : D.DMA_ADDR_ALIGN = 2 ^ k) (hm : D.DMA_ADDR_MASK % 2 ^ 32 = 2 ^ 32 - 2 ^ k)
    (hs : 0 < size) (hne : size ≠ s.data_size)
    (hov : size + D.DMA_ADDR_ALIGN - 1 < 2 ^ 31) :
    ((data_frame_resize D size s).1 = 0 ↔
      2 ≤ s.size / ((size + D.DMA_ADDR_ALIGN - 1) / D.DMA_ADDR_ALIGN * D.DMA_ADDR_ALIGN)) ∧
    ((data_frame_resize D size s).1 = 0 →
      (data_frame_resize D size s).2.data_size = size ∧
      (data_frame_resize D size s).2.frame_size
        = (size + D.DMA_ADDR_ALIGN - 1) / D.DMA_ADDR_ALIGN * D.DMA_ADDR_ALIGN ∧
      (data_frame_resize D size s).2.max_index
        = s.size / ((size + D.DMA_ADDR_ALIGN - 1) / D.DMA_ADDR_ALIGN * D.DMA_ADDR_ALIGN)) ∧
    (D.DMA_ADDR_ALIGN ∣ (size + D.DMA_ADDR_ALIGN - 1) / D.DMA_ADDR_ALIGN * D.DMA_ADDR_ALIGN ∧
      size ≤ (size + D.DMA_ADDR_ALIGN - 1) / D.DMA_ADDR_ALIGN * D.DMA_ADDR_ALIGN ∧
      ∀ m : Int, D.DMA_ADDR_ALIGN ∣ m → size ≤ m →
        (size + D.DMA_ADDR_ALIGN - 1) / D.DMA_ADDR_ALIGN * D.DMA_ADDR_ALIGN ≤ m) := by
  have hpos : (0 : Int) < 2 ^ k := by positivity
  have hA0 : 0 < D.DMA_ADDR_ALIGN := by rw [hA]; exact hpos
  have hk : k ≤ 32 := by
    by_contra hc
    have h1 : (2 : Int) ^ 31 ≤ 2 ^ k := by
      have : (2 : Nat) ^ 31 ≤ 2 ^ k := Nat.pow_le_pow_right (by decide) (by omega)
      exact_mod_cast this
    rw [hA] at hov
    omega
  have hl := round_up_least size D.DMA_ADDR_ALIGN hA0
  have hfs : cand32 (size + D.DMA_ADDR_ALIGN - 1) D.DMA_ADDR_MASK
      = (size + D.DMA_ADDR_ALIGN - 1) / D.DMA_ADDR_ALIGN * D.DMA_ADDR_ALIGN := by
    rw [cand32_align _ _ k hk (by omega) hov hm, hA]
  have hfpos : 0 < (size + D.DMA_ADDR_ALIGN - 1) / D.DMA_ADDR_ALIGN * D.DMA_ADDR_ALIGN := by
    have := hl.2.1
    omega
  obtain ⟨d1, d2⟩ := cdiv_frames s.size _ hfpos
  rw [data_frame_resize_classic D size s he hq hs hne, hfs]
  refine ⟨?_, ?_, hl⟩
  · by_cases hc : cdiv s.size
        ((size + D.DMA_ADDR_ALIGN - 1) / D.DMA_ADDR_ALIGN * D.DMA_ADDR_ALIGN) ≤ 1
    · rw [if_pos hc]
      have := d1.mp hc
      constructor
      · intro q; exact absurd q (show ¬ ((-3 : Int) = 0) by decide)
      · intro q; omega
    · rw [if_neg hc]
      have : ¬ (s.size / ((size + D.DMA_ADDR_ALIGN - 1) / D.DMA_ADDR_ALIGN
          * D.DMA_ADDR_ALIGN) ≤ 1) := fun q => hc (d1.mpr q)
      constructor
      · intro _; omega
      · intro _; rfl
  · by_cases hc : cdiv s.size
        ((size + D.DMA_ADDR_ALIGN - 1) / D.DMA_ADDR_ALIGN * D.DMA_ADDR_ALIGN) ≤ 1
    · rw [if_pos hc]
      intro q; exact absurd q (show ¬ ((-3 : Int) = 0) by decide)
    · rw [if_neg hc]
      intro _
      exact ⟨rfl, rfl, d2 (by omega)⟩

/-- Witness of C15: 4096 bytes, alignment 1024, a new size of 2000: frames of
2048 bytes, two of them. -/
theorem data_frame_resize_partition_witness :
    (data_frame_resize example_data_consts 2000 (reset_buffer 4096 1024 1024 4)).1 = 0 ∧
    (data_frame_resize example_data_consts 2000 (reset_buffer 4096 1024 1024 4)).2.data_size
      = 2000 ∧
    (data_frame_resize example_data_consts 2000 (reset_buffer 4096 1024 1024 4)).2.frame_size
      = 2048 ∧
    (data_frame_resize example_data_consts 2000 (reset_buffer 4096 1024 1024 4)).2.max_index
      = 2 :=
  ⟨((data_frame_resize_partition example_data_consts 2000 (reset_buffer 4096 1024 1024 4) 10
      rfl (by decide) rfl (by decide) (by decide) (by decide) (by decide)).1).mpr
      (by decide),
   ((data_frame_resize_partition example_data_consts 2000 (reset_buffer 4096 1024 1024 4) 10
      rfl (by decide) rfl (by decide) (by decide) (by decide) (by decide)).2.1
      (by decide)).1,
   ((data_frame_resize_partition example_data_consts 2000 (reset_buffer 4096 1024 1024 4) 10
      rfl (by decide) rfl (by decide) (by decide) (by decide) (by decide)).2.1
      (by decide)).2.1,
   ((data_frame_resize_partition example_data_consts 2000 (reset_buffer 4096 1024 1024 4) 10
      rfl (by decide) rfl (by decide) (by decide) (by decide) (by decide)).2.1
      (by decide)).2.2⟩

/-- C16, the code at the failing input: on the empty four-frame buffer of 4096
bytes, `data_frame_resize` to 3000 bytes fails with -3 (one frame of 3072
bytes would fit), yet `data_size`, `frame_size` and `max_index` have been
overwritten. -/
theorem data_frame_resize_failure_overwrites :
    four_frame_buffer.data_size = 1024 ∧ four_frame_buffer.frame_size = 1024 ∧
    four_frame_buffer.max_index = 4 ∧
    (data_frame_resize example_data_consts 3000 four_frame_buffer).1 = -3 ∧
    (data_frame_resize example_data_consts 3000 four_frame_buffer).2.data_size = 3000 ∧
    (data_frame_resize example_data_consts 3000 four_frame_buffer).2.frame_size = 3072 ∧
    (data_frame_resize example_data_consts 3000 four_frame_buffer).2.max_index = 1 := by
  decide

/-- C17, the code at the failing input: on the four-frame buffer of 4096 bytes,
empty with `head = tail = 3`, `data_frame_resize` to 2000 bytes returns 0 and
leaves two frames, with `head` and `tail` still 3, so that
`data_frame_address` hands out offset 6144 of a region of 4096 bytes. -/
theorem data_frame_resize_keeps_stale_indices :
    indices_ok four_frame_buffer ∧
    four_frame_buffer.head_index = four_frame_buffer.tail_index ∧
    (data_frame_resize example_data_consts 2000 four_frame_buffer).1 = 0 ∧
    (data_frame_resize example_data_consts 2000 four_frame_buffer).2.max_index = 2 ∧
    (data_frame_resize example_data_consts 2000 four_frame_buffer).2.head_index = 3 ∧
    (data_frame_resize example_data_consts 2000 four_frame_buffer).2.tail_index = 3 ∧
    ¬ indices_ok (data_frame_resize example_data_consts 2000 four_frame_buffer).2 ∧
    (data_frame_resize example_data_consts 2000 four_frame_buffer).2.size = 4096 ∧
    data_frame_address (data_frame_resize example_data_consts 2000 four_frame_buffer).2
      = 6144 := by
  decide

/-- C18 as stated fails: after five `data_frame_increment` calls on a reset
buffer of four frames of 16 bytes the drop counter does not read 1. -/
theorem five_increments_counterexample :
    (increment_times 5 (reset_buffer 64 16 16 4)).dropped ≠ 1 := by
  decide

/-- C18, amended: from a reset buffer of four frames with `data_size = 16`, five
consecutive `data_frame_increment` calls drop exactly two frames: three calls
advance `head` to 3, the last two find `(head + 1) % 4 == tail`, and the drop
counter reads 2. -/
theorem five_increments_drop_two (size frame_size : Int) :
    (increment_times 3 (reset_buffer size frame_size 16 4)).dropped = 0 ∧
    (increment_times 3 (reset_buffer size frame_size 16 4)).head_index = 3 ∧
    (increment_times 4 (reset_buffer size frame_size 16 4)).dropped = 1 ∧
    (increment_times 5 (reset_buffer size frame_size 16 4)).dropped = 2 ∧
    (increment_times 5 (reset_buffer size frame_size 16 4)).head_index = 3 ∧
    (increment_times 5 (reset_buffer size frame_size 16 4)).tail_index = 0 := by
  refine ⟨?_, ?_, ?_, ?_, ?_, ?_⟩ <;> rfl

/-- C19: from a buffer with `data_size > 0`, `max_index >= 1` and
`0 <= partial < data_size`, each of `data_frame_increment`,
`data_frame_contribute`, `data_copy_frame` (any count, exactly one destination,
copies succeeding in full; after any number of iterations of its loop, and it
returns within `count` of them) and `data_tail_increment` leaves
`0 <= partial < data_size`. -/
theorem partial_stays_in_range (s : frame_buffer_t) (hd : 0 < s.data_size)
    (hN : 1 ≤ s.max_index) (hp : partial_within s.data_size s) :
    partial_within s.data_size (data_frame_increment s).2 ∧
    (∀ new_head : Int, partial_within s.data_size (data_frame_contribute new_head s).2) ∧
    (∀ (fuel : Nat) (ctu : Nat → Int → Int) (ub kb : Bool) (count nonblock : Int),
      xor ub kb = true → (∀ k n, ctu k n = 0) →
      partial_within s.data_size (data_copy_frame fuel ctu ub kb count nonblock s).2 ∧
      (count.toNat ≤ fuel → (data_copy_frame fuel ctu ub kb count nonblock s).1.isSome)) ∧
    partial_within s.data_size (data_tail_increment s).2 := by
  refine ⟨?_, ?_, ?_, ?_⟩
  · unfold data_frame_increment wake_up_queue
    dsimp only
    split <;> exact hp
  · intro new_head
    unfold data_frame_contribute schedule_grant wake_up_queue print_err
    dsimp only
    split <;> exact hp
  · intro fuel ctu ub kb count nonblock hx hz
    unfold data_copy_frame
    simp only [hx, not_true_eq_false, if_false]
    exact data_copy_frame_loop_offset_range ub kb s.data_size hd fuel ctu hz count 0 s rfl hp
  · unfold data_tail_increment
    dsimp only
    split
    · exact hp
    · exact ⟨le_refl _, hd⟩

/-- Witness of C19: the buffer with 3 bytes of the frame at `tail` consumed. -/
theorem partial_stays_in_range_witness :
    partial_within 16 (data_frame_increment half_read_buffer).2 ∧
    partial_within 16 (data_frame_contribute 3 half_read_buffer).2 ∧
    partial_within 16 (data_copy_frame 20 copy_all false true 20 0 half_read_buffer).2 ∧
    (data_copy_frame 20 copy_all false true 20 0 half_read_buffer).1.isSome ∧
    partial_within 16 (data_tail_increment half_read_buffer).2 :=
  ⟨(partial_stays_in_range half_read_buffer (by decide) (by decide) (by decide)).1,
   (partial_stays_in_range half_read_buffer (by decide) (by decide) (by decide)).2.1 3,
   ((partial_stays_in_range half_read_buffer (by decide) (by decide) (by decide)).2.2.1
      20 copy_all false true 20 0 rfl (fun _ _ => rfl)).1,
   ((partial_stays_in_range half_read_buffer (by decide) (by decide) (by decide)).2.2.1
      20 copy_all false true 20 0 rfl (fun _ _ => rfl)).2 (by decide),
   (partial_stays_in_range half_read_buffer (by decide) (by decide) (by decide)).2.2.2⟩

/-- C20: in every state reached from a reset buffer (`max_index = N >= 2`,
`data_size > 0`) by a sequence of `data_frame_increment`,
`data_frame_contribute` with `new_head` in `[0, N)`, `data_copy_frame` (any
arguments and copy results, after any number of iterations of its loop) and
`data_tail_increment` calls, `head == tail` implies `partial == 0`; hence
`data_frame_poll` returns 0 exactly when `head == tail` and `partial == 0`. -/
theorem empty_buffer_offset_is_zero (size frame_size data_size N : Int) (hN : 2 ≤ N)
    (hd : 0 < data_size) (ops : List buffer_op) (hops : new_heads_within N ops) :
    ((buffer_run (reset_buffer size frame_size data_size N) ops).head_index
        = (buffer_run (reset_buffer size frame_size data_size N) ops).tail_index →
      (buffer_run (reset_buffer size frame_size data_size N) ops).partial_bytes = 0) ∧
    (data_frame_poll (buffer_run (reset_buffer size frame_size data_size N) ops) = 0 ↔
      ((buffer_run (reset_buffer size frame_size data_size N) ops).head_index
          = (buffer_run (reset_buffer size frame_size data_size N) ops).tail_index ∧
        (buffer_run (reset_buffer size frame_size data_size N) ops).partial_bytes = 0)) := by
  obtain ⟨-, h⟩ := buffer_run_no_stale N hN ops (reset_buffer size frame_size data_size N)
    rfl (fun _ => rfl) hops
  refine ⟨h, ?_⟩
  unfold data_frame_poll b2i
  constructor
  · intro q
    by_cases e : (buffer_run (reset_buffer size frame_size data_size N) ops).tail_index
        = (buffer_run (reset_buffer size frame_size data_size N) ops).head_index
    · exact ⟨e.symm, h e.symm⟩
    · simp [e] at q
  · rintro ⟨e, -⟩
    simp [e]

/-- Witness of C20: three frames produced, the buffer resynchronised by a
`data_frame_contribute` that overruns, 20 bytes read, a frame discarded. -/
theorem empty_buffer_offset_is_zero_witness :
    data_frame_poll (buffer_run (reset_buffer 64 16 16 4)
        [buffer_op.increment, buffer_op.increment, buffer_op.increment,
         buffer_op.contribute 0, buffer_op.copy_frame 20 copy_all true false 20 0,
         buffer_op.tail_increment]) = 0 ↔
      ((buffer_run (reset_buffer 64 16 16 4)
        [buffer_op.increment, buffer_op.increment, buffer_op.increment,
         buffer_op.contribute 0, buffer_op.copy_frame 20 copy_all true false 20 0,
         buffer_op.tail_increment]).head_index
        = (buffer_run (reset_buffer 64 16 16 4)
        [buffer_op.increment, buffer_op.increment, buffer_op.increment,
         buffer_op.contribute 0, buffer_op.copy_frame 20 copy_all true false 20 0,
         buffer_op.tail_increment]).tail_index ∧
       (buffer_run (reset_buffer 64 16 16 4)
        [buffer_op.increment, buffer_op.increment, buffer_op.increment,
         buffer_op.contribute 0, buffer_op.copy_frame 20 copy_all true false 20 0,
         buffer_op.tail_increment]).partial_bytes = 0) :=
  (empty_buffer_offset_is_zero 64 16 16 4 (by decide) (by decide)
    [buffer_op.increment, buffer_op.increment, buffer_op.increment,
     buffer_op.contribute 0, buffer_op.copy_frame 20 copy_all true false 20 0,
     buffer_op.tail_increment] ⟨by decide, by decide, trivial⟩).2

/-- C11: `dsp_reply_handler` on an engine in state `DDAT_CMD` sets the state to
`DDAT_IDLE`, adds exactly one to `rep_count`, keeps `cmd_count` and, when the
stored callback is not NULL, invokes it exactly once, with error 0 and the
message received; in any other state it invokes no callback and leaves the
engine as it was.  It returns 0 in both cases. -/
theorem dsp_reply_handler_contract (msg : dsp_message) (card : Int) (dev : dsp_dev_t) :
    (dev.state = dsp_state_t.DDAT_CMD →
      (dsp_reply_handler msg card dev).2.state = dsp_state_t.DDAT_IDLE ∧
      (dsp_reply_handler msg card dev).2.rep_count = dev.rep_count + 1 ∧
      (dsp_reply_handler msg card dev).2.cmd_count = dev.cmd_count ∧
      (∀ cb, dev.callback = some cb →
        (dsp_reply_handler msg card dev).2.called = ⟨cb, 0, some msg, card⟩ :: dev.called) ∧
      (dev.callback = none → (dsp_reply_handler msg card dev).2.called = dev.called)) ∧
    (dev.state ≠ dsp_state_t.DDAT_CMD →
      (dsp_reply_handler msg card dev).2 = dev ∧
      (dsp_reply_handler msg card dev).2.called = dev.called ∧
      (dsp_reply_handler msg card dev).2.state = dev.state ∧
      (dsp_reply_handler msg card dev).2.cmd_count = dev.cmd_count ∧
      (dsp_reply_handler msg card dev).2.rep_count = dev.rep_count) ∧
    (dsp_reply_handler msg card dev).1 = 0 := by
  refine ⟨fun hs => ?_, fun hs => ?_, ?_⟩
  · rcases Option.eq_none_or_eq_some dev.callback with hc | ⟨cb, hc⟩
    · rw [dsp_reply_handler_cmd_none msg card dev hs hc]
      refine ⟨rfl, rfl, rfl, fun cb q => ?_, fun _ => rfl⟩
      rw [hc] at q
      exact absurd q (by simp)
    · rw [dsp_reply_handler_cmd_some msg card dev cb hs hc]
      obtain ⟨i1, i2, i3, i4, -⟩ := invoke_callback_engine cb 0 (some msg) card
        { dev with state := dsp_state_t.DDAT_IDLE, rep_count := dev.rep_count + 1 }
      refine ⟨i2, i4, i3, fun cb' q => ?_, fun q => ?_⟩
      · rw [hc] at q
        rw [← Option.some.inj q]
        exact i1
      · rw [hc] at q
        exact absurd q (by simp)
  · have e : dsp_reply_handler msg card dev = (0, dev) := by
      unfold dsp_reply_handler
      dsimp only
      rw [if_neg hs]
    rw [e]
    exact ⟨rfl, rfl, rfl, rfl, rfl⟩
  · unfold dsp_reply_handler
    dsimp only
    split <;> rfl

/-- Witness of C11: a reply to an engine awaiting one, callback 7 stored. -/
theorem dsp_reply_handler_contract_witness :
    (dsp_reply_handler sample_msg 0
      { idle_dev ready_reg with state := dsp_state_t.DDAT_CMD, callback := some 7 }).2.state
        = dsp_state_t.DDAT_IDLE ∧
    (dsp_reply_handler sample_msg 0
      { idle_dev ready_reg with state := dsp_state_t.DDAT_CMD, callback := some 7 }).2.rep_count
        = 1 ∧
    (dsp_reply_handler sample_msg 0
      { idle_dev ready_reg with state := dsp_state_t.DDAT_CMD, callback := some 7 }).2.called
        = [⟨7, 0, some sample_msg, 0⟩] ∧
    (dsp_reply_handler sample_msg 0 (idle_dev ready_reg)).2.called = [] :=
  ⟨((dsp_reply_handler_contract sample_msg 0
      { idle_dev ready_reg with state := dsp_state_t.DDAT_CMD, callback := some 7 }).1 rfl).1,
   ((dsp_reply_handler_contract sample_msg 0
      { idle_dev ready_reg with state := dsp_state_t.DDAT_CMD, callback := some 7 }).1
      rfl).2.1,
   ((dsp_reply_handler_contract sample_msg 0
      { idle_dev ready_reg with state := dsp_state_t.DDAT_CMD, callback := some 7 }).1
      rfl).2.2.2.1 7 rfl,
   ((dsp_reply_handler_contract sample_msg 0 (idle_dev ready_reg)).2.1 (by decide)).2.1⟩

/-- C12: `dsp_timeout` on an engine in state `DDAT_CMD` sets the state to
`DDAT_IDLE`, keeps `cmd_count` and `rep_count` and, when the stored callback
is not NULL, invokes it exactly once, with error `-DSP_ERR_TIMEOUT` and a NULL
message; on an engine in state `DDAT_IDLE` it invokes no callback and changes
nothing. -/
theorem dsp_timeout_contract (K : dsp_consts) (card : Int) (dev : dsp_dev_t) :
    (dev.state = dsp_state_t.DDAT_CMD →
      (dsp_timeout K card dev).state = dsp_state_t.DDAT_IDLE ∧
      (dsp_timeout K card dev).cmd_count = dev.cmd_count ∧
      (dsp_timeout K card dev).rep_count = dev.rep_count ∧
      (∀ cb, dev.callback = some cb →
        (dsp_timeout K card dev).called
          = ⟨cb, -K.DSP_ERR_TIMEOUT, none, card⟩ :: dev.called) ∧
      (dev.callback = none → (dsp_timeout K card dev).called = dev.called)) ∧
    (dev.state = dsp_state_t.DDAT_IDLE →
      dsp_timeout K card dev = dev ∧ (dsp_timeout K card dev).called = dev.called) := by
  refine ⟨fun hs => ?_, fun hs => ?_⟩
  · rcases Option.eq_none_or_eq_some dev.callback with hc | ⟨cb, hc⟩
    · rw [dsp_timeout_cmd_none K card dev hs hc]
      refine ⟨rfl, rfl, rfl, fun cb q => ?_, fun _ => rfl⟩
      rw [hc] at q
      exact absurd q (by simp)
    · rw [dsp_timeout_cmd_some K card dev cb hs hc]
      obtain ⟨i1, i2, i3, i4, -⟩ := invoke_callback_engine cb (-K.DSP_ERR_TIMEOUT) none card
        { dev with state := dsp_state_t.DDAT_IDLE }
      refine ⟨i2, i3, i4, fun cb' q => ?_, fun q => ?_⟩
      · rw [hc] at q
        rw [← Option.some.inj q]
        exact i1
      · rw [hc] at q
        exact absurd q (by simp)
  · have hn : ¬ dev.state = dsp_state_t.DDAT_CMD := by rw [hs]; decide
    have e : dsp_timeout K card dev = dev := by
      unfold dsp_timeout
      rw [if_neg hn]
    rw [e]
    exact ⟨rfl, rfl⟩

/-- Witness of C12: the timer expires on an engine awaiting a reply, callback
7 stored, and on an idle engine. -/
theorem dsp_timeout_contract_witness :
    (dsp_timeout example_consts 0
      { idle_dev ready_reg with state := dsp_state_t.DDAT_CMD, callback := some 7 }).state
        = dsp_state_t.DDAT_IDLE ∧
    (dsp_timeout example_consts 0
      { idle_dev ready_reg with state := dsp_state_t.DDAT_CMD, callback := some 7 }).called
        = [⟨7, -2, none, 0⟩] ∧
    (dsp_timeout example_consts 0 (idle_dev ready_reg)).called = [] :=
  ⟨((dsp_timeout_contract example_consts 0
      { idle_dev ready_reg with state := dsp_state_t.DDAT_CMD, callback := some 7 }).1 rfl).1,
   ((dsp_timeout_contract example_consts 0
      { idle_dev ready_reg with state := dsp_state_t.DDAT_CMD, callback := some 7 }).1
      rfl).2.2.2.1 7 rfl,
   ((dsp_timeout_contract example_consts 0 (idle_dev ready_reg)).2 rfl).2⟩

/-- C13, the code at the failing input: `dsp_send_command_wait` for the quick
command `DSP_INT_RST` on an idle engine with a free gate, where no reply
arrives and the timer expires.  `dsp_timeout` calls
`dsp_send_command_wait_callback` with `-DSP_ERR_TIMEOUT` and a NULL message;
the callback ignores the error, copies from the NULL message and sets
`LOCAL_REP`, and `dsp_send_command_wait` returns 0. -/
theorem dsp_send_command_wait_quick_returns_zero :
    (dsp_lookup_vector example_consts int_rst_cmd).map dsp_vector.vtype
      = some dsp_vector_type.VECTOR_QUICK ∧
    (dsp_send_command_wait example_consts 1000 int_rst_cmd 0
      [wait_happening.deliver dsp_event.timeout] (idle_dev ready_reg)).map Prod.fst
        = some 0 ∧
    (dsp_send_command_wait example_consts 1000 int_rst_cmd 0
      [wait_happening.deliver dsp_event.timeout] (idle_dev ready_reg)).map
        (fun r => r.2.called) = some [⟨dsp_callback.wait_callback, -2, none, 0⟩] ∧
    (dsp_send_command_wait example_consts 1000 int_rst_cmd 0
      [wait_happening.deliver dsp_event.timeout] (idle_dev ready_reg)).map
        (fun r => r.2.oops) = some true ∧
    (dsp_send_command_wait example_consts 1000 int_rst_cmd 0
      [wait_happening.deliver dsp_event.timeout] (idle_dev ready_reg)).map
        (fun r => r.2.local_flags) = some (LOCAL_CMD ||| LOCAL_REP) := by
  decide

/-- C21: for every buffer with `max_index = N >= 1`, `data_tail_increment`
returns -1 and leaves `head`, `tail`, `partial` and the drop counter as they
were when `head == tail`; otherwise it returns 0, sets `tail` to
`(tail + 1) % N` and `partial` to 0 and keeps `head` and the drop counter.
(`%` is the C operator; for `0 <= tail` it is the mathematical remainder.) -/
theorem data_tail_increment_contract (s : frame_buffer_t) (hN : 1 ≤ s.max_index) :
    (s.head_index = s.tail_index →
      (data_tail_increment s).1 = -1 ∧
      (data_tail_increment s).2 = s ∧
      (data_tail_increment s).2.head_index = s.head_index ∧
      (data_tail_increment s).2.tail_index = s.tail_index ∧
      (data_tail_increment s).2.partial_bytes = s.partial_bytes ∧
      (data_tail_increment s).2.dropped = s.dropped) ∧
    (s.head_index ≠ s.tail_index →
      (data_tail_increment s).1 = 0 ∧
      (data_tail_increment s).2.tail_index = cmod (s.tail_index + 1) s.max_index ∧
      (data_tail_increment s).2.partial_bytes = 0 ∧
      (data_tail_increment s).2.head_index = s.head_index ∧
      (data_tail_increment s).2.dropped = s.dropped) ∧
    (0 ≤ s.tail_index →
      cmod (s.tail_index + 1) s.max_index = (s.tail_index + 1) % s.max_index) := by
  refine ⟨fun h => ?_, fun h => ?_, fun h0 => cmod_eq_emod (by omega) (by omega)⟩
  · have e : data_tail_increment s = (-1, s) := by
      unfold data_tail_increment
      dsimp only
      rw [if_pos h]
    rw [e]
    exact ⟨rfl, rfl, rfl, rfl, rfl, rfl⟩
  · have e : data_tail_increment s =
        (0, { s with tail_index := cmod (s.tail_index + 1) s.max_index,
                     partial_bytes := 0 }) := by
      unfold data_tail_increment
      dsimp only
      rw [if_neg h]
    rw [e]
    exact ⟨rfl, rfl, rfl, rfl, rfl⟩

/-- Witness of C21: a frame discarded from the buffer with 3 bytes of it read,
and nothing to discard from a reset buffer. -/
theorem data_tail_increment_contract_witness :
    ((data_tail_increment half_read_buffer).1 = 0 ∧
      (data_tail_increment half_read_buffer).2.tail_index = 1 ∧
      (data_tail_increment half_read_buffer).2.partial_bytes = 0) ∧
    (data_tail_increment (reset_buffer 64 16 16 4)).1 = -1 :=
  ⟨⟨((data_tail_increment_contract half_read_buffer (by decide)).2.1 (by decide)).1,
    ((data_tail_increment_contract half_read_buffer (by decide)).2.1 (by decide)).2.1,
    ((data_tail_increment_contract half_read_buffer (by decide)).2.1 (by decide)).2.2.1⟩,
   ((data_tail_increment_contract (reset_buffer 64 16 16 4) (by decide)).1 rfl).1⟩

/-- C22: after every sequence of `dsp_set_msg_handler` and `dsp_clear_handler`
calls from an empty table (`n_handlers = 0`), `0 <= n_handlers <=
MAX_HANDLERS` and the type codes of the first `n_handlers` entries are
pairwise distinct; and registering a code that is already there, at index
`i`, returns 0, puts the new handler and context into entry `i` and leaves
`n_handlers` and every other entry as they were.  (For every capacity
`max_handlers`, 16 in the code.) -/
theorem registry_invariant (max_handlers : Nat) (dev0 : dsp_dev_t)
    (h0 : dev0.n_handlers = 0) (ops : List registry_op) :
    (0 ≤ (registry_run max_handlers dev0 ops).n_handlers ∧
      (registry_run max_handlers dev0 ops).n_handlers ≤ max_handlers ∧
      codes_distinct (registry_run max_handlers dev0 ops).n_handlers.toNat
        (registry_run max_handlers dev0 ops).handlers) ∧
    (∀ (code : Nat) (handler : Option dsp_handler) (data : Nat) (i : Nat),
      (i : Int) < (registry_run max_handlers dev0 ops).n_handlers →
      ((registry_run max_handlers dev0 ops).handlers i).code = code →
      (dsp_set_msg_handler max_handlers code handler data
          (registry_run max_handlers dev0 ops)).1 = 0 ∧
      (dsp_set_msg_handler max_handlers code handler data
          (registry_run max_handlers dev0 ops)).2.n_handlers
        = (registry_run max_handlers dev0 ops).n_handlers ∧
      (dsp_set_msg_handler max_handlers code handler data
          (registry_run max_handlers dev0 ops)).2.handlers i = ⟨code, handler, data⟩ ∧
      ∀ j, j ≠ i →
        (dsp_set_msg_handler max_handlers code handler data
            (registry_run max_handlers dev0 ops)).2.handlers j
          = (registry_run max_handlers dev0 ops).handlers j) := by
  have hok : registry_ok max_handlers (registry_run max_handlers dev0 ops) := by
    apply registry_run_ok
    refine ⟨by omega, by omega, ?_⟩
    intro i hi
    rw [h0] at hi
    exact absurd hi (by simp)
  refine ⟨hok, ?_⟩
  intro code handler data i hi hc
  obtain ⟨n0, -, hd⟩ := hok
  have hf : ∀ j, j < i → ((registry_run max_handlers dev0 ops).handlers j).code ≠ code := by
    intro j hj e
    have := hd j (by omega) i (by omega) (e.trans hc.symm)
    omega
  rw [dsp_set_msg_handler_present max_handlers code handler data _ i hi hc hf]
  refine ⟨rfl, rfl, ?_, ?_⟩
  · show Function.update _ i _ i = _
    rw [Function.update_same, ← hc]
  · intro j hj
    show Function.update _ i _ j = _
    rw [Function.update_noteq hj]

/-- Witness of C22: two codes registered, the first replaced, the second
cleared, with the capacity 16 of the code; and the code 10 registered again
after the first two calls, which rewrites entry 0 and keeps the count at 2. -/
theorem registry_invariant_witness :
    0 ≤ (registry_run MAX_HANDLERS (idle_dev ready_reg)
        [registry_op.set_msg_handler 10 (some 1) 0, registry_op.set_msg_handler 20 (some 2) 0,
         registry_op.set_msg_handler 10 (some 3) 5, registry_op.clear_handler 20]).n_handlers ∧
    (registry_run MAX_HANDLERS (idle_dev ready_reg)
        [registry_op.set_msg_handler 10 (some 1) 0, registry_op.set_msg_handler 20 (some 2) 0,
         registry_op.set_msg_handler 10 (some 3) 5, registry_op.clear_handler 20]).n_handlers
      ≤ MAX_HANDLERS ∧
    codes_distinct (registry_run MAX_HANDLERS (idle_dev ready_reg)
        [registry_op.set_msg_handler 10 (some 1) 0, registry_op.set_msg_handler 20 (some 2) 0,
         registry_op.set_msg_handler 10 (some 3) 5, registry_op.clear_handler 20]).n_handlers.toNat
      (registry_run MAX_HANDLERS (idle_dev ready_reg)
        [registry_op.set_msg_handler 10 (some 1) 0, registry_op.set_msg_handler 20 (some 2) 0,
         registry_op.set_msg_handler 10 (some 3) 5, registry_op.clear_handler 20]).handlers ∧
    (dsp_set_msg_handler MAX_HANDLERS 10 (some 3) 5
        (registry_run MAX_HANDLERS (idle_dev ready_reg)
          [registry_op.set_msg_handler 10 (some 1) 0,
           registry_op.set_msg_handler 20 (some 2) 0])).2.handlers 0 = ⟨10, some 3, 5⟩ ∧
    (dsp_set_msg_handler MAX_HANDLERS 10 (some 3) 5
        (registry_run MAX_HANDLERS (idle_dev ready_reg)
          [registry_op.set_msg_handler 10 (some 1) 0,
           registry_op.set_msg_handler 20 (some 2) 0])).2.n_handlers = 2 :=
  ⟨(registry_invariant MAX_HANDLERS (idle_dev ready_reg) rfl
      [registry_op.set_msg_handler 10 (some 1) 0, registry_op.set_msg_handler 20 (some 2) 0,
       registry_op.set_msg_handler 10 (some 3) 5, registry_op.clear_handler 20]).1.1,
   (registry_invariant MAX_HANDLERS (idle_dev ready_reg) rfl
      [registry_op.set_msg_handler 10 (some 1) 0, registry_op.set_msg_handler 20 (some 2) 0,
       registry_op.set_msg_handler 10 (some 3) 5, registry_op.clear_handler 20]).1.2.1,
   (registry_invariant MAX_HANDLERS (idle_dev ready_reg) rfl
      [registry_op.set_msg_handler 10 (some 1) 0, registry_op.set_msg_handler 20 (some 2) 0,
       registry_op.set_msg_handler 10 (some 3) 5, registry_op.clear_handler 20]).1.2.2,
   ((registry_invariant MAX_HANDLERS (idle_dev ready_reg) rfl
      [registry_op.set_msg_handler 10 (some 1) 0, registry_op.set_msg_handler 20 (some 2) 0]).2
        10 (some 3) 5 0 (by decide) (by decide)).2.2.1,
   ((registry_invariant MAX_HANDLERS (idle_dev ready_reg) rfl
      [registry_op.set_msg_handler 10 (some 1) 0, registry_op.set_msg_handler 20 (some 2) 0]).2
        10 (some 3) 5 0 (by decide) (by decide)).2.1⟩

/-- C23: on a table that is full (`n_handlers` equals the capacity, codes
pairwise distinct), `dsp_set_msg_handler` with a code that is not there
returns -1 and leaves the table as it was, and with a code that is there
returns 0 and leaves `n_handlers` at the capacity.  (For every capacity
`max_handlers`, 16 in the code.) -/
theorem full_registry (max_handlers : Nat) (code : Nat) (handler : Option dsp_handler)
    (data : Nat) (dev : dsp_dev_t) (hfull : dev.n_handlers = max_handlers)
    (hd : codes_distinct max_handlers dev.handlers) :
    ((∀ j, j < max_handlers → (dev.handlers j).code ≠ code) →
      (dsp_set_msg_handler max_handlers code handler data dev).1 = -1 ∧
      (dsp_set_msg_handler max_handlers code handler data dev).2 = dev) ∧
    ((∃ j, j < max_handlers ∧ (dev.handlers j).code = code) →
      (dsp_set_msg_handler max_handlers code handler data dev).1 = 0 ∧
      (dsp_set_msg_handler max_handlers code handler data dev).2.n_handlers
        = max_handlers) := by
  constructor
  · intro ha
    rw [dsp_set_msg_handler_absent max_handlers code handler data dev
      (fun j hj => ha j (by omega)), if_neg (by omega)]
    exact ⟨rfl, rfl⟩
  · rintro ⟨j, hj, hc⟩
    have hf : ∀ l, l < j → (dev.handlers l).code ≠ code := by
      intro l hl e
      have := hd l (by omega) j hj (e.trans hc.symm)
      omega
    rw [dsp_set_msg_handler_present max_handlers code handler data dev j (by omega) hc hf]
    exact ⟨rfl, hfull⟩

/-- Witness of C23: capacity 2 with the codes 10 and 20; a third code 30
fails, replacing the code 10 keeps the count at 2. -/
theorem full_registry_witness :
    (dsp_set_msg_handler 2 30 (some 3) 0 two_handlers_dev).1 = -1 ∧
    (dsp_set_msg_handler 2 10 (some 3) 0 two_handlers_dev).1 = 0 ∧
    (dsp_set_msg_handler 2 10 (some 3) 0 two_handlers_dev).2.n_handlers = 2 :=
  ⟨((full_registry 2 30 (some 3) 0 two_handlers_dev rfl (by decide)).1 (by decide)).1,
   ((full_registry 2 10 (some 3) 0 two_handlers_dev rfl (by decide)).2
      ⟨0, by decide, rfl⟩).1,
   ((full_registry 2 10 (some 3) 0 two_handlers_dev rfl (by decide)).2
      ⟨0, by decide, rfl⟩).2⟩

/-- C24: for a table with `n_handlers <= MAX_HANDLERS`: when the code is among
the first `n_handlers` entries, first at index `i`, `dsp_clear_handler`
returns 0, takes one off `n_handlers`, keeps the entries before `i`, moves
each later entry down by one (so the others keep their order) and zeroes the
vacated last slot, leaving the entries from `n_handlers` on alone; when the
code is not there it returns -1 and leaves the table as it was. -/
theorem dsp_clear_handler_contract (code : Nat) (dev : dsp_dev_t)
    (hn : dev.n_handlers ≤ MAX_HANDLERS) :
    (∀ i : Nat, (i : Int) < dev.n_handlers → (dev.handlers i).code = code →
      (∀ j, j < i → (dev.handlers j).code ≠ code) →
      (dsp_clear_handler code dev).1 = 0 ∧
      (dsp_clear_handler code dev).2.n_handlers = dev.n_handlers - 1 ∧
      (∀ j : Nat, j < i → (dsp_clear_handler code dev).2.handlers j = dev.handlers j) ∧
      (∀ j : Nat, i ≤ j → (j : Int) < dev.n_handlers - 1 →
        (dsp_clear_handler code dev).2.handlers j = dev.handlers (j + 1)) ∧
      (dsp_clear_handler code dev).2.handlers (dev.n_handlers - 1).toNat = zero_entry ∧
      (∀ j : Nat, (j : Int) ≥ dev.n_handlers →
        (dsp_clear_handler code dev).2.handlers j = dev.handlers j)) ∧
    ((∀ j : Nat, (j : Int) < dev.n_handlers → (dev.handlers j).code ≠ code) →
      (dsp_clear_handler code dev).1 = -1 ∧ (dsp_clear_handler code dev).2 = dev) := by
  constructor
  · intro i hi hc hf
    rw [dsp_clear_handler_present code dev i hi hc hf]
    refine ⟨rfl, rfl, ?_, ?_, ?_, ?_⟩
    · intro j hj
      dsimp only
      rw [Function.update_noteq (by omega), if_neg (by omega)]
    · intro j h1 h2
      dsimp only
      rw [Function.update_noteq (by omega), if_pos (by omega)]
    · dsimp only
      rw [Function.update_same]
    · intro j hj
      dsimp only
      rw [Function.update_noteq (by omega), if_neg (by omega)]
  · intro ha
    rw [dsp_clear_handler_absent code dev ha]
    exact ⟨rfl, rfl⟩

/-- Witness of C24: the code 10 cleared from the table with the codes 10 and
20, and the absent code 30. -/
theorem dsp_clear_handler_contract_witness :
    (dsp_clear_handler 10 two_handlers_dev).1 = 0 ∧
    (dsp_clear_handler 10 two_handlers_dev).2.n_handlers = 2 - 1 ∧
    (dsp_clear_handler 10 two_handlers_dev).2.handlers 0 = two_handlers_dev.handlers (0 + 1) ∧
    (dsp_clear_handler 10 two_handlers_dev).2.handlers 1 = zero_entry ∧
    (dsp_clear_handler 30 two_handlers_dev).1 = -1 :=
  ⟨((dsp_clear_handler_contract 10 two_handlers_dev (by decide)).1 0 (by decide) rfl
      (fun j hj => absurd hj (Nat.not_lt_zero j))).1,
   ((dsp_clear_handler_contract 10 two_handlers_dev (by decide)).1 0 (by decide) rfl
      (fun j hj => absurd hj (Nat.not_lt_zero j))).2.1,
   ((dsp_clear_handler_contract 10 two_handlers_dev (by decide)).1 0 (by decide) rfl
      (fun j hj => absurd hj (Nat.not_lt_zero j))).2.2.2.1 0 (le_refl _) (by decide),
   ((dsp_clear_handler_contract 10 two_handlers_dev (by decide)).1 0 (by decide) rfl
      (fun j hj => absurd hj (Nat.not_lt_zero j))).2.2.2.2.1,
   ((dsp_clear_handler_contract 30 two_handlers_dev (by decide)).2
      (fun j hj => by
        have h2 : j < 2 := by
          have : (j : Int) < 2 := hj
          omega
        interval_cases j <;> decide)).1⟩

/-- C25, the code at the failing input: `dsp_vector_set` has `NUM_DSP_CMD = 17`
entries and 15 initialisers, so two entries are zero; for the command code 0,
which is none of the 15 codes, `dsp_lookup_vector` returns the first of them
(key 0, vector 0, `VECTOR_STANDARD`), not NULL. -/
theorem dsp_lookup_vector_zero_code :
    (0 : Nat) ∉ vector_codes example_consts ∧
    dsp_lookup_vector example_consts ⟨0, 0, 0, 0⟩
      = some ⟨0, 0, dsp_vector_type.VECTOR_STANDARD⟩ ∧
    dsp_lookup_vector example_consts ⟨0, 0, 0, 0⟩ ≠ none := by
  decide

/-- C26, the code at the failing input: with slot 0 taken and slot 1 free,
`dsp_configure` claims slot 1 (its `pci` is set and the two handlers are
registered there, slot 0 is untouched) and returns 0, not 1.  With both slots
taken it returns `-EPERM`. -/
theorem dsp_configure_second_card_returns_zero :
    free_slot_scan one_card_table 0 = 1 ∧
    (dsp_configure example_consts example_configure_consts kernel_grants (some 200)
      one_card_table).1 = 0 ∧
    ((dsp_configure example_consts example_configure_consts kernel_grants (some 200)
      one_card_table).2.get? 1).map (fun dev => dev.pci) = some (some 200) ∧
    ((dsp_configure example_consts example_configure_consts kernel_grants (some 200)
      one_card_table).2.get? 0).map (fun dev => dev.pci) = some (some 100) ∧
    ((dsp_configure example_consts example_configure_consts kernel_grants (some 200)
      one_card_table).2.get? 1).map (fun dev => dev.n_handlers) = some 2 ∧
    ((dsp_configure example_consts example_configure_consts kernel_grants (some 200)
      one_card_table).2.get? 0).map (fun dev => dev.n_handlers) = some 0 ∧
    (dsp_configure example_consts example_configure_consts kernel_grants (some 200)
      full_card_table).1 = -EPERM := by
  decide

/-- C27: for `max_index = N >= 1` and `head`, `tail`, `new_head` in `[0, N)`,
`data_frame_contribute` takes the "buffer trashed" path (it logs the error)
iff `head != tail` and `(new_head - head) mod N >= (tail - head) mod N`, and
iff the sum `d` of its three comparisons is not 2; `d` is always 1 or 2, and
it is 2 exactly when `head == tail` or `new_head` lies in the cyclic interval
`[head, tail)`, that is `(new_head - head) mod N < (tail - head) mod N`. -/
theorem data_frame_contribute_boundary (new_head : Int) (s : frame_buffer_t)
    (hN : 1 ≤ s.max_index) (hi : indices_within s.max_index s)
    (n0 : 0 ≤ new_head) (n1 : new_head < s.max_index) :
    ((data_frame_contribute new_head s).2.klog = trashed_msg :: s.klog ↔
      (s.head_index ≠ s.tail_index ∧
        (new_head - s.head_index) % s.max_index
          ≥ (s.tail_index - s.head_index) % s.max_index)) ∧
    ((data_frame_contribute new_head s).2.klog = trashed_msg :: s.klog ↔
      contribute_score new_head s ≠ 2) ∧
    (contribute_score new_head s = 1 ∨ contribute_score new_head s = 2) ∧
    (contribute_score new_head s = 2 ↔
      (s.head_index = s.tail_index ∨
        (new_head - s.head_index) % s.max_index
          < (s.tail_index - s.head_index) % s.max_index)) := by
  obtain ⟨h0, h1, t0, t1⟩ := hi
  have hsc : cyclic_order new_head s ↔ contribute_score new_head s = 2 :=
    cyclic_order_iff_score new_head s
  have hlog : (data_frame_contribute new_head s).2.klog = trashed_msg :: s.klog ↔
      ¬ cyclic_order new_head s := by
    by_cases c : cyclic_order new_head s
    · rw [data_frame_contribute_normal new_head s c]
      constructor
      · intro q
        exact absurd q.symm (List.cons_ne_self _ _)
      · intro q
        exact absurd c q
    · rw [data_frame_contribute_resync new_head s c]
      exact ⟨fun _ => c, fun _ => rfl⟩
  have hord : cyclic_order new_head s ↔
      (s.head_index = s.tail_index ∨
        (new_head - s.head_index) % s.max_index
          < (s.tail_index - s.head_index) % s.max_index) := by
    rw [emod_of_small (x := new_head - s.head_index) (by omega) (by omega),
      emod_of_small (x := s.tail_index - s.head_index) (by omega) (by omega)]
    unfold cyclic_order
    split <;> split <;> omega
  have hrange : contribute_score new_head s = 1 ∨ contribute_score new_head s = 2 := by
    unfold contribute_score b2i
    by_cases a : new_head ≥ s.head_index <;> by_cases b : s.head_index ≥ s.tail_index <;>
      by_cases c : s.tail_index > new_head <;> simp [a, b, c]
    all_goals omega
  refine ⟨?_, ?_, hrange, ?_⟩
  · rw [hlog, hord]
    constructor
    · intro q
      constructor
      · intro e; exact q (Or.inl e)
      · by_contra r
        exact q (Or.inr (by omega))
    · rintro ⟨q1, q2⟩ (e | e)
      · exact q1 e
      · omega
  · rw [hlog, hsc]
  · rw [← hsc, hord]

/-- Witness of C27: with `head = 1`, `tail = 3` of four frames, `new_head = 3`
reaches `tail` and `new_head = 2` does not. -/
theorem data_frame_contribute_boundary_witness :
    (data_frame_contribute 3 wrapped_buffer).2.klog = trashed_msg :: wrapped_buffer.klog ∧
    contribute_score 2 wrapped_buffer = 2 :=
  ⟨(data_frame_contribute_boundary 3 wrapped_buffer (by decide) (by decide) (by decide)
      (by decide)).1.mpr ⟨by decide, by decide⟩,
   (data_frame_contribute_boundary 2 wrapped_buffer (by decide) (by decide) (by decide)
      (by decide)).2.2.2.mpr (Or.inr (by decide))⟩

/-- C28: when `data_frame_divide` returns 0 leaving the buffer `r`, with
`DMA_ADDR_ALIGN = A = 2^k`, `DMA_ADDR_MASK = ~(A - 1)` (in 32 bits),
`data_size > 0` and `data_size + A - 1` in the range of `int`: `data_size <=
frame_size`; for every `0 <= i < max_index` the slot
`[i * frame_size, (i + 1) * frame_size)` lies inside `[0, size)`; hence every
range `data_copy_frame` reads, from `tail * frame_size + offset` for
`this_read` bytes with `0 <= tail < max_index` and
`offset + this_read <= data_size`, lies inside the region, and the address
`data_frame_address` computes for `0 <= head < max_index` leaves room for a
whole frame.  The size of the region, `size = S`, is the one before the call. -/
theorem data_frame_divide_slots (D : data_consts) (new_data_size : Int)
    (s r : frame_buffer_t) (k : Nat)
    (hA : D.DMA_ADDR_ALIGN = 2 ^ k) (hm : D.DMA_ADDR_MASK % 2 ^ 32 = 2 ^ 32 - 2 ^ k)
    (hr : data_frame_divide D new_data_size s = (0, r))
    (hds : 0 < r.data_size) (hov : r.data_size + D.DMA_ADDR_ALIGN - 1 < 2 ^ 31) :
    r.data_size ≤ r.frame_size ∧
    (∀ i : Int, 0 ≤ i → i < r.max_index →
      0 ≤ i * r.frame_size ∧ (i + 1) * r.frame_size ≤ r.size) ∧
    (∀ tail offset this_read : Int, 0 ≤ tail → tail < r.max_index → 0 ≤ offset →
      0 ≤ this_read → offset + this_read ≤ r.data_size →
      0 ≤ tail * r.frame_size + offset ∧
      tail * r.frame_size + offset + this_read ≤ r.size) ∧
    (∀ head : Int, 0 ≤ head → head < r.max_index →
      0 ≤ data_frame_address { r with head_index := head } ∧
      data_frame_address { r with head_index := head } + r.frame_size ≤ r.size) ∧
    r.size = s.size := by
  obtain ⟨d1, d2, d3, d4, -⟩ := data_frame_divide_ok D new_data_size s r hr
  have hpos : (0 : Int) < 2 ^ k := by positivity
  have hA0 : 0 < D.DMA_ADDR_ALIGN := by rw [hA]; exact hpos
  have hk : k ≤ 32 := by
    by_contra hc
    have h1 : (2 : Int) ^ 31 ≤ 2 ^ k := by
      have : (2 : Nat) ^ 31 ≤ 2 ^ k := Nat.pow_le_pow_right (by decide) (by omega)
      exact_mod_cast this
    rw [hA] at hov
    omega
  have hl := round_up_least r.data_size D.DMA_ADDR_ALIGN hA0
  have hfs : r.frame_size
      = (r.data_size + D.DMA_ADDR_ALIGN - 1) / D.DMA_ADDR_ALIGN * D.DMA_ADDR_ALIGN := by
    rw [d1, cand32_align _ _ k hk (by omega) hov hm, hA]
  have hle : r.data_size ≤ r.frame_size := by rw [hfs]; exact hl.2.1
  have hfpos : 0 < r.frame_size := by omega
  have hmax : r.max_index = r.size / r.frame_size := by
    rw [d2]
    exact (cdiv_frames r.size r.frame_size hfpos).2 (by rw [← d2]; exact d3)
  have hfit : r.max_index * r.frame_size ≤ r.size := by
    rw [hmax]
    exact Int.ediv_mul_le _ (by omega)
  have slot : ∀ i : Int, 0 ≤ i → i < r.max_index →
      0 ≤ i * r.frame_size ∧ (i + 1) * r.frame_size ≤ r.size := by
    intro i i0 i1
    refine ⟨Int.mul_nonneg i0 (le_of_lt hfpos), ?_⟩
    have : (i + 1) * r.frame_size ≤ r.max_index * r.frame_size :=
      Int.mul_le_mul_of_nonneg_right (by omega) (le_of_lt hfpos)
    omega
  refine ⟨hle, slot, ?_, ?_, d4⟩
  · intro tail offset this_read t0 t1 o0 r0 hsum
    obtain ⟨s1, s2⟩ := slot tail t0 t1
    have e : (tail + 1) * r.frame_size = tail * r.frame_size + r.frame_size := by ring
    constructor <;> omega
  · intro head h0 h1
    obtain ⟨s1, s2⟩ := slot head h0 h1
    have e : (head + 1) * r.frame_size = head * r.frame_size + r.frame_size := by ring
    have a : data_frame_address { r with head_index := head } = head * r.frame_size := by
      unfold data_frame_address
      exact Int.mul_comm _ _
    rw [a]
    constructor <;> omega

/-- Witness of C28: 4096 bytes divided for 2000-byte data with alignment 1024
give two frames of 2048 bytes, and both slots lie inside the region. -/
theorem data_frame_divide_slots_witness :
    data_frame_divide example_data_consts 2000 (reset_buffer 4096 1024 1024 4)
      = (0, reset_buffer 4096 2048 2000 2) ∧
    (reset_buffer 4096 2048 2000 2).data_size ≤ (reset_buffer 4096 2048 2000 2).frame_size ∧
    (∀ i : Int, 0 ≤ i → i < (reset_buffer 4096 2048 2000 2).max_index →
      0 ≤ i * (reset_buffer 4096 2048 2000 2).frame_size ∧
      (i + 1) * (reset_buffer 4096 2048 2000 2).frame_size
        ≤ (reset_buffer 4096 2048 2000 2).size) :=
  ⟨by decide,
   (data_frame_divide_slots example_data_consts 2000 (reset_buffer 4096 1024 1024 4)
      (reset_buffer 4096 2048 2000 2) 10 rfl (by decide) (by decide) (by decide)
      (by decide)).1,
   (data_frame_divide_slots example_data_consts 2000 (reset_buffer 4096 1024 1024 4)
      (reset_buffer 4096 2048 2000 2) 10 rfl (by decide) (by decide) (by decide)
      (by decide)).2.1⟩

end Mas
